import Mathlib

/-!
Shallow embedding of the Istio pilot v1alpha3 cluster builder
(`pilot/pkg/networking/core/v1alpha3/cluster.go`, the CDS output path) and
proofs about it.

Modelling conventions:
* Go structs become Lean structures; nil-able pointers become `Option`;
  Go slices become `List`; Go `uint32`/`int32` become `Nat`/`Int`, with an
  explicit `% 2^32` wherever the Go code performs wrapping 32-bit arithmetic.
* Mutation of a `*Cluster` becomes a function `Cluster → Cluster`.
* External collaborators that are not part of the repository fragment
  (registry queries, push-context lookups, envoyfilter patches, plugin
  callbacks, the locality load-balancer rewrite) are modelled as opaque
  inputs (function-valued fields) or, where the specification pins down
  only that they rewrite data in place, as identity transformations.
  Each such place carries a comment.
* Cluster names are plain strings built with the exact wire grammar
  (`outbound|port|subset|host` and the DNS-SRV form).
-/

namespace IstioCDS

/-- Protobuf `Duration` (seconds + nanos), used for timeouts. -/
structure Duration where
  seconds : Int
  nanos : Int
deriving DecidableEq, Repr

/-- The xDS traffic direction, `model.TrafficDirection` (`outbound`/`inbound`). -/
inductive TrafficDirection
  | outbound
  | inbound
deriving DecidableEq, Repr

/-- The wire string of a traffic direction, as used in cluster names. -/
def trafficDirectionString : TrafficDirection → String
  | .outbound => "outbound"
  | .inbound => "inbound"

/-- Port protocols (`pkg/config/protocol`); only the ones the cluster builder
inspects are distinguished, every other protocol behaves like `TCP` here. -/
inductive Protocol
  | TCP
  | UDP
  | HTTP
  | HTTP2
  | GRPC
  | Redis
  | Unsupported
deriving DecidableEq, Repr

/-- Protocol.IsHTTP2 from `pkg/config/protocol`: HTTP2-based protocols. -/
def Protocol.isHTTP2 : Protocol → Bool
  | .HTTP2 => true
  | .GRPC => true
  | _ => false

/-- protocol.Parse for sidecar ingress listener port protocols
(case-insensitive name lookup; unknown names map to Unsupported). -/
def protocolParse (s : String) : Protocol :=
  match s.toLower with
  | "tcp" => .TCP
  | "udp" => .UDP
  | "http" => .HTTP
  | "http2" => .HTTP2
  | "grpc" => .GRPC
  | "redis" => .Redis
  | _ => .Unsupported

/-- model.Port: a service port. -/
structure Port where
  name : String
  port : Nat
  protocol : Protocol
deriving DecidableEq, Repr

/-- Envoy cluster discovery types used by this builder (`apiv2.Cluster_DiscoveryType`).
The Go `Cluster.ClusterDiscoveryType` oneof is always populated with
`Cluster_Type` by this file, so it is modelled as a plain enum field. -/
inductive DiscoveryType
  | EDS
  | STATIC
  | STRICT_DNS
  | ORIGINAL_DST
deriving DecidableEq, Repr

/-- Envoy cluster LB policies reachable from this builder. -/
inductive LbPolicy
  | ROUND_ROBIN
  | LEAST_REQUEST
  | RANDOM
  | RING_HASH
  | MAGLEV
  | CLUSTER_PROVIDED
  | ORIGINAL_DST_LB
deriving DecidableEq, Repr

/-- An Envoy socket address (util.BuildAddress output, address:port form).
The port is the `uint32` value passed to BuildAddress. -/
structure Address where
  address : String
  port : Nat
deriving DecidableEq, Repr

/-- Metadata attached to an LB endpoint by util.BuildLbEndpointMetadata:
endpoint UID, network and the mTLS-ready flag. -/
structure LbEndpointMetadata where
  uid : String
  network : String
  mtlsReady : Bool
deriving DecidableEq, Repr

/-- endpoint.LbEndpoint: one load-balancing endpoint. `loadBalancingWeight`
is a nil-able `UInt32Value` wrapper, hence `Option Nat`. -/
structure LbEndpoint where
  address : Address
  loadBalancingWeight : Option Nat
  metadata : Option LbEndpointMetadata
deriving DecidableEq, Repr

/-- endpoint.LocalityLbEndpoints: a locality-grouped endpoint list with its
own (nil-able) weight. -/
structure LocalityLbEndpoints where
  locality : String
  lbEndpoints : List LbEndpoint
  loadBalancingWeight : Option Nat
deriving DecidableEq, Repr

/-- apiv2.ClusterLoadAssignment: the inline endpoints of a cluster. -/
structure ClusterLoadAssignment where
  clusterName : String
  endpoints : List LocalityLbEndpoints
deriving DecidableEq, Repr

/-- A file-based `core.DataSource`. -/
structure DataSourceFile where
  filename : String
deriving DecidableEq, Repr

/-- auth.TlsCertificate (file-mount form). -/
structure TlsCertificate where
  certificateChain : DataSourceFile
  privateKey : DataSourceFile
deriving DecidableEq, Repr

/-- auth.CertificateValidationContext. -/
structure CertificateValidationContext where
  trustedCa : Option DataSourceFile
  verifySubjectAltName : List String
deriving DecidableEq, Repr

/-- An SDS secret-config reference (authn_model.ConstructSdsSecretConfig is
outside the repository fragment; its output is modelled as the resource name
plus the SDS socket path it references). -/
structure SdsSecretConfig where
  resourceName : String
  sdsUdsPath : String
deriving DecidableEq, Repr

/-- auth.CommonTlsContext.ValidationContextType oneof. -/
inductive ValidationContextType
  | validationContext (v : CertificateValidationContext)
  | combined (defaultValidationContext : CertificateValidationContext)
      (validationContextSdsSecretConfig : SdsSecretConfig)
deriving DecidableEq, Repr

/-- auth.CommonTlsContext. -/
structure CommonTlsContext where
  validationContextType : Option ValidationContextType
  tlsCertificates : List TlsCertificate
  tlsCertificateSdsSecretConfigs : List SdsSecretConfig
  alpnProtocols : List String
deriving DecidableEq, Repr

/-- auth.UpstreamTlsContext. -/
structure UpstreamTlsContext where
  commonTlsContext : CommonTlsContext
  sni : String
deriving DecidableEq, Repr

/-- core.TransportSocket. `typedConfig` carries the marshaled upstream TLS
context; `ptypes.MarshalAny` is modelled as the identity embedding (it can
fail only on a nil message, which the call site handles separately). -/
structure TransportSocket where
  name : String
  typedConfig : Option UpstreamTlsContext
deriving DecidableEq, Repr

/-- apiv2.Cluster_TransportSocketMatch. The `Match` struct is a flat
string-to-string metadata label match. (`match` is a Lean keyword, hence
`matchLabels`.) -/
structure TransportSocketMatch where
  name : String
  matchLabels : List (String × String)
  transportSocket : TransportSocket
deriving DecidableEq, Repr

/-- v2Cluster.CircuitBreakers_Thresholds (all fields nil-able wrappers). -/
structure CircuitBreakersThresholds where
  maxConnections : Option Nat
  maxPendingRequests : Option Nat
  maxRequests : Option Nat
  maxRetries : Option Nat
deriving DecidableEq, Repr

/-- v2Cluster.OutlierDetection, restricted to the fields this builder writes. -/
structure OutlierDetectionOut where
  baseEjectionTime : Option Duration
  interval : Option Duration
  maxEjectionPercent : Option Nat
  enforcingConsecutiveGatewayFailure : Option Nat
  enforcingConsecutive5xx : Option Nat
  consecutiveGatewayFailure : Option Nat
deriving DecidableEq, Repr

/-- apiv2.Cluster_CommonLbConfig: the healthy-panic threshold percentage
(written only with integral values here, so modelled as `Int`) and whether
the locality-weighted LB config specifier is installed. -/
structure CommonLbConfig where
  healthyPanicThreshold : Option Int
  localityWeightedLbConfig : Bool
deriving DecidableEq, Repr

/-- core.TcpKeepalive as written by applyTCPKeepalive. -/
structure TcpKeepaliveOut where
  keepaliveProbes : Option Nat
  keepaliveTime : Option Nat
  keepaliveInterval : Option Nat
deriving DecidableEq, Repr

/-- apiv2.Cluster_EdsClusterConfig: the EDS service name plus the ADS config
source (whose only variable part is the initial fetch timeout). -/
structure EdsClusterConfig where
  serviceName : String
  initialFetchTimeout : Duration
deriving DecidableEq, Repr

/-- apiv2.Cluster_ClusterProtocolSelection. -/
inductive ProtocolSelection
  | USE_CONFIGURED_PROTOCOL
  | USE_DOWNSTREAM_PROTOCOL
deriving DecidableEq, Repr

/-- apiv2.Cluster_DnsLookupFamily. -/
inductive DnsLookupFamily
  | AUTO
  | V4_ONLY
deriving DecidableEq, Repr

/-- The output entity: an Envoy cluster, restricted to the fields this
builder reads or writes. Proto zero values: name "", type STATIC,
lbPolicy ROUND_ROBIN, everything else absent. -/
structure Cluster where
  name : String
  clusterDiscoveryType : DiscoveryType
  edsClusterConfig : Option EdsClusterConfig
  loadAssignment : Option ClusterLoadAssignment
  lbPolicy : LbPolicy
  lbConfigRingHashMinimumRingSize : Option Nat
  tlsContext : Option UpstreamTlsContext
  transportSocketMatches : List TransportSocketMatch
  circuitBreakers : Option (List CircuitBreakersThresholds)
  outlierDetection : Option OutlierDetectionOut
  commonLbConfig : Option CommonLbConfig
  connectTimeout : Option Duration
  maxRequestsPerConnection : Option Nat
  commonHttpProtocolOptionsIdleTimeout : Option Duration
  upstreamConnectionOptions : Option TcpKeepaliveOut
  http2ProtocolOptionsMaxConcurrentStreams : Option Nat
  protocolSelection : ProtocolSelection
  dnsLookupFamily : DnsLookupFamily
  dnsRefreshRate : Option Duration
  respectDnsTtl : Bool
  altStatName : String
  metadataConfigSource : Option (String × String)
  upstreamBindConfigSourceAddress : Option Address
deriving DecidableEq, Repr

/-- A cluster with every field at its proto zero value. -/
def emptyCluster : Cluster where
  name := ""
  clusterDiscoveryType := .STATIC
  edsClusterConfig := none
  loadAssignment := none
  lbPolicy := .ROUND_ROBIN
  lbConfigRingHashMinimumRingSize := none
  tlsContext := none
  transportSocketMatches := []
  circuitBreakers := none
  outlierDetection := none
  commonLbConfig := none
  connectTimeout := none
  maxRequestsPerConnection := none
  commonHttpProtocolOptionsIdleTimeout := none
  upstreamConnectionOptions := none
  http2ProtocolOptionsMaxConcurrentStreams := none
  protocolSelection := .USE_CONFIGURED_PROTOCOL
  dnsLookupFamily := .AUTO
  dnsRefreshRate := none
  respectDnsTtl := false
  altStatName := ""
  metadataConfigSource := none
  upstreamBindConfigSourceAddress := none

/-- networking.TLSSettings_TLSmode. `ISTIO_MUTUAL` is the mesh-mutual mode. -/
inductive TLSmode
  | DISABLE
  | SIMPLE
  | MUTUAL
  | ISTIO_MUTUAL
deriving DecidableEq, Repr

/-- networking.TLSSettings: the logical TLS intent of a destination rule. -/
structure TLSSettings where
  mode : TLSmode
  clientCertificate : String
  privateKey : String
  caCertificates : String
  subjectAltNames : List String
  sni : String
deriving DecidableEq, Repr

/-- networking.ConnectionPoolSettings_TCPSettings_TcpKeepalive (also used for
the mesh-wide keepalive record). -/
structure TcpKeepaliveSettings where
  probes : Nat
  time : Option Duration
  interval : Option Duration
deriving DecidableEq, Repr

/-- networking.ConnectionPoolSettings_TCPSettings. -/
structure TCPSettings where
  connectTimeout : Option Duration
  maxConnections : Int
  tcpKeepalive : Option TcpKeepaliveSettings
deriving DecidableEq, Repr

/-- networking.ConnectionPoolSettings_HTTPSettings. -/
structure HTTPSettings where
  http2MaxRequests : Int
  http1MaxPendingRequests : Int
  maxRequestsPerConnection : Int
  maxRetries : Int
  idleTimeout : Option Duration
deriving DecidableEq, Repr

/-- networking.ConnectionPoolSettings. -/
structure ConnectionPoolSettings where
  tcp : Option TCPSettings
  http : Option HTTPSettings
deriving DecidableEq, Repr

/-- networking.OutlierDetection (input side). -/
structure OutlierDetection where
  consecutiveErrors : Int
  baseEjectionTime : Option Duration
  interval : Option Duration
  maxEjectionPercent : Int
  minHealthPercent : Int
deriving DecidableEq, Repr

/-- networking.LoadBalancerSettings_SimpleLB. -/
inductive SimpleLB
  | ROUND_ROBIN
  | LEAST_CONN
  | RANDOM
  | PASSTHROUGH
deriving DecidableEq, Repr

/-- networking.LoadBalancerSettings_ConsistentHashLB (only the ring size is
consumed by this builder). -/
structure ConsistentHashLB where
  minimumRingSize : Nat
deriving DecidableEq, Repr

/-- The oneof inside networking.LoadBalancerSettings. -/
inductive LbPolicyChoice
  | simple (s : SimpleLB)
  | consistentHash (h : ConsistentHashLB)
deriving DecidableEq, Repr

/-- networking.LoadBalancerSettings. -/
structure LoadBalancerSettings where
  lbPolicy : Option LbPolicyChoice
deriving DecidableEq, Repr

/-- lb.GetSimple(): yields the simple choice, or the zero enum value
(ROUND_ROBIN) when the oneof is unset or holds a consistent-hash config. -/
def LoadBalancerSettings.getSimple : LoadBalancerSettings → SimpleLB
  | ⟨some (.simple s)⟩ => s
  | _ => .ROUND_ROBIN

/-- lb.GetConsistentHash(): yields the consistent-hash config if that arm of
the oneof is set. -/
def LoadBalancerSettings.getConsistentHash : LoadBalancerSettings → Option ConsistentHashLB
  | ⟨some (.consistentHash h)⟩ => some h
  | _ => none

/-- networking.PortSelector (only numeric selection is used here). -/
structure PortSelector where
  number : Nat
deriving DecidableEq, Repr

/-- networking.TrafficPolicy_PortTrafficPolicy: a port-level override entry. -/
structure PortTrafficPolicy where
  port : Option PortSelector
  connectionPool : Option ConnectionPoolSettings
  outlierDetection : Option OutlierDetection
  loadBalancer : Option LoadBalancerSettings
  tls : Option TLSSettings
deriving DecidableEq, Repr

/-- networking.TrafficPolicy. -/
structure TrafficPolicy where
  connectionPool : Option ConnectionPoolSettings
  outlierDetection : Option OutlierDetection
  loadBalancer : Option LoadBalancerSettings
  tls : Option TLSSettings
  portLevelSettings : List PortTrafficPolicy
deriving DecidableEq, Repr

/-- networking.Subset of a destination rule. Labels are the flat label map. -/
structure Subset where
  name : String
  labels : List (String × String)
  trafficPolicy : Option TrafficPolicy
deriving DecidableEq, Repr

/-- networking.DestinationRule. -/
structure DestinationRule where
  trafficPolicy : Option TrafficPolicy
  subsets : List Subset
deriving DecidableEq, Repr

/-- model.ConfigMeta, reduced to the identity used for lineage metadata
(`namespace` is a Lean keyword, hence `ns`). -/
structure ConfigMeta where
  name : String
  ns : String
deriving DecidableEq, Repr

/-- A destination-rule config as returned by push.DestinationRule: the rule
plus its config metadata. -/
structure DestinationRuleConfig where
  configMeta : ConfigMeta
  rule : DestinationRule
deriving DecidableEq, Repr

/-- model.Resolution: how a service's endpoints are discovered. -/
inductive Resolution
  | ClientSideLB
  | DNSLB
  | Passthrough
deriving DecidableEq, Repr

/-- model.ServiceAttributes (fields consumed by altStatName). -/
structure ServiceAttributes where
  name : String
  ns : String
  serviceRegistry : String
deriving DecidableEq, Repr

/-- model.Service. Hostname is the mesh-unique FQDN. -/
structure Service where
  hostname : String
  ports : List Port
  resolution : Resolution
  meshExternal : Bool
  attributes : ServiceAttributes
deriving DecidableEq, Repr

/-- model.AddressFamily of an endpoint. -/
inductive AddressFamily
  | TCP
  | Unix
deriving DecidableEq, Repr

/-- model.NetworkEndpoint. `port` is a Go `int` (it can come from Atoi on a
user string), hence `Int`. -/
structure NetworkEndpoint where
  address : String
  port : Int
  servicePort : Port
  family : AddressFamily
  uid : String
  network : String
  locality : String
  lbWeight : Nat
deriving DecidableEq, Repr

/-- model.ServiceInstance. `mtlsReady` is the instance's MTLSReady flag and
`locality` is surfaced through GetLocality(). -/
structure ServiceInstance where
  endpoint : NetworkEndpoint
  service : Service
  labels : List (String × String)
  serviceAccount : String
  mtlsReady : Bool
deriving DecidableEq, Repr

/-- instance.GetLocality(). -/
def ServiceInstance.getLocality (i : ServiceInstance) : String :=
  i.endpoint.locality

/-- The mesh-wide configuration fields this builder reads
(meshconfig.MeshConfig). `localityLbSettingPresent` models the nil check on
`env.Mesh.LocalityLbSetting`; its contents are consumed only by the external
locality rewrite. -/
structure MeshConfig where
  connectTimeout : Duration
  enableAutoMtls : Bool
  sdsUdsPath : String
  outboundClusterStatName : String
  inboundClusterStatName : String
  dnsRefreshRate : Duration
  tcpKeepalive : Option TcpKeepaliveSettings
  localityLbSettingPresent : Bool

/-- The global feature flags (`pilot/pkg/features`) this builder reads; the
Go code reads them as package-level state, the model passes them explicitly. -/
structure Features where
  enableRedisFilter : Bool
  respectDNSTTL : Bool
  initialFetchTimeout : Duration
  enableProtocolSniffingForInbound : Bool
  enableProtocolSniffingForOutbound : Bool

/-- model.Environment. The registry queries (InstancesByPort,
ManagementPorts) are external collaborators; they are modelled as opaque
function-valued fields. InstancesByPort is keyed by the service's hostname
(the registry identifies services by hostname), the port number, and the
label collection filter; the error case models a failed registry query. -/
structure Environment where
  mesh : MeshConfig
  features : Features
  instancesByPort : String → Nat → List (List (String × String)) → Except String (List ServiceInstance)
  managementPorts : String → List Port

/-- model.NodeType: sidecar or gateway (the orchestrator treats every
non-sidecar proxy through its gateway branch, and istio's only other node
type is Router). -/
inductive ProxyType
  | SidecarProxy
  | Router
deriving DecidableEq, Repr

/-- model.RouterMode of a gateway. -/
inductive RouterMode
  | standard
  | sniDnat
deriving DecidableEq, Repr

/-- model.InterceptionMode. -/
inductive InterceptionMode
  | redirect
  | tproxy
  | interceptionNone
deriving DecidableEq, Repr

/-- The proxy metadata fields this builder reads: client TLS material
overrides (empty string = unset). -/
structure ProxyMetadata where
  tlsClientCertChain : String
  tlsClientKey : String
  tlsClientRootCert : String
deriving DecidableEq, Repr

/-- A declared sidecar ingress listener port (networking.Port inside
IstioIngressListener, protocol still in string form). -/
structure IngressPort where
  number : Nat
  protocol : String
  name : String
deriving DecidableEq, Repr

/-- networking.IstioIngressListener. -/
structure IstioIngressListener where
  port : IngressPort
  defaultEndpoint : String
deriving DecidableEq, Repr

/-- The sidecar resource backing a custom sidecar scope: config name,
namespace and its ingress listeners. -/
structure SidecarConfig where
  name : String
  ns : String
  ingress : List IstioIngressListener
deriving DecidableEq, Repr

/-- model.SidecarScope, reduced to the fields the inbound generator reads.
When `hasCustomIngressListeners` is set the Go code dereferences
`sidecarScope.Config` unconditionally; a scope with the flag set and no
config would crash the Go builder, so the model requires `config` to be
present for the custom branch to produce clusters. -/
structure SidecarScope where
  hasCustomIngressListeners : Bool
  config : Option SidecarConfig
deriving DecidableEq, Repr

/-- model.Proxy. `istioVersionGE13` models util.IsIstioVersionGE13(proxy),
`localityPresent` the nil check on proxy.Locality, and `networkView` the
set model.GetNetworkView builds from the proxy metadata (membership is all
the builder consumes). -/
structure Proxy where
  type : ProxyType
  ipAddresses : List String
  istioVersionGE13 : Bool
  metadata : ProxyMetadata
  sidecarScope : SidecarScope
  interceptionMode : InterceptionMode
  serviceInstances : List ServiceInstance
  localityPresent : Bool
  routerMode : RouterMode
  networkView : List String
deriving DecidableEq, Repr

/-- proxy.GetInterceptionMode() == model.InterceptionNone. -/
def Proxy.isNoneMode (p : Proxy) : Bool :=
  p.interceptionMode = .interceptionNone

/-- The push-context lookups the builder performs, for one requesting proxy:
the per-proxy visible service list (push.Services), the destination-rule
lookup (push.DestinationRule, keyed by the service hostname) and the
service-account table (push.ServiceAccounts[hostname][port]). These are
external collaborators, modelled as opaque fields. -/
structure PushContext where
  services : List Service
  destinationRuleByHost : String → Option DestinationRuleConfig
  serviceAccounts : String → Nat → List String

/-- A normalization event recorded on the push context
(`push.Add(model.DuplicatedClusters, name, proxy, msg)`). -/
structure PushEvent where
  metric : String
  cluster : String
  message : String
deriving DecidableEq, Repr

/-- The duplicate-cluster event recorded by normalizeClusters. -/
def duplicateClusterEvent (name : String) : PushEvent where
  metric := "DuplicatedClusters"
  cluster := name
  message := "Duplicate cluster " ++ name ++ " found while pushing CDS"

/-- The loop body of normalizeClusters: `seen` is the `have` map of names
already encountered (membership is all that matters). Every scanned name is
inserted into the map whether or not the cluster is kept, exactly as the Go
loop sets `have[cluster.Name] = true` unconditionally. -/
def normalizeLoop (seen : List String) : List Cluster → List Cluster × List PushEvent
  | [] => ([], [])
  | c :: rest =>
    let r := normalizeLoop (c.name :: seen) rest
    if seen.contains c.name then
      (r.1, duplicateClusterEvent c.name :: r.2)
    else
      (c :: r.1, r.2)

/-- normalizeClusters: resolves cluster name conflicts; for clusters sharing
a name the first is kept and the others are discarded, each discard
recording a duplicate event on the push context. -/
def normalizeClusters (clusters : List Cluster) : List Cluster × List PushEvent :=
  normalizeLoop [] clusters

/-- Specification-side rendering of the §4.1 normalization rule (kept
entries): scan in emission order, keep the first occurrence of each name.
Written independently of `normalizeClusters` for the refinement proof. -/
def specKeepFirst (seen : List String) : List Cluster → List Cluster
  | [] => []
  | c :: rest =>
    if c.name ∈ seen then specKeepFirst seen rest
    else c :: specKeepFirst (c.name :: seen) rest

/-- Specification-side rendering of the §4.1 normalization rule (events):
one duplicate event, in scan order, for every rejected cluster. -/
def specDupEvents (seen : List String) : List Cluster → List PushEvent
  | [] => []
  | c :: rest =>
    if c.name ∈ seen then duplicateClusterEvent c.name :: specDupEvents seen rest
    else specDupEvents (c.name :: seen) rest

/-! Well-known names and constants. The util/constants packages holding them
are outside the repository fragment; the values are the fixed wire strings
the specification names in §6 and §4.3. -/

/-- util.BlackHoleCluster. -/
def blackHoleClusterName : String := "BlackHoleCluster"

/-- util.PassthroughCluster. -/
def passthroughClusterName : String := "PassthroughCluster"

/-- util.InboundPassthroughClusterIpv4. -/
def inboundPassthroughClusterIpv4 : String := "InboundPassthroughClusterIpv4"

/-- util.InboundPassthroughClusterIpv6. -/
def inboundPassthroughClusterIpv6 : String := "InboundPassthroughClusterIpv6"

/-- util.InboundPassthroughBindIpv4: fixed loopback-local source bind. -/
def inboundPassthroughBindIpv4 : String := "127.0.0.6"

/-- util.InboundPassthroughBindIpv6. -/
def inboundPassthroughBindIpv6 : String := "::6"

/-- util.EnvoyRawBufferSocketName (plaintext raw-buffer transport socket). -/
def envoyRawBufferSocketName : String := "raw_buffer"

/-- util.EnvoyTLSSocketName. -/
def envoyTLSSocketName : String := "tls"

/-- util.ALPNH2Only. -/
def alpnH2Only : List String := ["h2"]

/-- util.ALPNInMeshH2. -/
def alpnInMeshH2 : List String := ["istio", "h2"]

/-- util.ALPNInMesh. -/
def alpnInMesh : List String := ["istio"]

/-- model.MTLSReadyLabelShortname: the endpoint metadata label keying mTLS
readiness in transport-socket matches. -/
def mtlsReadyLabelShortname : String := "tlsMode"

/-- constants.DefaultRootCert: fixed default CA certificate path. -/
def defaultRootCert : String := "/etc/certs/root-cert.pem"

/-- constants.DefaultCertChain: fixed default client certificate chain path. -/
def defaultCertChain : String := "/etc/certs/cert-chain.pem"

/-- constants.DefaultKey: fixed default client private key path. -/
def defaultKey : String := "/etc/certs/key.pem"

/-- authn_model.SDSDefaultResourceName. -/
def sdsDefaultResourceName : String := "default"

/-- authn_model.SDSRootResourceName. -/
def sdsRootResourceName : String := "ROOTCA"

/-- ManagementClusterHostname (const in cluster.go). -/
def managementClusterHostname : String := "mgmtCluster"

/-- serviceregistry.KubernetesRegistry. -/
def kubernetesRegistry : String := "Kubernetes"

/-- model.GetOrDefault: the string if non-empty, otherwise the default. -/
def getOrDefault (s dflt : String) : String :=
  if s.length > 0 then s else dflt

/-- A Go `int64`/`int32` value converted to `uint32` (two's-complement low
32 bits). -/
def intToUint32 (i : Int) : Nat :=
  (i % (2 ^ 32 : Int)).toNat

/-- model.BuildSubsetKey: the wire-exact subset-key cluster name grammar
`direction|port|subsetName|hostname`. -/
def buildSubsetKey (direction : TrafficDirection) (subsetName hostname : String) (port : Nat) : String :=
  trafficDirectionString direction ++ "|" ++ toString port ++ "|" ++ subsetName ++ "|" ++ hostname

/-- model.BuildDNSSrvSubsetKey: the DNS-SRV-shaped cluster name grammar
`direction_.port_.subsetName_.hostname` used for SNI-DNAT clusters. -/
def buildDNSSrvSubsetKey (direction : TrafficDirection) (subsetName hostname : String) (port : Nat) : String :=
  trafficDirectionString direction ++ "_." ++ toString port ++ "_." ++ subsetName ++ "_." ++ hostname

/-- shortHostName: for Kubernetes-registry services `name.namespace`,
otherwise the host unchanged. -/
def shortHostName (host : String) (attributes : ServiceAttributes) : String :=
  if attributes.serviceRegistry = kubernetesRegistry then
    attributes.name ++ "." ++ attributes.ns
  else host

/-- altStatName: the alternate stat-name template substitution of §6. -/
def altStatName (statPattern host subset : String) (port : Port) (attributes : ServiceAttributes) : String :=
  ((((statPattern.replace "%SERVICE%" (shortHostName host attributes)).replace
      "%SERVICE_FQDN%" host).replace
      "%SUBSET_NAME%" subset).replace
      "%SERVICE_PORT%" (toString port.port)).replace
      "%SERVICE_PORT_NAME%" port.name

/-- util.BuildAddress. -/
def buildAddress (addr : String) (port : Nat) : Address :=
  ⟨addr, port⟩

/-- The default circuit-breaker thresholds for inbound clusters (empty). -/
def defaultInboundCircuitBreakerThresholds : CircuitBreakersThresholds :=
  ⟨none, none, none, none⟩

/-- The default circuit-breaker thresholds for outbound clusters: max
parallel retries raised to 1024. -/
def defaultOutboundCircuitBreakerThresholds : CircuitBreakersThresholds :=
  ⟨none, none, none, some 1024⟩

/-- getDefaultCircuitBreakerThresholds (returns a fresh copy per call). -/
def getDefaultCircuitBreakerThresholds : TrafficDirection → CircuitBreakersThresholds
  | .inbound => defaultInboundCircuitBreakerThresholds
  | .outbound => defaultOutboundCircuitBreakerThresholds

/-- The `plaintext` catch-all transport-socket match (package-level var). -/
def plaintextTransportSocketMatch : TransportSocketMatch :=
  ⟨"plaintext", [], ⟨envoyRawBufferSocketName, none⟩⟩

/-- mtlsContextType: whether the TLS context was user-supplied or
auto-synthesized. -/
inductive MtlsContextType
  | userSupplied
  | autoDetected
deriving DecidableEq, Repr

/-- The port-level scan of SelectTrafficPolicyComponents: iterate the
declared entries; an entry whose (non-nil) port selector equals the target
port replaces all four facets wholesale and stops the scan. -/
def selectPortLevelLoop (portNumber : Nat)
    (current : Option ConnectionPoolSettings × Option OutlierDetection ×
      Option LoadBalancerSettings × Option TLSSettings) :
    List PortTrafficPolicy →
      Option ConnectionPoolSettings × Option OutlierDetection ×
      Option LoadBalancerSettings × Option TLSSettings
  | [] => current
  | p :: rest =>
    let foundPort : Bool :=
      match p.port with
      | some sel => portNumber = sel.number
      | none => false
    if foundPort then (p.connectionPool, p.outlierDetection, p.loadBalancer, p.tls)
    else selectPortLevelLoop portNumber current rest

/-- SelectTrafficPolicyComponents: the four traffic-policy facets effective
for the given port. -/
def SelectTrafficPolicyComponents (policy : Option TrafficPolicy) (port : Option Port) :
    Option ConnectionPoolSettings × Option OutlierDetection ×
    Option LoadBalancerSettings × Option TLSSettings :=
  match policy with
  | none => (none, none, none, none)
  | some policy =>
    let base := (policy.connectionPool, policy.outlierDetection, policy.loadBalancer, policy.tls)
    match port with
    | some port =>
      if policy.portLevelSettings.length > 0 then
        selectPortLevelLoop port.port base policy.portLevelSettings
      else base
    | none => base

/-- buildIstioMutualTLS: a TLSSettings for ISTIO_MUTUAL mode, with key
material from the proxy metadata overrides or the fixed defaults. -/
def buildIstioMutualTLS (serviceAccounts : List String) (sni : String) (proxy : Proxy) : TLSSettings where
  mode := .ISTIO_MUTUAL
  caCertificates := getOrDefault proxy.metadata.tlsClientRootCert defaultRootCert
  clientCertificate := getOrDefault proxy.metadata.tlsClientCertChain defaultCertChain
  privateKey := getOrDefault proxy.metadata.tlsClientKey defaultKey
  subjectAltNames := serviceAccounts
  sni := sni

/-- The shared ISTIO_MUTUAL arm of conditionallyConvertToIstioMtls: fill SNI
and SANs from the intent if present, else from the hints, and rebuild the
settings with the proxy's key material. -/
def istioMutualFill (t : TLSSettings) (serviceAccounts : List String) (sni : String)
    (proxy : Proxy) : TLSSettings :=
  let sniToUse := if t.sni.length = 0 then sni else t.sni
  let subjectAltNamesToUse :=
    if t.subjectAltNames.length = 0 then serviceAccounts else t.subjectAltNames
  buildIstioMutualTLS subjectAltNamesToUse sniToUse proxy

/-- conditionallyConvertToIstioMtls: fills key-cert fields for ISTIO_MUTUAL
settings; when the input setting is absent and auto-mTLS applies (enabled
and not mesh-external), synthesizes an ISTIO_MUTUAL intent and marks the
context auto-detected. -/
def conditionallyConvertToIstioMtls (tls : Option TLSSettings) (serviceAccounts : List String)
    (sni : String) (proxy : Proxy) (autoMTLSEnabled : Bool) (meshExternal : Bool) :
    Option TLSSettings × MtlsContextType :=
  match tls with
  | none =>
    if meshExternal || !autoMTLSEnabled then
      (none, .userSupplied)
    else
      let t : TLSSettings := ⟨.ISTIO_MUTUAL, "", "", "", [], ""⟩
      (some (istioMutualFill t serviceAccounts sni proxy), .autoDetected)
  | some t =>
    if t.mode = .ISTIO_MUTUAL then
      (some (istioMutualFill t serviceAccounts sni proxy), .userSupplied)
    else
      (some t, .userSupplied)

/-- applyUpstreamTLSSettings: applies the resolved TLS setting to the
cluster. The trailing transport-socket-match conversion runs on every path
that does not return early; `ptypes.MarshalAny` is modelled as the identity
embedding, failing exactly on a nil TLS context (in which case the cluster
is emitted without TLS, as in the Go error path). -/
def applyUpstreamTLSSettings (env : Environment) (cluster : Cluster) (tls : Option TLSSettings)
    (mtlsCtxType : MtlsContextType) (proxy : Proxy) : Cluster :=
  match tls with
  | none => cluster
  | some tls =>
    let trustedCa : Option DataSourceFile :=
      if tls.caCertificates.length ≠ 0 then
        some ⟨getOrDefault proxy.metadata.tlsClientRootCert tls.caCertificates⟩
      else none
    let certValidationContext : CertificateValidationContext :=
      if trustedCa.isSome || tls.subjectAltNames.length > 0 then
        ⟨trustedCa, tls.subjectAltNames⟩
      else ⟨none, []⟩
    let convert : Cluster → Cluster := fun c =>
      if tls.mode = .ISTIO_MUTUAL ∧ mtlsCtxType = .autoDetected then
        match c.tlsContext with
        | none => { c with tlsContext := none }
        | some ctx =>
          { c with
              tlsContext := none
              transportSocketMatches :=
                [⟨"mtls", [(mtlsReadyLabelShortname, "true")],
                    ⟨envoyTLSSocketName, some ctx⟩⟩,
                  plaintextTransportSocketMatch] }
      else c
    match tls.mode with
    | .DISABLE =>
      convert { cluster with tlsContext := none }
    | .SIMPLE =>
      let ctx : UpstreamTlsContext :=
        { commonTlsContext :=
            { validationContextType := some (.validationContext certValidationContext)
              tlsCertificates := []
              tlsCertificateSdsSecretConfigs := []
              alpnProtocols :=
                if cluster.http2ProtocolOptionsMaxConcurrentStreams.isSome then alpnH2Only
                else [] }
          sni := tls.sni }
      convert { cluster with tlsContext := some ctx }
    | .MUTUAL | .ISTIO_MUTUAL =>
      if tls.clientCertificate = "" ∨ tls.privateKey = "" then
        -- log error; leave TLS unset and return early (skips the conversion)
        cluster
      else
        let common : CommonTlsContext :=
          if env.mesh.sdsUdsPath = "" ∨ tls.mode = .MUTUAL then
            { validationContextType := some (.validationContext certValidationContext)
              tlsCertificates :=
                [⟨⟨getOrDefault proxy.metadata.tlsClientCertChain tls.clientCertificate⟩,
                  ⟨getOrDefault proxy.metadata.tlsClientKey tls.privateKey⟩⟩]
              tlsCertificateSdsSecretConfigs := []
              alpnProtocols := [] }
          else
            { validationContextType :=
                some (.combined ⟨none, tls.subjectAltNames⟩
                  ⟨sdsRootResourceName, env.mesh.sdsUdsPath⟩)
              tlsCertificates := []
              tlsCertificateSdsSecretConfigs := [⟨sdsDefaultResourceName, env.mesh.sdsUdsPath⟩]
              alpnProtocols := [] }
        let sni :=
          if tls.sni.length = 0 ∧ tls.mode = .ISTIO_MUTUAL then cluster.name else tls.sni
        let common :=
          if cluster.http2ProtocolOptionsMaxConcurrentStreams.isSome then
            { common with
                alpnProtocols :=
                  if tls.mode = .ISTIO_MUTUAL then alpnInMeshH2 else alpnH2Only }
          else if tls.mode = .ISTIO_MUTUAL then
            { common with alpnProtocols := alpnInMesh }
          else common
        convert { cluster with tlsContext := some ⟨common, sni⟩ }

/-- applyTCPKeepalive: start from the mesh-wide keepalive (if any), override
wholesale with the destination-rule keepalive (if any); when either is set,
install the keepalive structure, filling only the fields that are set. -/
def applyTCPKeepalive (env : Environment) (cluster : Cluster) (settings : ConnectionPoolSettings) : Cluster :=
  let drKeepalive : Option TcpKeepaliveSettings :=
    match settings.tcp with
    | some t => t.tcpKeepalive
    | none => none
  let chosen : Option TcpKeepaliveSettings :=
    match drKeepalive with
    | some k => some k
    | none => env.mesh.tcpKeepalive
  match chosen with
  | none => cluster
  | some k =>
    { cluster with
        upstreamConnectionOptions := some
          { keepaliveProbes := if k.probes > 0 then some k.probes else none
            keepaliveTime := k.time.map (fun d => intToUint32 d.seconds)
            keepaliveInterval := k.interval.map (fun d => intToUint32 d.seconds) } }

/-- applyConnectionPool: circuit-breaker thresholds, per-connection limits,
connect timeout, keepalive and idle timeout from the connection-pool facet. -/
def applyConnectionPool (env : Environment) (cluster : Cluster)
    (settings : Option ConnectionPoolSettings) (direction : TrafficDirection) : Cluster :=
  match settings with
  | none => cluster
  | some settings =>
    let threshold := getDefaultCircuitBreakerThresholds direction
    let idleTimeout : Option Duration :=
      match settings.http with
      | some http => http.idleTimeout
      | none => none
    let threshold :=
      match settings.http with
      | none => threshold
      | some http =>
        let threshold :=
          if http.http2MaxRequests > 0 then
            { threshold with maxRequests := some (intToUint32 http.http2MaxRequests) }
          else threshold
        let threshold :=
          if http.http1MaxPendingRequests > 0 then
            { threshold with maxPendingRequests := some (intToUint32 http.http1MaxPendingRequests) }
          else threshold
        if http.maxRetries > 0 then
          { threshold with maxRetries := some (intToUint32 http.maxRetries) }
        else threshold
    let cluster :=
      match settings.http with
      | none => cluster
      | some http =>
        if http.maxRequestsPerConnection > 0 then
          { cluster with maxRequestsPerConnection := some (intToUint32 http.maxRequestsPerConnection) }
        else cluster
    let threshold :=
      match settings.tcp with
      | none => threshold
      | some tcp =>
        if tcp.maxConnections > 0 then
          { threshold with maxConnections := some (intToUint32 tcp.maxConnections) }
        else threshold
    let cluster :=
      match settings.tcp with
      | none => cluster
      | some tcp =>
        let cluster :=
          match tcp.connectTimeout with
          | some d => { cluster with connectTimeout := some d }
          | none => cluster
        applyTCPKeepalive env cluster settings
    let cluster := { cluster with circuitBreakers := some [threshold] }
    match idleTimeout with
    | some d => { cluster with commonHttpProtocolOptionsIdleTimeout := some d }
    | none => cluster

/-- applyOutlierDetection: map consecutiveErrors onto gateway-failure
enforcement, copy the timing fields, and pin the healthy-panic threshold. -/
def applyOutlierDetection (cluster : Cluster) (outlier : Option OutlierDetection) : Cluster :=
  match outlier with
  | none => cluster
  | some outlier =>
    let out : OutlierDetectionOut := ⟨none, none, none, none, none, none⟩
    let out :=
      match outlier.baseEjectionTime with
      | some d => { out with baseEjectionTime := some d }
      | none => out
    let out :=
      if outlier.consecutiveErrors > 0 then
        { out with
            enforcingConsecutiveGatewayFailure := some 100
            enforcingConsecutive5xx := some 0
            consecutiveGatewayFailure := some (intToUint32 outlier.consecutiveErrors) }
      else out
    let out :=
      match outlier.interval with
      | some d => { out with interval := some d }
      | none => out
    let out :=
      if outlier.maxEjectionPercent > 0 then
        { out with maxEjectionPercent := some (intToUint32 outlier.maxEjectionPercent) }
      else out
    let cluster := { cluster with outlierDetection := some out }
    if outlier.minHealthPercent ≥ 0 then
      let clc := cluster.commonLbConfig.getD ⟨none, false⟩
      { cluster with
          commonLbConfig := some { clc with healthyPanicThreshold := some outlier.minHealthPercent } }
    else cluster

/-- lbPolicyClusterProvided: CLUSTER_PROVIDED for Istio ≥ 1.3 proxies,
the deprecated ORIGINAL_DST_LB otherwise. -/
def lbPolicyClusterProvided (proxy : Proxy) : LbPolicy :=
  if proxy.istioVersionGE13 then .CLUSTER_PROVIDED else .ORIGINAL_DST_LB

/-- applyLoadBalancer. The Redis feature flag is global in Go and passed
explicitly here. -/
def applyLoadBalancer (fts : Features) (cluster : Cluster) (lb : Option LoadBalancerSettings)
    (port : Option Port) (proxy : Proxy) : Cluster :=
  let cluster :=
    if cluster.outlierDetection.isSome then
      let clc := cluster.commonLbConfig.getD ⟨none, false⟩
      { cluster with commonLbConfig := some { clc with localityWeightedLbConfig := true } }
    else cluster
  match lb with
  | none => cluster
  | some lb =>
    if cluster.clusterDiscoveryType = .ORIGINAL_DST then
      { cluster with lbPolicy := lbPolicyClusterProvided proxy }
    else if fts.enableRedisFilter &&
        (match port with
          | some p => p.protocol = .Redis
          | none => false) then
      { cluster with lbPolicy := .MAGLEV }
    else
      let cluster :=
        match lb.getSimple with
        | .LEAST_CONN => { cluster with lbPolicy := .LEAST_REQUEST }
        | .RANDOM => { cluster with lbPolicy := .RANDOM }
        | .ROUND_ROBIN => { cluster with lbPolicy := .ROUND_ROBIN }
        | .PASSTHROUGH =>
          { cluster with
              lbPolicy := lbPolicyClusterProvided proxy
              clusterDiscoveryType := .ORIGINAL_DST }
      match lb.getConsistentHash with
      | none => cluster
      | some consistentHash =>
        let minRingSize :=
          if consistentHash.minimumRingSize ≠ 0 then consistentHash.minimumRingSize else 1024
        { cluster with
            lbPolicy := .RING_HASH
            lbConfigRingHashMinimumRingSize := some minRingSize }

/-- ClusterMode: SNI-DNAT passthrough or the usual mode. -/
inductive ClusterMode
  | SniDnatClusterMode
  | DefaultClusterMode
deriving DecidableEq, Repr

/-- buildClusterOpts. -/
structure BuildClusterOpts where
  env : Environment
  cluster : Cluster
  policy : Option TrafficPolicy
  port : Option Port
  serviceAccounts : List String
  sni : String
  clusterMode : ClusterMode
  direction : TrafficDirection
  proxy : Proxy
  meshExternal : Bool

/-- applyTrafficPolicy: resolve the four facets for the port, apply
connection pool, outlier detection and load balancer, and (outside SNI-DNAT
mode) resolve and apply upstream TLS. -/
def applyTrafficPolicy (opts : BuildClusterOpts) (proxy : Proxy) : Cluster :=
  let facets := SelectTrafficPolicyComponents opts.policy opts.port
  let connectionPool := facets.1
  let outlierDetection := facets.2.1
  let loadBalancer := facets.2.2.1
  let tls := facets.2.2.2
  let cluster := applyConnectionPool opts.env opts.cluster connectionPool opts.direction
  let cluster := applyOutlierDetection cluster outlierDetection
  let cluster := applyLoadBalancer opts.env.features cluster loadBalancer opts.port proxy
  if opts.clusterMode ≠ .SniDnatClusterMode then
    let autoMTLSEnabled := opts.env.mesh.enableAutoMtls
    let converted :=
      conditionallyConvertToIstioMtls tls opts.serviceAccounts opts.sni opts.proxy
        autoMTLSEnabled opts.meshExternal
    applyUpstreamTLSSettings opts.env cluster converted.1 converted.2 opts.proxy
  else cluster

/-- Modelled from the spec: util.IsProtocolSniffingEnabledForInboundPort is
not in src; per §4.4 protocol sniffing applies when the per-direction
feature flag is on and the port protocol is not statically known. -/
def isProtocolSniffingEnabledForInboundPort (fts : Features) (node : Proxy) (port : Port) : Bool :=
  fts.enableProtocolSniffingForInbound && port.protocol = .Unsupported

/-- Modelled from the spec: util.IsProtocolSniffingEnabledForOutboundPort is
not in src; same rule as the inbound variant with the outbound flag. -/
def isProtocolSniffingEnabledForOutboundPort (fts : Features) (node : Proxy) (port : Port) : Bool :=
  fts.enableProtocolSniffingForOutbound && port.protocol = .Unsupported

/-- setUpstreamProtocol: HTTP/2 options for HTTP/2 ports; additionally,
under protocol sniffing for the matching direction, HTTP/2 options plus
use-downstream-protocol selection. -/
def setUpstreamProtocol (fts : Features) (node : Proxy) (cluster : Cluster) (port : Port)
    (direction : TrafficDirection) : Cluster :=
  let cluster :=
    if port.protocol.isHTTP2 then
      { cluster with http2ProtocolOptionsMaxConcurrentStreams := some 1073741824 }
    else cluster
  if (isProtocolSniffingEnabledForInboundPort fts node port && direction = .inbound) ||
      (isProtocolSniffingEnabledForOutboundPort fts node port && direction = .outbound) then
    { cluster with
        http2ProtocolOptionsMaxConcurrentStreams := some 1073741824
        protocolSelection := .USE_DOWNSTREAM_PROTOCOL }
  else cluster

/-- updateEds: attach an EDS config (self-named, ADS source, configured
initial fetch timeout) to EDS clusters; leave every other discovery type
unchanged. -/
def updateEds (fts : Features) (cluster : Cluster) : Cluster :=
  if cluster.clusterDiscoveryType ≠ .EDS then cluster
  else { cluster with edsClusterConfig := some ⟨cluster.name, fts.initialFetchTimeout⟩ }

/-- buildDefaultTrafficPolicy: round-robin LB (passthrough for OriginalDst
clusters) and the mesh connect timeout. -/
def buildDefaultTrafficPolicy (env : Environment) (discoveryType : DiscoveryType) : TrafficPolicy :=
  let lbPolicy : SimpleLB :=
    if discoveryType = .ORIGINAL_DST then .PASSTHROUGH else .ROUND_ROBIN
  { connectionPool := some
      { tcp := some
          { connectTimeout := some ⟨env.mesh.connectTimeout.seconds, env.mesh.connectTimeout.nanos⟩
            maxConnections := 0
            tcpKeepalive := none }
        http := none }
    outlierDetection := none
    loadBalancer := some ⟨some (.simple lbPolicy)⟩
    tls := none
    portLevelSettings := [] }

/-- convertResolution: ClientSide→EDS, DNS→StrictDNS, Passthrough→OriginalDst
for sidecars and EDS for gateways. -/
def convertResolution (proxy : Proxy) (resolution : Resolution) : DiscoveryType :=
  match resolution with
  | .ClientSideLB => .EDS
  | .DNSLB => .STRICT_DNS
  | .Passthrough => if proxy.type = .SidecarProxy then .ORIGINAL_DST else .EDS

/-- buildDefaultCluster: assemble a cluster record with the given name and
discovery type, inline endpoints for Static/StrictDNS, DNS settings for
StrictDNS, then apply the default traffic policy. -/
def buildDefaultCluster (env : Environment) (name : String) (discoveryType : DiscoveryType)
    (localityLbEndpoints : List LocalityLbEndpoints) (direction : TrafficDirection)
    (proxy : Proxy) (port : Option Port) (meshExternal : Bool) : Cluster :=
  let cluster := { emptyCluster with name := name, clusterDiscoveryType := discoveryType }
  let cluster :=
    if discoveryType = .STRICT_DNS then
      { cluster with
          dnsLookupFamily := .V4_ONLY
          dnsRefreshRate := some env.mesh.dnsRefreshRate
          respectDnsTtl := proxy.istioVersionGE13 && env.features.respectDNSTTL }
    else cluster
  let cluster :=
    if discoveryType = .STATIC ∨ discoveryType = .STRICT_DNS then
      { cluster with loadAssignment := some ⟨name, localityLbEndpoints⟩ }
    else cluster
  let defaultTrafficPolicy := buildDefaultTrafficPolicy env discoveryType
  applyTrafficPolicy
    { env := env, cluster := cluster, policy := some defaultTrafficPolicy, port := port
      serviceAccounts := [], sni := "", clusterMode := .DefaultClusterMode
      direction := direction, proxy := proxy, meshExternal := meshExternal } proxy

/-- The LB endpoint built for one service instance: address (ip, port),
weight = endpoint weight if positive else 1, metadata (UID, network,
mTLS-ready). -/
def buildLbEndpoint (inst : ServiceInstance) : LbEndpoint where
  address := buildAddress inst.endpoint.address (intToUint32 inst.endpoint.port)
  loadBalancingWeight := some (if inst.endpoint.lbWeight > 0 then inst.endpoint.lbWeight else 1)
  metadata := some ⟨inst.endpoint.uid, inst.endpoint.network, inst.mtlsReady⟩

/-- Insertion into the locality-keyed endpoint map. The Go code groups into
`map[string][]*LbEndpoint`; the model keeps an association list in
first-insertion key order (the Go map iteration order is unspecified, and no
claim depends on group order). -/
def insertGroup : List (String × List LbEndpoint) → String → LbEndpoint →
    List (String × List LbEndpoint)
  | [], loc, ep => [(loc, [ep])]
  | (k, eps) :: rest, loc, ep =>
    if k = loc then (k, eps ++ [ep]) :: rest
    else (k, eps) :: insertGroup rest loc ep

/-- The locality grouping pass over the kept instances. -/
def groupByLocality (insts : List ServiceInstance) : List (String × List LbEndpoint) :=
  insts.foldl (fun acc inst => insertGroup acc inst.getLocality (buildLbEndpoint inst)) []

/-- The per-locality weight summation: a Go `uint32` accumulator, so each
addition wraps modulo 2^32. -/
def sumWeightsUint32 (eps : List LbEndpoint) : Nat :=
  eps.foldl (fun w ep => (w + ep.loadBalancingWeight.getD 0) % 2 ^ 32) 0

/-- buildLocalityLbEndpoints up to (excluding) the final
util.LocalityLbWeightNormalize call: only DNS-LB services produce inline
endpoints; instances are filtered by the proxy's network view, converted to
LB endpoints, grouped by locality, and each group is weighted with the sum
of its members' weights. The locality string is carried as-is
(util.ConvertLocality only reshapes it into the region/zone/subzone proto). -/
def buildLocalityLbEndpointsPre (env : Environment) (proxyNetworkView : List String)
    (service : Service) (port : Nat) (lbls : List (List (String × String))) :
    List LocalityLbEndpoints :=
  if service.resolution ≠ .DNSLB then []
  else
    match env.instancesByPort service.hostname port lbls with
    | .error _ => []
    | .ok instances =>
      let kept := instances.filter (fun i => proxyNetworkView.contains i.endpoint.network)
      (groupByLocality kept).map (fun g =>
        { locality := g.1
          lbEndpoints := g.2
          loadBalancingWeight := some (sumWeightsUint32 g.2) })

/-- Modelled from the spec: util.LocalityLbWeightNormalize is not in src;
§4.5 step 6 describes it as a scaling pass over the locality group weights
that leaves the group structure unchanged. No claim here depends on the
scaling itself, so it is modelled as the identity scaling. -/
def localityLbWeightNormalize (eps : List LocalityLbEndpoints) : List LocalityLbEndpoints :=
  eps

/-- buildLocalityLbEndpoints: the pre-normalization list passed through the
normalization pass. -/
def buildLocalityLbEndpoints (env : Environment) (proxyNetworkView : List String)
    (service : Service) (port : Nat) (lbls : List (List (String × String))) :
    List LocalityLbEndpoints :=
  localityLbWeightNormalize (buildLocalityLbEndpointsPre env proxyNetworkView service port lbls)

/-- buildInboundLocalityLbEndpoints: a single unweighted endpoint at the
bind address (locality left at the proto zero value). -/
def buildInboundLocalityLbEndpoints (bind : String) (port : Int) : List LocalityLbEndpoints :=
  [{ locality := ""
     lbEndpoints := [{ address := buildAddress bind (intToUint32 port)
                       loadBalancingWeight := none
                       metadata := none }]
     loadBalancingWeight := none }]

/-- The empty destination rule used when a service has none. -/
def defaultDestinationRule : DestinationRule :=
  ⟨none, []⟩

/-- castDestinationRuleOrDefault: the rule enclosed by the config, or the
default (empty) rule. -/
def castDestinationRuleOrDefault : Option DestinationRuleConfig → DestinationRule
  | some config => config.rule
  | none => defaultDestinationRule

/-- util.BuildConfigInfoMetadata, reduced to the lineage identity it
records: the config's name and namespace. -/
def buildConfigInfoMetadata (meta : ConfigMeta) : String × String :=
  (meta.name, meta.ns)

/-- One subset cluster of the outbound generator (the body of the subset
loop, for the endpoint list currently held by the loop variable). Plugin
callbacks (OnOutboundCluster) are external observers outside src and are
not modelled. -/
def buildSubsetCluster (env : Environment) (proxy : Proxy) (service : Service)
    (destinationRule : DestinationRule) (clusterMetadata : Option (String × String))
    (serviceAccounts : List String) (discoveryType : DiscoveryType) (port : Port)
    (subset : Subset) (lbEndpoints : List LocalityLbEndpoints) : Cluster :=
  let subsetClusterName := buildSubsetKey .outbound subset.name service.hostname port.port
  let defaultSni := buildDNSSrvSubsetKey .outbound subset.name service.hostname port.port
  let subsetCluster :=
    buildDefaultCluster env subsetClusterName discoveryType lbEndpoints .outbound proxy none
      service.meshExternal
  let subsetCluster :=
    if env.mesh.outboundClusterStatName.length ≠ 0 then
      { subsetCluster with
          altStatName :=
            altStatName env.mesh.outboundClusterStatName service.hostname subset.name port
              service.attributes }
    else subsetCluster
  let subsetCluster := setUpstreamProtocol env.features proxy subsetCluster port .outbound
  let subsetCluster := applyTrafficPolicy
    { env := env, cluster := subsetCluster, policy := destinationRule.trafficPolicy
      port := some port, serviceAccounts := serviceAccounts, sni := defaultSni
      clusterMode := .DefaultClusterMode, direction := .outbound, proxy := proxy
      meshExternal := service.meshExternal } proxy
  let subsetCluster := applyTrafficPolicy
    { env := env, cluster := subsetCluster, policy := subset.trafficPolicy
      port := some port, serviceAccounts := serviceAccounts, sni := defaultSni
      clusterMode := .DefaultClusterMode, direction := .outbound, proxy := proxy
      meshExternal := service.meshExternal } proxy
  let subsetCluster := updateEds env.features subsetCluster
  { subsetCluster with metadataConfigSource := clusterMetadata }

/-- The outbound subset loop: one cluster per subset, threading the shared
`lbEndpoints` variable, which a subset with a non-empty label predicate (on
a non-EDS cluster) overwrites with a re-materialized, filtered list for the
remainder of the loop. -/
def subsetLoop (env : Environment) (proxy : Proxy) (networkView : List String)
    (service : Service) (destinationRule : DestinationRule)
    (clusterMetadata : Option (String × String)) (serviceAccounts : List String)
    (discoveryType : DiscoveryType) (port : Port) :
    List LocalityLbEndpoints → List Subset → List Cluster
  | _, [] => []
  | lbEndpoints, subset :: rest =>
    let lbEndpoints :=
      if discoveryType ≠ .EDS ∧ subset.labels.length ≠ 0 then
        buildLocalityLbEndpoints env networkView service port.port [subset.labels]
      else lbEndpoints
    buildSubsetCluster env proxy service destinationRule clusterMetadata serviceAccounts
        discoveryType port subset lbEndpoints ::
      subsetLoop env proxy networkView service destinationRule clusterMetadata serviceAccounts
        discoveryType port lbEndpoints rest

/-- The outbound clusters emitted for one (service, port): the default
cluster followed by one cluster per destination-rule subset. -/
def outboundClustersForPort (env : Environment) (proxy : Proxy) (push : PushContext)
    (networkView : List String) (service : Service) (destRule : Option DestinationRuleConfig)
    (port : Port) : List Cluster :=
  let lbEndpoints := buildLocalityLbEndpoints env networkView service port.port []
  let discoveryType := convertResolution proxy service.resolution
  let clusterName := buildSubsetKey .outbound "" service.hostname port.port
  let serviceAccounts := push.serviceAccounts service.hostname port.port
  let defaultCluster :=
    buildDefaultCluster env clusterName discoveryType lbEndpoints .outbound proxy (some port)
      service.meshExternal
  let defaultCluster :=
    if env.mesh.outboundClusterStatName.length ≠ 0 then
      { defaultCluster with
          altStatName :=
            altStatName env.mesh.outboundClusterStatName service.hostname "" port
              service.attributes }
    else defaultCluster
  let defaultCluster := setUpstreamProtocol env.features proxy defaultCluster port .outbound
  let destinationRule := castDestinationRuleOrDefault destRule
  let clusterMetadata : Option (String × String) :=
    destRule.map (fun c => buildConfigInfoMetadata c.configMeta)
  let defaultSni := buildDNSSrvSubsetKey .outbound "" service.hostname port.port
  let defaultCluster := applyTrafficPolicy
    { env := env, cluster := defaultCluster, policy := destinationRule.trafficPolicy
      port := some port, serviceAccounts := serviceAccounts, sni := defaultSni
      clusterMode := .DefaultClusterMode, direction := .outbound, proxy := proxy
      meshExternal := service.meshExternal } proxy
  let defaultCluster := { defaultCluster with metadataConfigSource := clusterMetadata }
  let subsetClusters :=
    subsetLoop env proxy networkView service destinationRule clusterMetadata serviceAccounts
      discoveryType port lbEndpoints destinationRule.subsets
  let defaultCluster := updateEds env.features defaultCluster
  defaultCluster :: subsetClusters

/-- The outbound per-port loop: UDP ports are skipped. -/
def outboundPortLoop (env : Environment) (proxy : Proxy) (push : PushContext)
    (networkView : List String) (service : Service) (destRule : Option DestinationRuleConfig) :
    List Port → List Cluster
  | [] => []
  | port :: rest =>
    if port.protocol = .UDP then
      outboundPortLoop env proxy push networkView service destRule rest
    else
      outboundClustersForPort env proxy push networkView service destRule port ++
        outboundPortLoop env proxy push networkView service destRule rest

/-- The outbound per-service loop. -/
def outboundServiceLoop (env : Environment) (proxy : Proxy) (push : PushContext)
    (networkView : List String) : List Service → List Cluster
  | [] => []
  | service :: rest =>
    let destRule := push.destinationRuleByHost service.hostname
    outboundPortLoop env proxy push networkView service destRule service.ports ++
      outboundServiceLoop env proxy push networkView rest

/-- buildOutboundClusters: one default cluster plus one per subset, for each
visible service × non-UDP port. -/
def buildOutboundClusters (env : Environment) (proxy : Proxy) (push : PushContext) : List Cluster :=
  outboundServiceLoop env proxy push proxy.networkView push.services

/-- The SNI-DNAT subset loop (same endpoint-variable threading as the
regular subset loop; TLS is stripped and the traffic policy is applied in
SNI-DNAT mode, which skips the TLS step). -/
def sniDnatSubsetLoop (env : Environment) (proxy : Proxy) (networkView : List String)
    (service : Service) (destinationRule : DestinationRule) (meta : Option (String × String))
    (discoveryType : DiscoveryType) (port : Port) :
    List LocalityLbEndpoints → List Subset → List Cluster
  | _, [] => []
  | lbEndpoints, subset :: rest =>
    let lbEndpoints :=
      if discoveryType ≠ .EDS ∧ subset.labels.length ≠ 0 then
        buildLocalityLbEndpoints env networkView service port.port [subset.labels]
      else lbEndpoints
    let subsetClusterName := buildDNSSrvSubsetKey .outbound subset.name service.hostname port.port
    let subsetCluster :=
      buildDefaultCluster env subsetClusterName discoveryType lbEndpoints .outbound proxy none
        service.meshExternal
    let subsetCluster := { subsetCluster with tlsContext := none }
    let subsetCluster := applyTrafficPolicy
      { env := env, cluster := subsetCluster, policy := destinationRule.trafficPolicy
        port := some port, serviceAccounts := [], sni := ""
        clusterMode := .SniDnatClusterMode, direction := .outbound, proxy := proxy
        meshExternal := false } proxy
    let subsetCluster := applyTrafficPolicy
      { env := env, cluster := subsetCluster, policy := subset.trafficPolicy
        port := some port, serviceAccounts := [], sni := ""
        clusterMode := .SniDnatClusterMode, direction := .outbound, proxy := proxy
        meshExternal := false } proxy
    let subsetCluster := updateEds env.features subsetCluster
    let subsetCluster := { subsetCluster with metadataConfigSource := meta }
    subsetCluster ::
      sniDnatSubsetLoop env proxy networkView service destinationRule meta discoveryType port
        lbEndpoints rest

/-- The SNI-DNAT clusters emitted for one (service, port). -/
def sniDnatClustersForPort (env : Environment) (proxy : Proxy) (push : PushContext)
    (networkView : List String) (service : Service) (destRule : Option DestinationRuleConfig)
    (port : Port) : List Cluster :=
  let lbEndpoints := buildLocalityLbEndpoints env networkView service port.port []
  let discoveryType := convertResolution proxy service.resolution
  let clusterName := buildDNSSrvSubsetKey .outbound "" service.hostname port.port
  let defaultCluster :=
    buildDefaultCluster env clusterName discoveryType lbEndpoints .outbound proxy none
      service.meshExternal
  let defaultCluster := { defaultCluster with tlsContext := none }
  match destRule with
  | none => [updateEds env.features defaultCluster]
  | some cfg =>
    let destinationRule := cfg.rule
    let meta := some (buildConfigInfoMetadata cfg.configMeta)
    let defaultCluster := applyTrafficPolicy
      { env := env, cluster := defaultCluster, policy := destinationRule.trafficPolicy
        port := some port, serviceAccounts := [], sni := ""
        clusterMode := .SniDnatClusterMode, direction := .outbound, proxy := proxy
        meshExternal := false } proxy
    let defaultCluster := { defaultCluster with metadataConfigSource := meta }
    let subsetClusters :=
      sniDnatSubsetLoop env proxy networkView service destinationRule meta discoveryType port
        lbEndpoints destinationRule.subsets
    updateEds env.features defaultCluster :: subsetClusters

/-- The SNI-DNAT per-port loop (UDP skipped). -/
def sniDnatPortLoop (env : Environment) (proxy : Proxy) (push : PushContext)
    (networkView : List String) (service : Service) (destRule : Option DestinationRuleConfig) :
    List Port → List Cluster
  | [] => []
  | port :: rest =>
    if port.protocol = .UDP then
      sniDnatPortLoop env proxy push networkView service destRule rest
    else
      sniDnatClustersForPort env proxy push networkView service destRule port ++
        sniDnatPortLoop env proxy push networkView service destRule rest

/-- The SNI-DNAT per-service loop (mesh-external services skipped). -/
def sniDnatServiceLoop (env : Environment) (proxy : Proxy) (push : PushContext)
    (networkView : List String) : List Service → List Cluster
  | [] => []
  | service :: rest =>
    if service.meshExternal then
      sniDnatServiceLoop env proxy push networkView rest
    else
      let destRule := push.destinationRuleByHost service.hostname
      sniDnatPortLoop env proxy push networkView service destRule service.ports ++
        sniDnatServiceLoop env proxy push networkView rest

/-- buildOutboundSniDnatClusters: DNS-SRV-named forwarding clusters for
mesh-internal services, with TLS never applied. -/
def buildOutboundSniDnatClusters (env : Environment) (proxy : Proxy) (push : PushContext) :
    List Cluster :=
  sniDnatServiceLoop env proxy push proxy.networkView push.services

/-- buildBlackHoleCluster: a Static cluster with no endpoints that drops
traffic to unresolved destinations. -/
def buildBlackHoleCluster (env : Environment) : Cluster :=
  { emptyCluster with
      name := blackHoleClusterName
      clusterDiscoveryType := .STATIC
      connectTimeout := some env.mesh.connectTimeout
      lbPolicy := .ROUND_ROBIN }

/-- buildDefaultPassthroughCluster: an OriginalDst cluster with
cluster-provided LB and a 102400 max-connection pool. -/
def buildDefaultPassthroughCluster (env : Environment) (proxy : Proxy) : Cluster :=
  let cluster :=
    { emptyCluster with
        name := passthroughClusterName
        clusterDiscoveryType := .ORIGINAL_DST
        connectTimeout := some env.mesh.connectTimeout
        lbPolicy := lbPolicyClusterProvided proxy }
  let passthroughSettings : ConnectionPoolSettings :=
    { tcp := some { connectTimeout := none, maxConnections := 1024 * 100, tcpKeepalive := none }
      http := none }
  applyConnectionPool env cluster (some passthroughSettings) .outbound

/-- Modelled from the spec: ipv4AndIpv6Support and the
wildcard-and-localhost helper live in listener code outside src; §4.7 keys
them on the proxy's IP families. An address containing a colon is IPv6,
otherwise IPv4. -/
def proxySupportsIpv4 (proxy : Proxy) : Bool :=
  proxy.ipAddresses.any (fun a => !(a.contains ':'))

/-- Modelled from the spec: IPv6 support of the proxy, see
`proxySupportsIpv4`. -/
def proxySupportsIpv6 (proxy : Proxy) : Bool :=
  proxy.ipAddresses.any (fun a => a.contains ':')

/-- Modelled from the spec: the loopback address for the proxy's IP family
(getActualWildcardAndLocalHost lives in listener code outside src). -/
def actualLocalHostFor (proxy : Proxy) : String :=
  if proxySupportsIpv4 proxy then "127.0.0.1" else "::1"

/-- generateInboundPassthroughClusters: per supported IP family, a renamed
passthrough cluster bound to the fixed inbound source address. -/
def generateInboundPassthroughClusters (env : Environment) (proxy : Proxy) : List Cluster :=
  let v4 :=
    if proxySupportsIpv4 proxy then
      let c := buildDefaultPassthroughCluster env proxy
      [{ c with
          name := inboundPassthroughClusterIpv4
          upstreamBindConfigSourceAddress := some ⟨inboundPassthroughBindIpv4, 0⟩ }]
    else []
  let v6 :=
    if proxySupportsIpv6 proxy then
      let c := buildDefaultPassthroughCluster env proxy
      [{ c with
          name := inboundPassthroughClusterIpv6
          upstreamBindConfigSourceAddress := some ⟨inboundPassthroughBindIpv6, 0⟩ }]
    else []
  v4 ++ v6

/-- plugin.InputParams, reduced to the fields the inbound builder reads. -/
structure InputParams where
  env : Environment
  node : Proxy
  serviceInstance : ServiceInstance
  port : Port
  push : PushContext
  bind : String

/-- buildInboundClusterForPortOrUDS: one Static inbound cluster for a
service instance, with only the connection-pool facet of the destination
rule applied. Plugin callbacks (OnInboundCluster) are external observers
outside src and are not modelled. -/
def buildInboundClusterForPortOrUDS (pluginParams : InputParams) : Cluster :=
  let env := pluginParams.env
  let inst := pluginParams.serviceInstance
  let clusterName :=
    buildSubsetKey .inbound inst.endpoint.servicePort.name inst.service.hostname
      inst.endpoint.servicePort.port
  let localityLbEndpoints := buildInboundLocalityLbEndpoints pluginParams.bind inst.endpoint.port
  let localCluster :=
    buildDefaultCluster env clusterName .STATIC localityLbEndpoints .inbound pluginParams.node
      none false
  let localCluster :=
    if env.mesh.inboundClusterStatName.length ≠ 0 then
      { localCluster with
          altStatName :=
            altStatName env.mesh.inboundClusterStatName inst.service.hostname ""
              inst.endpoint.servicePort inst.service.attributes }
    else localCluster
  let localCluster :=
    setUpstreamProtocol env.features pluginParams.node localCluster inst.endpoint.servicePort
      .inbound
  match pluginParams.push.destinationRuleByHost inst.service.hostname with
  | none => localCluster
  | some cfg =>
    match cfg.rule.trafficPolicy with
    | none => localCluster
    | some trafficPolicy =>
      let localCluster :=
        applyConnectionPool env localCluster trafficPolicy.connectionPool .inbound
      { localCluster with metadataConfigSource := some (buildConfigInfoMetadata cfg.configMeta) }

/-- findServiceInstanceForIngressListener: the first instance whose endpoint
port matches the listener's port number, copied into a fresh record (the Go
struct literal copies Endpoint/Service/Labels/ServiceAccount only, so the
MTLSReady flag is not carried over). -/
def findServiceInstanceForIngressListener (instances : List ServiceInstance)
    (ingressListener : IstioIngressListener) : Option ServiceInstance :=
  (instances.find? (fun realInstance =>
      realInstance.endpoint.port = (ingressListener.port.number : Int))).map
    (fun r =>
      { endpoint := r.endpoint, service := r.service, labels := r.labels
        serviceAccount := r.serviceAccount, mtlsReady := false })

/-- strings.HasPrefix(endpoint, model.UnixAddressPrefix): the endpoint
designates a Unix domain socket. -/
def isUnixDomainSocketEndpoint (s : String) : Bool :=
  s.take 7 = "unix://"

/-- strconv.Atoi on the port part of a host:port default endpoint. -/
def atoi (s : String) : Option Int :=
  s.toInt?

/-- One user-declared ingress listener of the inbound generator's Case B:
parse the default endpoint (Unix socket or host:port; a malformed entry
yields none and is skipped), find or synthesize the matching instance,
override its endpoint with the parsed values, and build the inbound
cluster. -/
def ingressClusterFor (env : Environment) (proxy : Proxy) (push : PushContext)
    (instances : List ServiceInstance) (actualLocalHost sidecarScopeID cfgName cfgNs : String)
    (ingressListener : IstioIngressListener) : Option Cluster :=
  let listenPort : Port :=
    { port := ingressListener.port.number
      protocol := protocolParse ingressListener.port.protocol
      name := ingressListener.port.name }
  let parsed : Option (String × AddressFamily × Int) :=
    if isUnixDomainSocketEndpoint ingressListener.defaultEndpoint then
      some (ingressListener.defaultEndpoint, .Unix, 0)
    else
      let parts := ingressListener.defaultEndpoint.splitOn ":"
      if parts.length < 2 then none
      else
        match (parts.get? 1).bind atoi with
        | some p => some (actualLocalHost, .TCP, p)
        | none => none
  match parsed with
  | none => none
  | some (endpointAddress, endpointFamily, port) =>
    let inst :=
      match findServiceInstanceForIngressListener instances ingressListener with
      | some i => i
      | none =>
        { endpoint := ⟨"", 0, ⟨"", 0, .TCP⟩, .TCP, "", "", "", 0⟩
          service :=
            { hostname := sidecarScopeID, ports := [], resolution := .ClientSideLB
              meshExternal := false, attributes := ⟨cfgName, cfgNs, ""⟩ }
          labels := [], serviceAccount := "", mtlsReady := false }
    let inst :=
      { inst with
          endpoint :=
            { inst.endpoint with
                family := endpointFamily, address := endpointAddress
                servicePort := listenPort, port := port } }
    some (buildInboundClusterForPortOrUDS ⟨env, proxy, inst, listenPort, push, endpointAddress⟩)

/-- The inbound generator's Case B loop over user-declared ingress
listeners: one cluster per well-formed listener in declared order, malformed
entries contributing nothing (the Go loop's `continue`). -/
def ingressLoop (env : Environment) (proxy : Proxy) (push : PushContext)
    (instances : List ServiceInstance) (actualLocalHost sidecarScopeID cfgName cfgNs : String)
    (ls : List IstioIngressListener) : List Cluster :=
  ls.filterMap
    (ingressClusterFor env proxy push instances actualLocalHost sidecarScopeID cfgName cfgNs)

/-- The inbound generator's Case A loop over the proxy's service instances,
deduplicated by service port. The Go map is keyed by the `*model.Port`
pointer; the model keys by the port value, which merges at least as much
(and the duplicates would be dropped in normalization anyway, as the source
comment notes). -/
def inboundInstanceLoop (env : Environment) (proxy : Proxy) (push : PushContext)
    (actualLocalHost : String) (seen : List Port) : List ServiceInstance → List Cluster
  | [] => []
  | inst :: rest =>
    if seen.contains inst.endpoint.servicePort then
      inboundInstanceLoop env proxy push actualLocalHost seen rest
    else
      buildInboundClusterForPortOrUDS
          ⟨env, proxy, inst, inst.endpoint.servicePort, push, actualLocalHost⟩ ::
        inboundInstanceLoop env proxy push actualLocalHost
          (inst.endpoint.servicePort :: seen) rest

/-- One management-port passthrough cluster (Static, named under the
`mgmtCluster` hostname). -/
def managementClusterFor (env : Environment) (proxy : Proxy) (actualLocalHost : String)
    (port : Port) : Cluster :=
  let clusterName := buildSubsetKey .inbound port.name managementClusterHostname port.port
  let localityLbEndpoints := buildInboundLocalityLbEndpoints actualLocalHost (port.port : Int)
  let mgmtCluster :=
    buildDefaultCluster env clusterName .STATIC localityLbEndpoints .inbound proxy none false
  setUpstreamProtocol env.features proxy mgmtCluster port .inbound

/-- buildInboundClusters: Case A (no custom ingress listeners; nothing in
interception-none mode; per-instance clusters plus management-port
clusters) or Case B (user-declared ingress listeners). -/
def buildInboundClusters (env : Environment) (proxy : Proxy) (push : PushContext)
    (instances : List ServiceInstance) (managementPorts : List Port) : List Cluster :=
  let sidecarScope := proxy.sidecarScope
  let noneMode := proxy.isNoneMode
  let actualLocalHost := actualLocalHostFor proxy
  if !sidecarScope.hasCustomIngressListeners then
    if noneMode then []
    else
      inboundInstanceLoop env proxy push actualLocalHost [] instances ++
        managementPorts.map (managementClusterFor env proxy actualLocalHost)
  else
    match sidecarScope.config with
    | none => []
    | some cfg =>
      let sidecarScopeID := cfg.name ++ "." ++ cfg.ns
      ingressLoop env proxy push instances actualLocalHost sidecarScopeID cfg.name cfg.ns
        cfg.ingress

/-- Modelled from the spec: loadbalancer.ApplyLocalityLBSetting (not in src)
rewrites a load assignment's locality weights and priorities in place; the
claims here depend only on it preserving the assignment's presence, so it is
modelled as the identity rewrite. -/
def loadbalancerApplyLocalityLBSetting (loadAssignment : ClusterLoadAssignment)
    (enabledFailover : Bool) : ClusterLoadAssignment :=
  loadAssignment

/-- applyLocalityLBSetting: for each cluster carrying a load assignment,
apply the locality LB rewrite (failover armed only with outlier detection);
a no-op when the proxy has no locality or the mesh has no locality-LB
record. -/
def applyLocalityLBSetting (localityPresent : Bool) (clusters : List Cluster)
    (localityLBPresent : Bool) : List Cluster :=
  if !localityPresent || !localityLBPresent then clusters
  else
    clusters.map (fun cluster =>
      match cluster.loadAssignment with
      | some la =>
        { cluster with
            loadAssignment :=
              some (loadbalancerApplyLocalityLBSetting la cluster.outlierDetection.isSome) }
      | none => cluster)

/-- BuildClusters: the CDS entry point. Dispatches on the proxy type,
combines outbound and inbound streams, applies locality LB settings and
normalizes duplicates. The envoyfilter cluster patches and plugin callbacks
are external collaborators outside src (the model has no registered plugins
and treats the patch pass as the identity). The second component is the
duplicate events recorded on the push context during normalization. -/
def BuildClusters (env : Environment) (proxy : Proxy) (push : PushContext) :
    List Cluster × List PushEvent :=
  let instances := proxy.serviceInstances
  let outboundClusters := buildOutboundClusters env proxy push
  let clusters :=
    match proxy.type with
    | .SidecarProxy =>
      let outboundClusters := outboundClusters ++
        [buildBlackHoleCluster env, buildDefaultPassthroughCluster env proxy]
      let outboundClusters :=
        applyLocalityLBSetting proxy.localityPresent outboundClusters
          env.mesh.localityLbSettingPresent
      let managementPorts := proxy.ipAddresses.flatMap env.managementPorts
      let inboundClusters := buildInboundClusters env proxy push instances managementPorts
      let inboundClusters := inboundClusters ++ generateInboundPassthroughClusters env proxy
      outboundClusters ++ inboundClusters
    | .Router =>
      let outboundClusters := outboundClusters ++ [buildBlackHoleCluster env]
      let outboundClusters :=
        if proxy.routerMode = .sniDnat then
          outboundClusters ++ buildOutboundSniDnatClusters env proxy push
        else outboundClusters
      applyLocalityLBSetting proxy.localityPresent outboundClusters
        env.mesh.localityLbSettingPresent
  normalizeClusters clusters

/-- The shared endpoint-list state of the outbound subset loop: the value of
the `lbEndpoints` variable after the given subsets have been processed
(mirrors the assignments in the loop of buildOutboundClusters). -/
def subsetLoopState (env : Environment) (view : List String) (service : Service)
    (dt : DiscoveryType) (port : Port) :
    List LocalityLbEndpoints → List Subset → List LocalityLbEndpoints
  | st, [] => st
  | st, s :: rest =>
    subsetLoopState env view service dt port
      (if dt ≠ .EDS ∧ s.labels.length ≠ 0 then
        buildLocalityLbEndpoints env view service port.port [s.labels]
      else st) rest

/-- The last subset of a list carrying a non-empty label predicate, if any. -/
def lastLabeled : List Subset → Option Subset
  | [] => none
  | s :: rest =>
    match lastLabeled rest with
    | some t => some t
    | none => if s.labels.length ≠ 0 then some s else none

/-- The per-cluster discovery-type/endpoint-source invariant of claim C2, as
amended: EDS clusters carry an EDS config and no inline assignment; STATIC and
STRICT_DNS clusters carry an inline assignment unless they are the blackhole
sink; ORIGINAL_DST clusters use the proxy-version-dependent
CLUSTER_PROVIDED/ORIGINAL_DST_LB policy. -/
def C2Inv (proxy : Proxy) (c : Cluster) : Prop :=
  (c.clusterDiscoveryType = .EDS → c.edsClusterConfig.isSome ∧ c.loadAssignment = none) ∧
  ((c.clusterDiscoveryType = .STATIC ∨ c.clusterDiscoveryType = .STRICT_DNS) →
    (c.loadAssignment.isSome ∨ c.name = blackHoleClusterName)) ∧
  (c.clusterDiscoveryType = .ORIGINAL_DST → c.lbPolicy = lbPolicyClusterProvided proxy)

/-- Precondition that the build pipeline maintains before the final
updateEds step: it yields C2Inv once updateEds attaches the EDS config. -/
def C2Pre (proxy : Proxy) (c : Cluster) : Prop :=
  ((c.clusterDiscoveryType = .STATIC ∨ c.clusterDiscoveryType = .STRICT_DNS) →
    c.loadAssignment.isSome) ∧
  (c.clusterDiscoveryType = .EDS → c.loadAssignment = none) ∧
  (c.clusterDiscoveryType = .ORIGINAL_DST → c.lbPolicy = lbPolicyClusterProvided proxy)

/-- A service with its UDP ports removed (statement helper for claim C3). -/
def dropUdpService (s : Service) : Service :=
  { s with ports := s.ports.filter (fun p => decide (p.protocol ≠ Protocol.UDP)) }

/-- A push context whose visible services have their UDP ports removed
(statement helper for claim C3). -/
def dropUdpPush (push : PushContext) : PushContext :=
  { push with services := push.services.map dropUdpService }

/-- A cluster whose name follows the outbound CDS grammar: the name's
character data starts with "outbound" (both the pipe-separated subset key
and the DNS-SRV key of SNI-DNAT clusters do). Statement helper for C8. -/
def outboundNamed (c : Cluster) : Prop :=
  ∃ l : List Char, c.name.data = "outbound".data ++ l

/-- A cluster whose name follows the inbound CDS subset-key grammar
("inbound|..."). Statement helper for C8. -/
def inboundNamed (c : Cluster) : Prop :=
  ∃ l : List Char, c.name.data = "inbound|".data ++ l

/-- A Mutual-mode TLS setting with no client certificate or key. -/
def mutualTlsNoCertFixture : TLSSettings :=
  ⟨.MUTUAL, "", "", "", [], ""⟩

/-! Concrete fixtures used by witnesses and counterexamples. -/

/-- A small mesh config: auto-mTLS off, no SDS, no stat patterns. -/
def meshFixture : MeshConfig :=
  ⟨⟨10, 0⟩, false, "", "", "", ⟨60, 0⟩, none, false⟩

/-- All feature flags off, 5s initial fetch timeout. -/
def featuresFixture : Features :=
  ⟨false, false, ⟨5, 0⟩, false, false⟩

/-- An environment with an empty registry. -/
def envFixture : Environment :=
  ⟨meshFixture, featuresFixture, fun _ _ _ => .ok [], fun _ => []⟩

/-- Proxy metadata with no client TLS overrides. -/
def proxyMetadataFixture : ProxyMetadata :=
  ⟨"", "", ""⟩

/-- A default sidecar scope (no custom ingress listeners). -/
def sidecarScopeFixture : SidecarScope :=
  ⟨false, none⟩

/-- A ClientSide-resolved service with one HTTP port 9080. -/
def serviceFixture : Service :=
  ⟨"reviews.default.svc.cluster.local", [⟨"http", 9080, .HTTP⟩], .ClientSideLB, false,
    ⟨"reviews", "default", "Kubernetes"⟩⟩

/-- A sidecar proxy on the unnamed network with one IPv4 address. -/
def sidecarProxyFixture : Proxy :=
  ⟨.SidecarProxy, ["10.0.0.1"], true, proxyMetadataFixture, sidecarScopeFixture, .redirect,
    [], false, .standard, [""]⟩

/-- A gateway (router) proxy in standard mode. -/
def gatewayProxyFixture : Proxy :=
  ⟨.Router, ["10.0.0.2"], true, proxyMetadataFixture, sidecarScopeFixture, .redirect,
    [], false, .standard, [""]⟩

/-- A push context exposing the one fixture service, no destination rules. -/
def pushFixture : PushContext :=
  ⟨[serviceFixture], fun _ => none, fun _ _ => []⟩

/-- A push context with no visible services. -/
def emptyPushFixture : PushContext :=
  ⟨[], fun _ => none, fun _ _ => []⟩

/-- A UDP service port. -/
def udpPortFixture : Port :=
  ⟨"dns", 5353, .UDP⟩

/-- A service instance listening on the UDP port. -/
def udpInstanceFixture : ServiceInstance :=
  ⟨⟨"10.1.1.1", 5353, udpPortFixture, .TCP, "uid1", "", "", 0⟩, serviceFixture, [], "", false⟩

/-- The sidecar proxy with the UDP instance as its only workload port. -/
def udpProxyFixture : Proxy :=
  { sidecarProxyFixture with serviceInstances := [udpInstanceFixture] }

/-- A DNS-resolved service with one TCP port 80. -/
def dnsServiceFixture : Service :=
  ⟨"dns.example.com", [⟨"tcp", 80, .TCP⟩], .DNSLB, false, ⟨"d", "default", ""⟩⟩

/-- An instance of the DNS service with the maximal uint32-representable
half-range LB weight. -/
def heavyInstanceFixture : ServiceInstance :=
  ⟨⟨"10.2.0.1", 80, ⟨"tcp", 80, .TCP⟩, .TCP, "u", "", "", 2 ^ 31⟩, dnsServiceFixture, [], "",
    false⟩

/-- An environment whose registry returns two saturated-weight instances in
the same (empty) locality. -/
def overflowEnvFixture : Environment :=
  ⟨meshFixture, featuresFixture, fun _ _ _ => .ok [heavyInstanceFixture, heavyInstanceFixture],
    fun _ => []⟩

/-- A labeled subset (non-empty label predicate). -/
def labeledSubsetFixture : Subset :=
  ⟨"v1", [("a", "1")], none⟩

/-- An unlabeled subset (empty label predicate). -/
def unlabeledSubsetFixture : Subset :=
  ⟨"v2", [], none⟩

/-! Shape lemmas: each cluster transform only writes the fields listed in
its record update, so every other field is preserved. -/

theorem applyTCPKeepalive_shape (env : Environment) (c : Cluster) (s : ConnectionPoolSettings) :
    ∃ u, applyTCPKeepalive env c s = { c with upstreamConnectionOptions := u } := by
  simp only [applyTCPKeepalive]
  repeat' split
  all_goals exact ⟨_, rfl⟩

theorem applyTCPKeepalive_eq (env : Environment) (c : Cluster) (s : ConnectionPoolSettings) :
    applyTCPKeepalive env c s =
      { c with upstreamConnectionOptions := (applyTCPKeepalive env c s).upstreamConnectionOptions } := by
  obtain ⟨u, hu⟩ := applyTCPKeepalive_shape env c s
  rw [hu]

set_option maxHeartbeats 4000000 in
theorem applyConnectionPool_shape (env : Environment) (c : Cluster)
    (s : Option ConnectionPoolSettings) (d : TrafficDirection) :
    ∃ cb mrpc ct uco idle, applyConnectionPool env c s d =
      { c with circuitBreakers := cb, maxRequestsPerConnection := mrpc,
               connectTimeout := ct, upstreamConnectionOptions := uco,
               commonHttpProtocolOptionsIdleTimeout := idle } := by
  cases s with
  | none => exact ⟨_, _, _, _, _, rfl⟩
  | some s =>
    simp only [applyConnectionPool]
    repeat' split
    all_goals try exact ⟨_, _, _, _, _, rfl⟩
    all_goals rw [applyTCPKeepalive_eq]
    all_goals exact ⟨_, _, _, _, _, rfl⟩

theorem applyOutlierDetection_shape (c : Cluster) (o : Option OutlierDetection) :
    ∃ od clc, applyOutlierDetection c o =
      { c with outlierDetection := od, commonLbConfig := clc } := by
  simp only [applyOutlierDetection]
  repeat' split
  all_goals exact ⟨_, _, rfl⟩

theorem applyLoadBalancer_shape (fts : Features) (c : Cluster) (lb : Option LoadBalancerSettings)
    (port : Option Port) (proxy : Proxy) :
    ∃ lbp dt clc rhc, applyLoadBalancer fts c lb port proxy =
      { c with lbPolicy := lbp, clusterDiscoveryType := dt, commonLbConfig := clc,
               lbConfigRingHashMinimumRingSize := rhc } := by
  simp only [applyLoadBalancer]
  repeat' split
  all_goals exact ⟨_, _, _, _, rfl⟩

set_option maxHeartbeats 8000000 in
theorem applyUpstreamTLSSettings_shape (env : Environment) (c : Cluster)
    (tls : Option TLSSettings) (m : MtlsContextType) (proxy : Proxy) :
    ∃ t tsm, applyUpstreamTLSSettings env c tls m proxy =
      { c with tlsContext := t, transportSocketMatches := tsm } := by
  cases tls with
  | none => exact ⟨_, _, rfl⟩
  | some tls =>
    simp only [applyUpstreamTLSSettings]
    repeat' split
    all_goals exact ⟨_, _, rfl⟩

theorem setUpstreamProtocol_shape (fts : Features) (node : Proxy) (c : Cluster) (port : Port)
    (d : TrafficDirection) :
    ∃ h2 ps, setUpstreamProtocol fts node c port d =
      { c with http2ProtocolOptionsMaxConcurrentStreams := h2, protocolSelection := ps } := by
  simp only [setUpstreamProtocol]
  repeat' split
  all_goals exact ⟨_, _, rfl⟩

theorem updateEds_shape (fts : Features) (c : Cluster) :
    ∃ e, updateEds fts c = { c with edsClusterConfig := e } := by
  simp only [updateEds]
  repeat' split
  all_goals exact ⟨_, rfl⟩

@[simp] theorem applyTCPKeepalive_name (env : Environment) (c : Cluster) (s : ConnectionPoolSettings) :
    (applyTCPKeepalive env c s).name = c.name := by
  obtain ⟨v0, h⟩ := applyTCPKeepalive_shape env c s
  rw [h]

@[simp] theorem applyTCPKeepalive_discoveryType (env : Environment) (c : Cluster) (s : ConnectionPoolSettings) :
    (applyTCPKeepalive env c s).clusterDiscoveryType = c.clusterDiscoveryType := by
  obtain ⟨v0, h⟩ := applyTCPKeepalive_shape env c s
  rw [h]

@[simp] theorem applyTCPKeepalive_loadAssignment (env : Environment) (c : Cluster) (s : ConnectionPoolSettings) :
    (applyTCPKeepalive env c s).loadAssignment = c.loadAssignment := by
  obtain ⟨v0, h⟩ := applyTCPKeepalive_shape env c s
  rw [h]

@[simp] theorem applyTCPKeepalive_edsConfig (env : Environment) (c : Cluster) (s : ConnectionPoolSettings) :
    (applyTCPKeepalive env c s).edsClusterConfig = c.edsClusterConfig := by
  obtain ⟨v0, h⟩ := applyTCPKeepalive_shape env c s
  rw [h]

@[simp] theorem applyTCPKeepalive_lbPolicy (env : Environment) (c : Cluster) (s : ConnectionPoolSettings) :
    (applyTCPKeepalive env c s).lbPolicy = c.lbPolicy := by
  obtain ⟨v0, h⟩ := applyTCPKeepalive_shape env c s
  rw [h]

@[simp] theorem applyTCPKeepalive_tsm (env : Environment) (c : Cluster) (s : ConnectionPoolSettings) :
    (applyTCPKeepalive env c s).transportSocketMatches = c.transportSocketMatches := by
  obtain ⟨v0, h⟩ := applyTCPKeepalive_shape env c s
  rw [h]

@[simp] theorem applyTCPKeepalive_tlsContext (env : Environment) (c : Cluster) (s : ConnectionPoolSettings) :
    (applyTCPKeepalive env c s).tlsContext = c.tlsContext := by
  obtain ⟨v0, h⟩ := applyTCPKeepalive_shape env c s
  rw [h]

@[simp] theorem applyConnectionPool_name (env : Environment) (c : Cluster) (s : Option ConnectionPoolSettings) (d : TrafficDirection) :
    (applyConnectionPool env c s d).name = c.name := by
  obtain ⟨v0, v1, v2, v3, v4, h⟩ := applyConnectionPool_shape env c s d
  rw [h]

@[simp] theorem applyConnectionPool_discoveryType (env : Environment) (c : Cluster) (s : Option ConnectionPoolSettings) (d : TrafficDirection) :
    (applyConnectionPool env c s d).clusterDiscoveryType = c.clusterDiscoveryType := by
  obtain ⟨v0, v1, v2, v3, v4, h⟩ := applyConnectionPool_shape env c s d
  rw [h]

@[simp] theorem applyConnectionPool_loadAssignment (env : Environment) (c : Cluster) (s : Option ConnectionPoolSettings) (d : TrafficDirection) :
    (applyConnectionPool env c s d).loadAssignment = c.loadAssignment := by
  obtain ⟨v0, v1, v2, v3, v4, h⟩ := applyConnectionPool_shape env c s d
  rw [h]

@[simp] theorem applyConnectionPool_edsConfig (env : Environment) (c : Cluster) (s : Option ConnectionPoolSettings) (d : TrafficDirection) :
    (applyConnectionPool env c s d).edsClusterConfig = c.edsClusterConfig := by
  obtain ⟨v0, v1, v2, v3, v4, h⟩ := applyConnectionPool_shape env c s d
  rw [h]

@[simp] theorem applyConnectionPool_lbPolicy (env : Environment) (c : Cluster) (s : Option ConnectionPoolSettings) (d : TrafficDirection) :
    (applyConnectionPool env c s d).lbPolicy = c.lbPolicy := by
  obtain ⟨v0, v1, v2, v3, v4, h⟩ := applyConnectionPool_shape env c s d
  rw [h]

@[simp] theorem applyConnectionPool_tsm (env : Environment) (c : Cluster) (s : Option ConnectionPoolSettings) (d : TrafficDirection) :
    (applyConnectionPool env c s d).transportSocketMatches = c.transportSocketMatches := by
  obtain ⟨v0, v1, v2, v3, v4, h⟩ := applyConnectionPool_shape env c s d
  rw [h]

@[simp] theorem applyConnectionPool_tlsContext (env : Environment) (c : Cluster) (s : Option ConnectionPoolSettings) (d : TrafficDirection) :
    (applyConnectionPool env c s d).tlsContext = c.tlsContext := by
  obtain ⟨v0, v1, v2, v3, v4, h⟩ := applyConnectionPool_shape env c s d
  rw [h]

@[simp] theorem applyOutlierDetection_name (c : Cluster) (o : Option OutlierDetection) :
    (applyOutlierDetection c o).name = c.name := by
  obtain ⟨v0, v1, h⟩ := applyOutlierDetection_shape c o
  rw [h]

@[simp] theorem applyOutlierDetection_discoveryType (c : Cluster) (o : Option OutlierDetection) :
    (applyOutlierDetection c o).clusterDiscoveryType = c.clusterDiscoveryType := by
  obtain ⟨v0, v1, h⟩ := applyOutlierDetection_shape c o
  rw [h]

@[simp] theorem applyOutlierDetection_loadAssignment (c : Cluster) (o : Option OutlierDetection) :
    (applyOutlierDetection c o).loadAssignment = c.loadAssignment := by
  obtain ⟨v0, v1, h⟩ := applyOutlierDetection_shape c o
  rw [h]

@[simp] theorem applyOutlierDetection_edsConfig (c : Cluster) (o : Option OutlierDetection) :
    (applyOutlierDetection c o).edsClusterConfig = c.edsClusterConfig := by
  obtain ⟨v0, v1, h⟩ := applyOutlierDetection_shape c o
  rw [h]

@[simp] theorem applyOutlierDetection_lbPolicy (c : Cluster) (o : Option OutlierDetection) :
    (applyOutlierDetection c o).lbPolicy = c.lbPolicy := by
  obtain ⟨v0, v1, h⟩ := applyOutlierDetection_shape c o
  rw [h]

@[simp] theorem applyOutlierDetection_tsm (c : Cluster) (o : Option OutlierDetection) :
    (applyOutlierDetection c o).transportSocketMatches = c.transportSocketMatches := by
  obtain ⟨v0, v1, h⟩ := applyOutlierDetection_shape c o
  rw [h]

@[simp] theorem applyOutlierDetection_tlsContext (c : Cluster) (o : Option OutlierDetection) :
    (applyOutlierDetection c o).tlsContext = c.tlsContext := by
  obtain ⟨v0, v1, h⟩ := applyOutlierDetection_shape c o
  rw [h]

@[simp] theorem applyLoadBalancer_name (fts : Features) (c : Cluster) (lb : Option LoadBalancerSettings) (port : Option Port) (proxy : Proxy) :
    (applyLoadBalancer fts c lb port proxy).name = c.name := by
  obtain ⟨v0, v1, v2, v3, h⟩ := applyLoadBalancer_shape fts c lb port proxy
  rw [h]

@[simp] theorem applyLoadBalancer_loadAssignment (fts : Features) (c : Cluster) (lb : Option LoadBalancerSettings) (port : Option Port) (proxy : Proxy) :
    (applyLoadBalancer fts c lb port proxy).loadAssignment = c.loadAssignment := by
  obtain ⟨v0, v1, v2, v3, h⟩ := applyLoadBalancer_shape fts c lb port proxy
  rw [h]

@[simp] theorem applyLoadBalancer_edsConfig (fts : Features) (c : Cluster) (lb : Option LoadBalancerSettings) (port : Option Port) (proxy : Proxy) :
    (applyLoadBalancer fts c lb port proxy).edsClusterConfig = c.edsClusterConfig := by
  obtain ⟨v0, v1, v2, v3, h⟩ := applyLoadBalancer_shape fts c lb port proxy
  rw [h]

@[simp] theorem applyLoadBalancer_tsm (fts : Features) (c : Cluster) (lb : Option LoadBalancerSettings) (port : Option Port) (proxy : Proxy) :
    (applyLoadBalancer fts c lb port proxy).transportSocketMatches = c.transportSocketMatches := by
  obtain ⟨v0, v1, v2, v3, h⟩ := applyLoadBalancer_shape fts c lb port proxy
  rw [h]

@[simp] theorem applyLoadBalancer_tlsContext (fts : Features) (c : Cluster) (lb : Option LoadBalancerSettings) (port : Option Port) (proxy : Proxy) :
    (applyLoadBalancer fts c lb port proxy).tlsContext = c.tlsContext := by
  obtain ⟨v0, v1, v2, v3, h⟩ := applyLoadBalancer_shape fts c lb port proxy
  rw [h]

@[simp] theorem applyUpstreamTLSSettings_name (env : Environment) (c : Cluster) (tls : Option TLSSettings) (m : MtlsContextType) (proxy : Proxy) :
    (applyUpstreamTLSSettings env c tls m proxy).name = c.name := by
  obtain ⟨v0, v1, h⟩ := applyUpstreamTLSSettings_shape env c tls m proxy
  rw [h]

@[simp] theorem applyUpstreamTLSSettings_discoveryType (env : Environment) (c : Cluster) (tls : Option TLSSettings) (m : MtlsContextType) (proxy : Proxy) :
    (applyUpstreamTLSSettings env c tls m proxy).clusterDiscoveryType = c.clusterDiscoveryType := by
  obtain ⟨v0, v1, h⟩ := applyUpstreamTLSSettings_shape env c tls m proxy
  rw [h]

@[simp] theorem applyUpstreamTLSSettings_loadAssignment (env : Environment) (c : Cluster) (tls : Option TLSSettings) (m : MtlsContextType) (proxy : Proxy) :
    (applyUpstreamTLSSettings env c tls m proxy).loadAssignment = c.loadAssignment := by
  obtain ⟨v0, v1, h⟩ := applyUpstreamTLSSettings_shape env c tls m proxy
  rw [h]

@[simp] theorem applyUpstreamTLSSettings_edsConfig (env : Environment) (c : Cluster) (tls : Option TLSSettings) (m : MtlsContextType) (proxy : Proxy) :
    (applyUpstreamTLSSettings env c tls m proxy).edsClusterConfig = c.edsClusterConfig := by
  obtain ⟨v0, v1, h⟩ := applyUpstreamTLSSettings_shape env c tls m proxy
  rw [h]

@[simp] theorem applyUpstreamTLSSettings_lbPolicy (env : Environment) (c : Cluster) (tls : Option TLSSettings) (m : MtlsContextType) (proxy : Proxy) :
    (applyUpstreamTLSSettings env c tls m proxy).lbPolicy = c.lbPolicy := by
  obtain ⟨v0, v1, h⟩ := applyUpstreamTLSSettings_shape env c tls m proxy
  rw [h]

@[simp] theorem setUpstreamProtocol_name (fts : Features) (node : Proxy) (c : Cluster) (port : Port) (d : TrafficDirection) :
    (setUpstreamProtocol fts node c port d).name = c.name := by
  obtain ⟨v0, v1, h⟩ := setUpstreamProtocol_shape fts node c port d
  rw [h]

@[simp] theorem setUpstreamProtocol_discoveryType (fts : Features) (node : Proxy) (c : Cluster) (port : Port) (d : TrafficDirection) :
    (setUpstreamProtocol fts node c port d).clusterDiscoveryType = c.clusterDiscoveryType := by
  obtain ⟨v0, v1, h⟩ := setUpstreamProtocol_shape fts node c port d
  rw [h]

@[simp] theorem setUpstreamProtocol_loadAssignment (fts : Features) (node : Proxy) (c : Cluster) (port : Port) (d : TrafficDirection) :
    (setUpstreamProtocol fts node c port d).loadAssignment = c.loadAssignment := by
  obtain ⟨v0, v1, h⟩ := setUpstreamProtocol_shape fts node c port d
  rw [h]

@[simp] theorem setUpstreamProtocol_edsConfig (fts : Features) (node : Proxy) (c : Cluster) (port : Port) (d : TrafficDirection) :
    (setUpstreamProtocol fts node c port d).edsClusterConfig = c.edsClusterConfig := by
  obtain ⟨v0, v1, h⟩ := setUpstreamProtocol_shape fts node c port d
  rw [h]

@[simp] theorem setUpstreamProtocol_lbPolicy (fts : Features) (node : Proxy) (c : Cluster) (port : Port) (d : TrafficDirection) :
    (setUpstreamProtocol fts node c port d).lbPolicy = c.lbPolicy := by
  obtain ⟨v0, v1, h⟩ := setUpstreamProtocol_shape fts node c port d
  rw [h]

@[simp] theorem setUpstreamProtocol_tsm (fts : Features) (node : Proxy) (c : Cluster) (port : Port) (d : TrafficDirection) :
    (setUpstreamProtocol fts node c port d).transportSocketMatches = c.transportSocketMatches := by
  obtain ⟨v0, v1, h⟩ := setUpstreamProtocol_shape fts node c port d
  rw [h]

@[simp] theorem setUpstreamProtocol_tlsContext (fts : Features) (node : Proxy) (c : Cluster) (port : Port) (d : TrafficDirection) :
    (setUpstreamProtocol fts node c port d).tlsContext = c.tlsContext := by
  obtain ⟨v0, v1, h⟩ := setUpstreamProtocol_shape fts node c port d
  rw [h]

@[simp] theorem updateEds_name (fts : Features) (c : Cluster) :
    (updateEds fts c).name = c.name := by
  obtain ⟨v0, h⟩ := updateEds_shape fts c
  rw [h]

@[simp] theorem updateEds_discoveryType (fts : Features) (c : Cluster) :
    (updateEds fts c).clusterDiscoveryType = c.clusterDiscoveryType := by
  obtain ⟨v0, h⟩ := updateEds_shape fts c
  rw [h]

@[simp] theorem updateEds_loadAssignment (fts : Features) (c : Cluster) :
    (updateEds fts c).loadAssignment = c.loadAssignment := by
  obtain ⟨v0, h⟩ := updateEds_shape fts c
  rw [h]

@[simp] theorem updateEds_lbPolicy (fts : Features) (c : Cluster) :
    (updateEds fts c).lbPolicy = c.lbPolicy := by
  obtain ⟨v0, h⟩ := updateEds_shape fts c
  rw [h]

@[simp] theorem updateEds_tsm (fts : Features) (c : Cluster) :
    (updateEds fts c).transportSocketMatches = c.transportSocketMatches := by
  obtain ⟨v0, h⟩ := updateEds_shape fts c
  rw [h]

@[simp] theorem updateEds_tlsContext (fts : Features) (c : Cluster) :
    (updateEds fts c).tlsContext = c.tlsContext := by
  obtain ⟨v0, h⟩ := updateEds_shape fts c
  rw [h]

theorem normalizeLoop_eq_spec (cs : List Cluster) :
    ∀ seen₁ seen₂ : List String, (∀ a, a ∈ seen₁ ↔ a ∈ seen₂) →
      normalizeLoop seen₁ cs = (specKeepFirst seen₂ cs, specDupEvents seen₂ cs) := by
  induction cs with
  | nil => intro seen₁ seen₂ _; simp [normalizeLoop, specKeepFirst, specDupEvents]
  | cons c rest ih =>
    intro seen₁ seen₂ hmem
    simp only [normalizeLoop, specKeepFirst, specDupEvents]
    by_cases h : c.name ∈ seen₂
    · have hc : c.name ∈ seen₁ := (hmem c.name).mpr h
      have h₁ : seen₁.contains c.name = true := by
        simp [List.contains, List.elem_eq_mem, hc]
      have hequiv : ∀ a, a ∈ c.name :: seen₁ ↔ a ∈ seen₂ := by
        intro a
        simp only [List.mem_cons]
        constructor
        · intro ha
          rcases ha with rfl | ha
          · exact h
          · exact (hmem a).mp ha
        · intro ha
          exact Or.inr ((hmem a).mpr ha)
      rw [ih (c.name :: seen₁) seen₂ hequiv]
      simp [h₁, h, hc]
    · have hc : c.name ∉ seen₁ := fun hc => h ((hmem c.name).mp hc)
      have h₁ : seen₁.contains c.name = false := by
        simp [List.contains, List.elem_eq_mem, hc]
      have hequiv : ∀ a, a ∈ c.name :: seen₁ ↔ a ∈ c.name :: seen₂ := by
        intro a
        simp only [List.mem_cons]
        exact or_congr Iff.rfl (hmem a)
      rw [ih (c.name :: seen₁) (c.name :: seen₂) hequiv]
      simp [h₁, h, hc]

theorem specKeepFirst_name_not_seen (cs : List Cluster) :
    ∀ seen : List String, ∀ c ∈ specKeepFirst seen cs, c.name ∉ seen := by
  induction cs with
  | nil => intro seen c hc; simp [specKeepFirst] at hc
  | cons d rest ih =>
    intro seen c hc
    simp only [specKeepFirst] at hc
    by_cases h : d.name ∈ seen
    · simp only [if_pos h] at hc
      exact ih seen c hc
    · simp only [if_neg h, List.mem_cons] at hc
      rcases hc with rfl | hc
      · exact h
      · exact fun hs => ih (d.name :: seen) c hc (List.mem_cons_of_mem _ hs)

theorem specKeepFirst_names_nodup (cs : List Cluster) :
    ∀ seen : List String, ((specKeepFirst seen cs).map (·.name)).Nodup := by
  induction cs with
  | nil => intro seen; simp [specKeepFirst]
  | cons d rest ih =>
    intro seen
    simp only [specKeepFirst]
    by_cases h : d.name ∈ seen
    · simp only [if_pos h]; exact ih seen
    · simp only [if_neg h, List.map_cons, List.nodup_cons]
      refine ⟨?_, ih (d.name :: seen)⟩
      intro hmem
      rcases List.mem_map.mp hmem with ⟨c, hc, hcn⟩
      exact specKeepFirst_name_not_seen rest (d.name :: seen) c hc
        (hcn ▸ List.mem_cons_self _ _)

theorem specKeepFirst_sublist (cs : List Cluster) :
    ∀ seen : List String, (specKeepFirst seen cs).Sublist cs := by
  induction cs with
  | nil => intro seen; simp [specKeepFirst]
  | cons d rest ih =>
    intro seen
    simp only [specKeepFirst]
    by_cases h : d.name ∈ seen
    · simp only [if_pos h]
      exact (ih seen).trans (List.sublist_cons_self d rest)
    · simp only [if_neg h]
      exact (ih (d.name :: seen)).cons₂ d

theorem specKeepFirst_name_mem (cs : List Cluster) :
    ∀ seen : List String, ∀ n : String,
      (n ∈ (specKeepFirst seen cs).map (·.name)) ↔ (n ∈ cs.map (·.name) ∧ n ∉ seen) := by
  induction cs with
  | nil => intro seen n; simp [specKeepFirst]
  | cons d rest ih =>
    intro seen n
    simp only [specKeepFirst]
    by_cases h : d.name ∈ seen
    · simp only [if_pos h, List.map_cons, List.mem_cons, ih seen n]
      constructor
      · exact fun ⟨h₁, h₂⟩ => ⟨Or.inr h₁, h₂⟩
      · rintro ⟨(rfl | h₁), h₂⟩
        · exact absurd h h₂
        · exact ⟨h₁, h₂⟩
    · simp only [if_neg h, List.map_cons, List.mem_cons, ih (d.name :: seen) n,
        List.mem_cons]
      constructor
      · rintro (rfl | ⟨h₁, h₂⟩)
        · exact ⟨Or.inl rfl, h⟩
        · exact ⟨Or.inr h₁, fun hs => h₂ (Or.inr hs)⟩
      · rintro ⟨(rfl | h₁), h₂⟩
        · exact Or.inl rfl
        · by_cases hn : n = d.name
          · exact Or.inl hn
          · exact Or.inr ⟨h₁, fun hs => hs.elim hn h₂⟩

theorem updateEds_edsConfig (fts : Features) (c : Cluster) :
    (updateEds fts c).edsClusterConfig =
      if c.clusterDiscoveryType = .EDS then some ⟨c.name, fts.initialFetchTimeout⟩
      else c.edsClusterConfig := by
  simp only [updateEds]
  split <;> simp_all

theorem applyLoadBalancer_type_or (fts : Features) (c : Cluster)
    (lb : Option LoadBalancerSettings) (port : Option Port) (proxy : Proxy) :
    (applyLoadBalancer fts c lb port proxy).clusterDiscoveryType = c.clusterDiscoveryType ∨
    (applyLoadBalancer fts c lb port proxy).clusterDiscoveryType = .ORIGINAL_DST := by
  simp only [applyLoadBalancer]
  repeat' split
  all_goals simp

theorem getConsistentHash_some_getSimple (lb : LoadBalancerSettings) (h : ConsistentHashLB)
    (hh : lb.getConsistentHash = some h) : lb.getSimple = .ROUND_ROBIN := by
  rcases lb with ⟨p⟩
  rcases p with _ | c
  · simp [LoadBalancerSettings.getConsistentHash] at hh
  · rcases c with s | ch
    · simp [LoadBalancerSettings.getConsistentHash] at hh
    · simp [LoadBalancerSettings.getSimple]

theorem applyLoadBalancer_clusterProvided (fts : Features) (c : Cluster)
    (lb : Option LoadBalancerSettings) (port : Option Port) (proxy : Proxy)
    (h : c.clusterDiscoveryType = .ORIGINAL_DST → c.lbPolicy = lbPolicyClusterProvided proxy) :
    (applyLoadBalancer fts c lb port proxy).clusterDiscoveryType = .ORIGINAL_DST →
    (applyLoadBalancer fts c lb port proxy).lbPolicy = lbPolicyClusterProvided proxy := by
  rcases lb with _ | ⟨_ | ⟨s⟩ | ⟨ch⟩⟩ <;>
    simp only [applyLoadBalancer, LoadBalancerSettings.getSimple,
      LoadBalancerSettings.getConsistentHash] <;>
    repeat' split <;>
    simp_all



theorem conditionallyConvertToIstioMtls_userSupplied (tls : Option TLSSettings)
    (sa : List String) (sni : String) (proxy : Proxy) (ext : Bool) :
    (conditionallyConvertToIstioMtls tls sa sni proxy false ext).2 = .userSupplied := by
  cases tls with
  | none => simp [conditionallyConvertToIstioMtls]
  | some t =>
    simp only [conditionallyConvertToIstioMtls]
    split <;> rfl

theorem applyUpstreamTLSSettings_tsm_user (env : Environment) (c : Cluster)
    (tls : Option TLSSettings) (proxy : Proxy) :
    (applyUpstreamTLSSettings env c tls .userSupplied proxy).transportSocketMatches =
      c.transportSocketMatches := by
  cases tls with
  | none => rfl
  | some tls =>
    simp only [applyUpstreamTLSSettings]
    repeat' split
    all_goals simp_all

theorem applyTrafficPolicy_name (opts : BuildClusterOpts) (proxy : Proxy) :
    (applyTrafficPolicy opts proxy).name = opts.cluster.name := by
  simp only [applyTrafficPolicy]
  split <;> simp

theorem applyTrafficPolicy_loadAssignment (opts : BuildClusterOpts) (proxy : Proxy) :
    (applyTrafficPolicy opts proxy).loadAssignment = opts.cluster.loadAssignment := by
  simp only [applyTrafficPolicy]
  split <;> simp

theorem applyTrafficPolicy_edsConfig (opts : BuildClusterOpts) (proxy : Proxy) :
    (applyTrafficPolicy opts proxy).edsClusterConfig = opts.cluster.edsClusterConfig := by
  simp only [applyTrafficPolicy]
  split <;> simp

theorem applyTrafficPolicy_type_or (opts : BuildClusterOpts) (proxy : Proxy) :
    (applyTrafficPolicy opts proxy).clusterDiscoveryType = opts.cluster.clusterDiscoveryType ∨
    (applyTrafficPolicy opts proxy).clusterDiscoveryType = .ORIGINAL_DST := by
  simp only [applyTrafficPolicy]
  split <;>
    rcases applyLoadBalancer_type_or opts.env.features
      (applyOutlierDetection
        (applyConnectionPool opts.env opts.cluster
          (SelectTrafficPolicyComponents opts.policy opts.port).1 opts.direction)
        (SelectTrafficPolicyComponents opts.policy opts.port).2.1)
      (SelectTrafficPolicyComponents opts.policy opts.port).2.2.1 opts.port proxy with h | h <;>
    simp_all

theorem applyTrafficPolicy_clusterProvided (opts : BuildClusterOpts) (proxy : Proxy)
    (h : opts.cluster.clusterDiscoveryType = .ORIGINAL_DST →
      opts.cluster.lbPolicy = lbPolicyClusterProvided proxy) :
    (applyTrafficPolicy opts proxy).clusterDiscoveryType = .ORIGINAL_DST →
    (applyTrafficPolicy opts proxy).lbPolicy = lbPolicyClusterProvided proxy := by
  have key := applyLoadBalancer_clusterProvided opts.env.features
    (applyOutlierDetection
      (applyConnectionPool opts.env opts.cluster
        (SelectTrafficPolicyComponents opts.policy opts.port).1 opts.direction)
      (SelectTrafficPolicyComponents opts.policy opts.port).2.1)
    (SelectTrafficPolicyComponents opts.policy opts.port).2.2.1 opts.port proxy (by simpa using h)
  simp only [applyTrafficPolicy]
  split <;> simp_all



theorem applyLoadBalancer_od_type (fts : Features) (c : Cluster)
    (lb : Option LoadBalancerSettings) (port : Option Port) (proxy : Proxy)
    (h : c.clusterDiscoveryType = .ORIGINAL_DST) :
    (applyLoadBalancer fts c lb port proxy).clusterDiscoveryType = .ORIGINAL_DST := by
  rcases applyLoadBalancer_type_or fts c lb port proxy with h' | h' <;> simp_all

theorem applyLoadBalancer_some_clusterProvided (fts : Features) (c : Cluster)
    (l : LoadBalancerSettings) (port : Option Port) (proxy : Proxy) :
    (applyLoadBalancer fts c (some l) port proxy).clusterDiscoveryType = .ORIGINAL_DST →
    (applyLoadBalancer fts c (some l) port proxy).lbPolicy = lbPolicyClusterProvided proxy := by
  rcases l with ⟨_ | ⟨s⟩ | ⟨ch⟩⟩ <;>
    simp only [applyLoadBalancer, LoadBalancerSettings.getSimple,
      LoadBalancerSettings.getConsistentHash] <;>
    repeat' split
  all_goals first | simp_all | (intro h'; rfl) | rfl

theorem applyLoadBalancer_rr_type (fts : Features) (c : Cluster) (port : Option Port)
    (proxy : Proxy) :
    (applyLoadBalancer fts c (some ⟨some (.simple .ROUND_ROBIN)⟩) port proxy).clusterDiscoveryType =
      c.clusterDiscoveryType := by
  simp only [applyLoadBalancer, LoadBalancerSettings.getSimple,
    LoadBalancerSettings.getConsistentHash]
  repeat' split
  all_goals first | rfl | simp_all

theorem applyTrafficPolicy_tsm_noAuto (opts : BuildClusterOpts) (proxy : Proxy)
    (h : opts.env.mesh.enableAutoMtls = false) :
    (applyTrafficPolicy opts proxy).transportSocketMatches =
      opts.cluster.transportSocketMatches := by
  simp only [applyTrafficPolicy]
  split
  · rw [h, conditionallyConvertToIstioMtls_userSupplied, applyUpstreamTLSSettings_tsm_user]
    simp
  · simp

theorem buildDefaultCluster_name (env : Environment) (n : String) (d : DiscoveryType)
    (eps : List LocalityLbEndpoints) (dir : TrafficDirection) (proxy : Proxy)
    (port : Option Port) (ext : Bool) :
    (buildDefaultCluster env n d eps dir proxy port ext).name = n := by
  simp only [buildDefaultCluster, applyTrafficPolicy_name]
  repeat' split
  all_goals simp

theorem buildDefaultCluster_loadAssignment (env : Environment) (n : String) (d : DiscoveryType)
    (eps : List LocalityLbEndpoints) (dir : TrafficDirection) (proxy : Proxy)
    (port : Option Port) (ext : Bool) :
    (buildDefaultCluster env n d eps dir proxy port ext).loadAssignment =
      if d = .STATIC ∨ d = .STRICT_DNS then some ⟨n, eps⟩ else none := by
  simp only [buildDefaultCluster, applyTrafficPolicy_loadAssignment]
  repeat' split
  all_goals simp_all [emptyCluster]

theorem buildDefaultCluster_edsConfig (env : Environment) (n : String) (d : DiscoveryType)
    (eps : List LocalityLbEndpoints) (dir : TrafficDirection) (proxy : Proxy)
    (port : Option Port) (ext : Bool) :
    (buildDefaultCluster env n d eps dir proxy port ext).edsClusterConfig = none := by
  simp only [buildDefaultCluster, applyTrafficPolicy_edsConfig]
  repeat' split
  all_goals simp [emptyCluster]



theorem buildDefaultCluster_type (env : Environment) (n : String) (d : DiscoveryType)
    (eps : List LocalityLbEndpoints) (dir : TrafficDirection) (proxy : Proxy)
    (port : Option Port) (ext : Bool) :
    (buildDefaultCluster env n d eps dir proxy port ext).clusterDiscoveryType = d := by
  by_cases hod : d = .ORIGINAL_DST <;>
    cases port <;>
      simp only [buildDefaultCluster, applyTrafficPolicy, SelectTrafficPolicyComponents,
        buildDefaultTrafficPolicy] <;>
      simp [applyLoadBalancer_od_type, applyLoadBalancer_rr_type, hod, emptyCluster] <;>
      repeat' split <;> simp_all



theorem buildDefaultCluster_clusterProvided (env : Environment) (n : String) (d : DiscoveryType)
    (eps : List LocalityLbEndpoints) (dir : TrafficDirection) (proxy : Proxy)
    (port : Option Port) (ext : Bool) :
    (buildDefaultCluster env n d eps dir proxy port ext).clusterDiscoveryType = .ORIGINAL_DST →
    (buildDefaultCluster env n d eps dir proxy port ext).lbPolicy = lbPolicyClusterProvided proxy := by
  cases port <;>
    simp only [buildDefaultCluster, applyTrafficPolicy, SelectTrafficPolicyComponents,
      buildDefaultTrafficPolicy]
  all_goals
    rw [if_pos (show ¬ClusterMode.DefaultClusterMode = ClusterMode.SniDnatClusterMode by decide)]
  all_goals
    simp only [ne_eq, List.length_nil, gt_iff_lt, Nat.lt_irrefl, if_false,
      applyUpstreamTLSSettings_discoveryType, applyUpstreamTLSSettings_lbPolicy]
  all_goals
    intro hod
    refine applyLoadBalancer_some_clusterProvided _ _ _ _ _ ?_
    simpa using hod

theorem buildDefaultCluster_tsm (env : Environment) (n : String) (d : DiscoveryType)
    (eps : List LocalityLbEndpoints) (dir : TrafficDirection) (proxy : Proxy)
    (port : Option Port) (ext : Bool) (h : env.mesh.enableAutoMtls = false) :
    (buildDefaultCluster env n d eps dir proxy port ext).transportSocketMatches = [] := by
  simp only [buildDefaultCluster]
  rw [applyTrafficPolicy_tsm_noAuto _ _ (by simpa using h)]
  repeat' split
  all_goals simp [emptyCluster]

theorem normalizeClusters_spec (clusters : List Cluster) :
    (normalizeClusters clusters).1 = specKeepFirst [] clusters ∧
    (normalizeClusters clusters).2 = specDupEvents [] clusters ∧
    ((normalizeClusters clusters).1.map (·.name)).Nodup ∧
    (normalizeClusters clusters).1.Sublist clusters := by
  have h := normalizeLoop_eq_spec clusters [] [] (fun a => Iff.rfl)
  have h1 : (normalizeClusters clusters).1 = specKeepFirst [] clusters := by
    simpa [normalizeClusters] using congrArg Prod.fst h
  have h2 : (normalizeClusters clusters).2 = specDupEvents [] clusters := by
    simpa [normalizeClusters] using congrArg Prod.snd h
  refine ⟨h1, h2, ?_, ?_⟩
  · rw [h1]; exact specKeepFirst_names_nodup clusters []
  · rw [h1]; exact specKeepFirst_sublist clusters []

/-- C1: normalization keeps the first cluster with each name and discards
every later cluster sharing that name (the output equals the spec-side
keep-first scan and is a sublist of the input, so kept entries appear in
emission order), records one duplicate event per discarded cluster (the
spec-side event scan), and every returned cluster name is unique. -/
theorem claim_C1_normalizeClusters (clusters : List Cluster) :
    (normalizeClusters clusters).1 = specKeepFirst [] clusters ∧
    (normalizeClusters clusters).2 = specDupEvents [] clusters ∧
    ((normalizeClusters clusters).1.map (·.name)).Nodup ∧
    (normalizeClusters clusters).1.Sublist clusters :=
  normalizeClusters_spec clusters

theorem selectPortLevelLoop_eq_find (portNumber : Nat)
    (base : Option ConnectionPoolSettings × Option OutlierDetection ×
      Option LoadBalancerSettings × Option TLSSettings) (l : List PortTrafficPolicy) :
    selectPortLevelLoop portNumber base l =
      match l.find? (fun p =>
          match p.port with
          | some sel => decide (portNumber = sel.number)
          | none => false) with
      | some p => (p.connectionPool, p.outlierDetection, p.loadBalancer, p.tls)
      | none => base := by
  induction l with
  | nil => rfl
  | cons p rest ih =>
    simp only [selectPortLevelLoop, List.find?]
    cases hp : p.port with
    | none => simpa [hp] using ih
    | some sel =>
      by_cases h : portNumber = sel.number
      · simp [hp, h]
      · simp [hp, h, ih]

/-- C6: the traffic-policy resolver starts from the four root facets; with a
port supplied it scans the declared port-level entries in order and, at the
first entry whose (set) port number equals the target port, replaces all
four facets wholesale (nulls included), ignoring later entries; with no
matching entry the root facets stand. -/
theorem claim_C6_SelectTrafficPolicyComponents (policy : TrafficPolicy) (port : Port) :
    SelectTrafficPolicyComponents (some policy) (some port) =
      match policy.portLevelSettings.find? (fun p =>
          match p.port with
          | some sel => decide (port.port = sel.number)
          | none => false) with
      | some p => (p.connectionPool, p.outlierDetection, p.loadBalancer, p.tls)
      | none =>
        (policy.connectionPool, policy.outlierDetection, policy.loadBalancer, policy.tls) := by
  simp only [SelectTrafficPolicyComponents]
  cases hl : policy.portLevelSettings with
  | nil => simp
  | cons p rest =>
    rw [if_pos (by simp)]
    rw [selectPortLevelLoop_eq_find]

/-- C7: a TLS setting in Mutual or MeshMutual mode with an empty client
certificate or private key is dropped: the cluster record is returned
completely unchanged (in particular its TLS context stays unset), and the
builder does not fail. -/
theorem claim_C7_mutualWithoutMaterial (env : Environment) (cluster : Cluster)
    (tls : TLSSettings) (m : MtlsContextType) (proxy : Proxy)
    (hmode : tls.mode = .MUTUAL ∨ tls.mode = .ISTIO_MUTUAL)
    (hmat : tls.clientCertificate = "" ∨ tls.privateKey = "") :
    applyUpstreamTLSSettings env cluster (some tls) m proxy = cluster := by
  rcases hmode with h | h <;>
    simp only [applyUpstreamTLSSettings, h] <;>
    rw [if_pos hmat]



theorem getOrDefault_ne_empty (s d : String) (hd : d ≠ "") : getOrDefault s d ≠ "" := by
  simp only [getOrDefault]
  split
  · intro hs
    subst hs
    simp_all
  · exact hd

/-- C5: with TLS intent absent, auto-mTLS enabled and the service not
mesh-external, the synthesized context is marked auto-detected, and applying
it does not attach the TLS context directly: the cluster ends with exactly
two transport-socket matches, the first keyed on the endpoint mTLS-ready
metadata label and carrying the TLS socket, the second the catch-all
plaintext raw-buffer socket, and the direct TLS context cleared. -/
theorem claim_C5_autoMtlsPackaging (env : Environment) (cluster : Cluster)
    (serviceAccounts : List String) (sni : String) (proxy : Proxy) :
    (conditionallyConvertToIstioMtls none serviceAccounts sni proxy true false).2 =
      .autoDetected ∧
    ∃ tlsCtx,
      (applyUpstreamTLSSettings env cluster
          (conditionallyConvertToIstioMtls none serviceAccounts sni proxy true false).1
          (conditionallyConvertToIstioMtls none serviceAccounts sni proxy true false).2
          proxy).transportSocketMatches =
        [⟨"mtls", [(mtlsReadyLabelShortname, "true")], ⟨envoyTLSSocketName, some tlsCtx⟩⟩,
          plaintextTransportSocketMatch] ∧
      (applyUpstreamTLSSettings env cluster
          (conditionallyConvertToIstioMtls none serviceAccounts sni proxy true false).1
          (conditionallyConvertToIstioMtls none serviceAccounts sni proxy true false).2
          proxy).tlsContext = none := by
  have hc : getOrDefault proxy.metadata.tlsClientCertChain defaultCertChain ≠ "" :=
    getOrDefault_ne_empty _ _ (by simp [defaultCertChain])
  have hk : getOrDefault proxy.metadata.tlsClientKey defaultKey ≠ "" :=
    getOrDefault_ne_empty _ _ (by simp [defaultKey])
  have hcc : conditionallyConvertToIstioMtls none serviceAccounts sni proxy true false =
      (some (buildIstioMutualTLS serviceAccounts sni proxy), .autoDetected) := by
    simp [conditionallyConvertToIstioMtls, istioMutualFill]
  refine ⟨by rw [hcc], ?_⟩
  rw [hcc]
  dsimp only
  simp only [applyUpstreamTLSSettings, buildIstioMutualTLS]
  rw [if_neg (by simp [hc, hk])]
  rw [if_pos ⟨trivial, trivial⟩]
  exact ⟨_, rfl, rfl⟩

theorem foldl_mod_sum (m : Nat) (l : List LbEndpoint) :
    ∀ a : Nat,
      l.foldl (fun w ep => (w + ep.loadBalancingWeight.getD 0) % m) (a % m) =
        (a + (l.map (fun e => e.loadBalancingWeight.getD 0)).sum) % m := by
  induction l with
  | nil => intro a; simp
  | cons e rest ih =>
    intro a
    simp only [List.foldl_cons, List.map_cons, List.sum_cons]
    rw [Nat.mod_add_mod]
    rw [ih (a + e.loadBalancingWeight.getD 0)]
    ring_nf

theorem sumWeightsUint32_eq (l : List LbEndpoint) :
    sumWeightsUint32 l = (l.map (fun e => e.loadBalancingWeight.getD 0)).sum % 2 ^ 32 := by
  have h := foldl_mod_sum (2 ^ 32) l 0
  simpa [sumWeightsUint32] using h

theorem insertGroup_pred (P : LbEndpoint → Prop) :
    ∀ (acc : List (String × List LbEndpoint)) (loc : String) (ep : LbEndpoint),
      (∀ g ∈ acc, ∀ e ∈ g.2, P e) → P ep →
      ∀ g ∈ insertGroup acc loc ep, ∀ e ∈ g.2, P e := by
  intro acc
  induction acc with
  | nil =>
    intro loc ep _ hep g hg e he
    simp only [insertGroup, List.mem_singleton] at hg
    subst hg
    simp only [List.mem_singleton] at he
    subst he
    exact hep
  | cons kv rest ih =>
    intro loc ep hacc hep g hg e he
    simp only [insertGroup] at hg
    split at hg
    · rcases List.mem_cons.mp hg with rfl | hg
      · rcases List.mem_append.mp he with h | h
        · exact hacc kv (List.mem_cons_self _ _) e h
        · simp only [List.mem_singleton] at h
          subst h
          exact hep
      · exact hacc g (List.mem_cons_of_mem _ hg) e he
    · rcases List.mem_cons.mp hg with rfl | hg
      · exact hacc kv (List.mem_cons_self _ _) e he
      · exact ih loc ep (fun g' hg' => hacc g' (List.mem_cons_of_mem _ hg')) hep g hg e he

theorem groupByLocality_pred (P : LbEndpoint → Prop) :
    ∀ (insts : List ServiceInstance) (acc : List (String × List LbEndpoint)),
      (∀ g ∈ acc, ∀ e ∈ g.2, P e) →
      (∀ i ∈ insts, P (buildLbEndpoint i)) →
      ∀ g ∈ insts.foldl (fun a i => insertGroup a i.getLocality (buildLbEndpoint i)) acc,
        ∀ e ∈ g.2, P e := by
  intro insts
  induction insts with
  | nil => intro acc hacc _ g hg; exact hacc g hg
  | cons i rest ih =>
    intro acc hacc hinsts g hg
    simp only [List.foldl_cons] at hg
    exact ih (insertGroup acc i.getLocality (buildLbEndpoint i))
      (insertGroup_pred P acc i.getLocality (buildLbEndpoint i) hacc
        (hinsts i (List.mem_cons_self _ _)))
      (fun j hj => hinsts j (List.mem_cons_of_mem _ hj)) g hg

/-- C9 (amended): each locality group's weight is the sum of its member
endpoints' weights taken in uint32 arithmetic, i.e. modulo 2^32 (the Go
accumulator wraps); each member is the LB endpoint built from some instance,
with weight the instance's endpoint weight when positive and 1 otherwise. -/
theorem claim_C9_amended_groupWeights (env : Environment) (view : List String)
    (service : Service) (port : Nat) (lbls : List (List (String × String))) :
    ∀ g ∈ buildLocalityLbEndpointsPre env view service port lbls,
      g.loadBalancingWeight =
        some ((g.lbEndpoints.map (fun e => e.loadBalancingWeight.getD 0)).sum % 2 ^ 32) ∧
      ∀ e ∈ g.lbEndpoints, ∃ i : ServiceInstance, e = buildLbEndpoint i ∧
        e.loadBalancingWeight =
          some (if i.endpoint.lbWeight > 0 then i.endpoint.lbWeight else 1) := by
  intro g hg
  simp only [buildLocalityLbEndpointsPre] at hg
  split at hg
  · simp at hg
  · split at hg
    · simp at hg
    · rcases List.mem_map.mp hg with ⟨p, hp, rfl⟩
      constructor
      · simpa using sumWeightsUint32_eq p.2
      · intro e he
        simp only at he
        have := groupByLocality_pred (fun e => ∃ i : ServiceInstance, e = buildLbEndpoint i)
          _ [] (by simp) (fun i _ => ⟨i, rfl⟩) p hp e he
        rcases this with ⟨i, rfl⟩
        exact ⟨i, rfl, rfl⟩

/-- C9 counterexample: with two instances of weight 2^31 in one locality,
the emitted group weight is 0 (uint32 wraparound), not the sum 2^32: the
claim that the group weight equals the plain sum of member weights fails. -/
theorem claim_C9_counterexample :
    ¬ (∀ g ∈ buildLocalityLbEndpointsPre overflowEnvFixture [""] dnsServiceFixture 80 [],
        g.loadBalancingWeight =
          some ((g.lbEndpoints.map (fun e => e.loadBalancingWeight.getD 0)).sum)) := by
  decide



theorem claim_C9_amended_witness :
    (⟨"", [buildLbEndpoint heavyInstanceFixture, buildLbEndpoint heavyInstanceFixture],
        some 0⟩ : LocalityLbEndpoints) ∈
      buildLocalityLbEndpointsPre overflowEnvFixture [""] dnsServiceFixture 80 [] ∧
    ((⟨"", [buildLbEndpoint heavyInstanceFixture, buildLbEndpoint heavyInstanceFixture],
        some 0⟩ : LocalityLbEndpoints).loadBalancingWeight =
      some ((((⟨"", [buildLbEndpoint heavyInstanceFixture, buildLbEndpoint heavyInstanceFixture],
        some 0⟩ : LocalityLbEndpoints)).lbEndpoints.map
          (fun e => e.loadBalancingWeight.getD 0)).sum % 2 ^ 32) ∧
      ∀ e ∈ (⟨"", [buildLbEndpoint heavyInstanceFixture, buildLbEndpoint heavyInstanceFixture],
        some 0⟩ : LocalityLbEndpoints).lbEndpoints,
        ∃ i : ServiceInstance, e = buildLbEndpoint i ∧
          e.loadBalancingWeight =
            some (if i.endpoint.lbWeight > 0 then i.endpoint.lbWeight else 1)) :=
  ⟨by decide,
    claim_C9_amended_groupWeights overflowEnvFixture [""] dnsServiceFixture 80 [] _ (by decide)⟩

theorem subsetLoop_append (env : Environment) (proxy : Proxy) (view : List String)
    (service : Service) (dr : DestinationRule) (meta : Option (String × String))
    (sa : List String) (dt : DiscoveryType) (port : Port) (st : List LocalityLbEndpoints)
    (l1 l2 : List Subset) :
    subsetLoop env proxy view service dr meta sa dt port st (l1 ++ l2) =
      subsetLoop env proxy view service dr meta sa dt port st l1 ++
        subsetLoop env proxy view service dr meta sa dt port
          (subsetLoopState env view service dt port st l1) l2 := by
  induction l1 generalizing st with
  | nil => simp [subsetLoop, subsetLoopState]
  | cons s rest ih =>
    simp only [List.cons_append, subsetLoop, subsetLoopState, List.append_eq]
    rw [ih]

theorem subsetLoop_length (env : Environment) (proxy : Proxy) (view : List String)
    (service : Service) (dr : DestinationRule) (meta : Option (String × String))
    (sa : List String) (dt : DiscoveryType) (port : Port) (st : List LocalityLbEndpoints)
    (l : List Subset) :
    (subsetLoop env proxy view service dr meta sa dt port st l).length = l.length := by
  induction l generalizing st with
  | nil => rfl
  | cons s rest ih => simp [subsetLoop, ih]

theorem subsetLoopState_lastLabeled (env : Environment) (view : List String)
    (service : Service) (dt : DiscoveryType) (port : Port) (hdt : dt ≠ .EDS) :
    ∀ (l : List Subset) (st : List LocalityLbEndpoints),
      subsetLoopState env view service dt port st l =
        match lastLabeled l with
        | some s => buildLocalityLbEndpoints env view service port.port [s.labels]
        | none => st := by
  intro l
  induction l with
  | nil => intro st; rfl
  | cons s rest ih =>
    intro st
    simp only [subsetLoopState, lastLabeled]
    rw [ih]
    cases h : lastLabeled rest with
    | some t => simp
    | none =>
      by_cases hs : s.labels.length ≠ 0
      · simp [hs, hdt]
      · simp [hs]

/-- C10: in the outbound generator with a non-EDS discovery type, once some
subset in the prefix has a non-empty label predicate, a later subset with an
empty label predicate is built with the endpoint list re-materialized for
the last such labeled subset (the overwritten shared loop variable), not
with the full per-port endpoint list. -/
theorem claim_C10_subsetEndpointAliasing (env : Environment) (proxy : Proxy)
    (view : List String) (service : Service) (dr : DestinationRule)
    (meta : Option (String × String)) (sa : List String) (dt : DiscoveryType) (port : Port)
    (st : List LocalityLbEndpoints) (l1 l2 : List Subset) (t s : Subset)
    (hdt : dt ≠ .EDS) (ht : t.labels = []) (hs : lastLabeled l1 = some s) :
    (subsetLoop env proxy view service dr meta sa dt port st (l1 ++ t :: l2))[l1.length]? =
      some (buildSubsetCluster env proxy service dr meta sa dt port t
        (buildLocalityLbEndpoints env view service port.port [s.labels])) := by
  rw [subsetLoop_append]
  rw [List.getElem?_append_right (by rw [subsetLoop_length])]
  rw [subsetLoop_length]
  simp only [Nat.sub_self]
  rw [subsetLoopState_lastLabeled env view service dt port hdt l1 st, hs]
  simp only [subsetLoop, ht]
  simp

theorem mem_normalizeClusters (cs : List Cluster) (c : Cluster) :
    c ∈ (normalizeClusters cs).1 → c ∈ cs := by
  intro hc
  have h1 := (normalizeClusters_spec cs).2.2.2
  exact h1.subset hc

theorem applyLocalityLBSetting_eq (lp : Bool) (cs : List Cluster) (lbp : Bool) :
    applyLocalityLBSetting lp cs lbp = cs := by
  simp only [applyLocalityLBSetting, loadbalancerApplyLocalityLBSetting]
  split
  · rfl
  · have hfun : ∀ c : Cluster,
        (match c.loadAssignment with
          | some la => { c with loadAssignment := some la }
          | none => c) = c := by
      intro c
      cases h : c.loadAssignment with
      | none => rfl
      | some la =>
        show { c with loadAssignment := some la } = c
        rw [← h]
    refine Eq.trans (List.map_congr_left ?_) (List.map_id cs)
    intro c _
    exact hfun c

theorem buildBlackHoleCluster_tsm (env : Environment) :
    (buildBlackHoleCluster env).transportSocketMatches = [] := by
  simp [buildBlackHoleCluster, emptyCluster]

theorem buildDefaultPassthroughCluster_tsm (env : Environment) (proxy : Proxy) :
    (buildDefaultPassthroughCluster env proxy).transportSocketMatches = [] := by
  simp [buildDefaultPassthroughCluster, emptyCluster]

theorem generateInboundPassthroughClusters_tsm (env : Environment) (proxy : Proxy) :
    ∀ c ∈ generateInboundPassthroughClusters env proxy,
      c.transportSocketMatches = [] := by
  intro c hc
  simp only [generateInboundPassthroughClusters] at hc
  rcases List.mem_append.mp hc with h | h <;>
    [skip; skip] <;>
    · split at h
      · simp only [List.mem_singleton] at h
        subst h
        simpa using buildDefaultPassthroughCluster_tsm env proxy
      · simp at h

set_option maxHeartbeats 4000000 in
theorem buildInboundClusterForPortOrUDS_tsm (p : InputParams)
    (h : p.env.mesh.enableAutoMtls = false) :
    (buildInboundClusterForPortOrUDS p).transportSocketMatches = [] := by
  simp only [buildInboundClusterForPortOrUDS]
  repeat' split
  all_goals simp [buildDefaultCluster_tsm, h]

theorem managementClusterFor_tsm (env : Environment) (proxy : Proxy) (lh : String) (port : Port)
    (h : env.mesh.enableAutoMtls = false) :
    (managementClusterFor env proxy lh port).transportSocketMatches = [] := by
  simp [managementClusterFor, buildDefaultCluster_tsm, h]

theorem inboundInstanceLoop_tsm (env : Environment) (proxy : Proxy) (push : PushContext)
    (lh : String) (h : env.mesh.enableAutoMtls = false) :
    ∀ (seen : List Port) (insts : List ServiceInstance),
      ∀ c ∈ inboundInstanceLoop env proxy push lh seen insts,
        c.transportSocketMatches = [] := by
  intro seen insts
  induction insts generalizing seen with
  | nil => intro c hc; simp [inboundInstanceLoop] at hc
  | cons i rest ih =>
    intro c hc
    simp only [inboundInstanceLoop] at hc
    split at hc
    · exact ih _ c hc
    · rcases List.mem_cons.mp hc with rfl | hc
      · exact buildInboundClusterForPortOrUDS_tsm _ h
      · exact ih _ c hc

theorem ingressClusterFor_tsm (env : Environment) (proxy : Proxy) (push : PushContext)
    (insts : List ServiceInstance) (lh sid cn cns : String) (il : IstioIngressListener)
    (c : Cluster) (h : env.mesh.enableAutoMtls = false)
    (hc : ingressClusterFor env proxy push insts lh sid cn cns il = some c) :
    c.transportSocketMatches = [] := by
  unfold ingressClusterFor at hc
  repeat' split at hc
  all_goals try simp at hc
  all_goals repeat' split at hc
  all_goals try simp at hc
  all_goals
    cases hc
    exact buildInboundClusterForPortOrUDS_tsm _ h

theorem ingressLoop_tsm (env : Environment) (proxy : Proxy) (push : PushContext)
    (insts : List ServiceInstance) (lh sid cn cns : String)
    (h : env.mesh.enableAutoMtls = false) :
    ∀ ls : List IstioIngressListener,
      ∀ c ∈ ingressLoop env proxy push insts lh sid cn cns ls,
        c.transportSocketMatches = [] := by
  intro ls c hc
  simp only [ingressLoop, List.mem_filterMap] at hc
  rcases hc with ⟨il, _, heq⟩
  exact ingressClusterFor_tsm env proxy push insts lh sid cn cns il c h heq

theorem buildInboundClusters_tsm (env : Environment) (proxy : Proxy) (push : PushContext)
    (insts : List ServiceInstance) (mgmt : List Port)
    (h : env.mesh.enableAutoMtls = false) :
    ∀ c ∈ buildInboundClusters env proxy push insts mgmt,
      c.transportSocketMatches = [] := by
  intro c hc
  simp only [buildInboundClusters] at hc
  split at hc
  · split at hc
    · simp at hc
    · rcases List.mem_append.mp hc with hcc | hcc
      · exact inboundInstanceLoop_tsm env proxy push _ h [] insts c hcc
      · rcases List.mem_map.mp hcc with ⟨port, _, rfl⟩
        exact managementClusterFor_tsm env proxy _ port h
  · split at hc
    · simp at hc
    · exact ingressLoop_tsm env proxy push insts _ _ _ _ h _ c hc

theorem buildSubsetCluster_tsm (env : Environment) (proxy : Proxy) (service : Service)
    (dr : DestinationRule) (meta : Option (String × String)) (sa : List String)
    (dt : DiscoveryType) (port : Port) (subset : Subset) (lbE : List LocalityLbEndpoints)
    (h : env.mesh.enableAutoMtls = false) :
    (buildSubsetCluster env proxy service dr meta sa dt port subset lbE).transportSocketMatches = [] := by
  simp only [buildSubsetCluster]
  repeat' split
  all_goals simp [applyTrafficPolicy_tsm_noAuto, buildDefaultCluster_tsm, h]

theorem subsetLoop_tsm (env : Environment) (proxy : Proxy) (view : List String)
    (service : Service) (dr : DestinationRule) (meta : Option (String × String))
    (sa : List String) (dt : DiscoveryType) (port : Port)
    (h : env.mesh.enableAutoMtls = false) :
    ∀ (st : List LocalityLbEndpoints) (subsets : List Subset),
      ∀ c ∈ subsetLoop env proxy view service dr meta sa dt port st subsets,
        c.transportSocketMatches = [] := by
  intro st subsets
  induction subsets generalizing st with
  | nil => intro c hc; simp [subsetLoop] at hc
  | cons s rest ih =>
    intro c hc
    simp only [subsetLoop] at hc
    rcases List.mem_cons.mp hc with rfl | hc
    · exact buildSubsetCluster_tsm _ _ _ _ _ _ _ _ _ _ h
    · exact ih _ c hc

theorem outboundClustersForPort_tsm (env : Environment) (proxy : Proxy) (push : PushContext)
    (view : List String) (service : Service) (dr : Option DestinationRuleConfig) (port : Port)
    (h : env.mesh.enableAutoMtls = false) :
    ∀ c ∈ outboundClustersForPort env proxy push view service dr port,
      c.transportSocketMatches = [] := by
  intro c hc
  simp only [outboundClustersForPort] at hc
  rcases List.mem_cons.mp hc with rfl | hc
  · repeat' split
    all_goals simp [applyTrafficPolicy_tsm_noAuto, buildDefaultCluster_tsm, h]
  · exact subsetLoop_tsm env proxy view service _ _ _ _ port h _ _ c hc

theorem buildOutboundClusters_tsm (env : Environment) (proxy : Proxy) (push : PushContext)
    (h : env.mesh.enableAutoMtls = false) :
    ∀ c ∈ buildOutboundClusters env proxy push, c.transportSocketMatches = [] := by
  suffices hs : ∀ services : List Service,
      ∀ c ∈ outboundServiceLoop env proxy push proxy.networkView services,
        c.transportSocketMatches = [] by
    intro c hc
    exact hs push.services c hc
  intro services
  induction services with
  | nil => intro c hc; simp [outboundServiceLoop] at hc
  | cons service rest ih =>
    intro c hc
    simp only [outboundServiceLoop] at hc
    rcases List.mem_append.mp hc with hcc | hcc
    · have : ∀ ports : List Port,
          ∀ c ∈ outboundPortLoop env proxy push proxy.networkView service
            (push.destinationRuleByHost service.hostname) ports,
            c.transportSocketMatches = [] := by
        intro ports
        induction ports with
        | nil => intro c hc; simp [outboundPortLoop] at hc
        | cons port prest pih =>
          intro c hc
          simp only [outboundPortLoop] at hc
          split at hc
          · exact pih c hc
          · rcases List.mem_append.mp hc with hccc | hccc
            · exact outboundClustersForPort_tsm env proxy push _ service _ port h c hccc
            · exact pih c hccc
      exact this service.ports c hcc
    · exact ih c hcc

theorem sniDnatSubsetLoop_tsm (env : Environment) (proxy : Proxy) (view : List String)
    (service : Service) (dr : DestinationRule) (meta : Option (String × String))
    (dt : DiscoveryType) (port : Port) (h : env.mesh.enableAutoMtls = false) :
    ∀ (st : List LocalityLbEndpoints) (subsets : List Subset),
      ∀ c ∈ sniDnatSubsetLoop env proxy view service dr meta dt port st subsets,
        c.transportSocketMatches = [] := by
  intro st subsets
  induction subsets generalizing st with
  | nil => intro c hc; simp [sniDnatSubsetLoop] at hc
  | cons s rest ih =>
    intro c hc
    simp only [sniDnatSubsetLoop] at hc
    rcases List.mem_cons.mp hc with rfl | hc
    · simp [applyTrafficPolicy_tsm_noAuto, buildDefaultCluster_tsm, h]
    · exact ih _ c hc

theorem sniDnatClustersForPort_tsm (env : Environment) (proxy : Proxy) (push : PushContext)
    (view : List String) (service : Service) (dr : Option DestinationRuleConfig) (port : Port)
    (h : env.mesh.enableAutoMtls = false) :
    ∀ c ∈ sniDnatClustersForPort env proxy push view service dr port,
      c.transportSocketMatches = [] := by
  intro c hc
  simp only [sniDnatClustersForPort] at hc
  split at hc
  · simp only [List.mem_singleton] at hc
    subst hc
    simp [buildDefaultCluster_tsm, h]
  · rcases List.mem_cons.mp hc with rfl | hc
    · simp [applyTrafficPolicy_tsm_noAuto, buildDefaultCluster_tsm, h]
    · exact sniDnatSubsetLoop_tsm env proxy view service _ _ _ port h _ _ c hc

theorem buildOutboundSniDnatClusters_tsm (env : Environment) (proxy : Proxy)
    (push : PushContext) (h : env.mesh.enableAutoMtls = false) :
    ∀ c ∈ buildOutboundSniDnatClusters env proxy push,
      c.transportSocketMatches = [] := by
  suffices hs : ∀ services : List Service,
      ∀ c ∈ sniDnatServiceLoop env proxy push proxy.networkView services,
        c.transportSocketMatches = [] by
    intro c hc
    exact hs push.services c hc
  intro services
  induction services with
  | nil => intro c hc; simp [sniDnatServiceLoop] at hc
  | cons service rest ih =>
    intro c hc
    simp only [sniDnatServiceLoop] at hc
    split at hc
    · exact ih c hc
    · rcases List.mem_append.mp hc with hcc | hcc
      · have : ∀ ports : List Port,
            ∀ c ∈ sniDnatPortLoop env proxy push proxy.networkView service
              (push.destinationRuleByHost service.hostname) ports,
              c.transportSocketMatches = [] := by
          intro ports
          induction ports with
          | nil => intro c hc; simp [sniDnatPortLoop] at hc
          | cons port prest pih =>
            intro c hc
            simp only [sniDnatPortLoop] at hc
            split at hc
            · exact pih c hc
            · rcases List.mem_append.mp hc with hccc | hccc
              · exact sniDnatClustersForPort_tsm env proxy push _ service _ port h c hccc
              · exact pih c hccc
        exact this service.ports c hcc
      · exact ih c hcc

/-- C4: when the mesh-wide auto-mTLS flag is disabled, no cluster returned
by the build carries a transport-socket-match list. -/
theorem claim_C4_noAutoMtlsNoTransportSocketMatches (env : Environment) (proxy : Proxy)
    (push : PushContext) (h : env.mesh.enableAutoMtls = false) :
    ∀ c ∈ (BuildClusters env proxy push).1, c.transportSocketMatches = [] := by
  intro c hc
  simp only [BuildClusters] at hc
  have hc' := mem_normalizeClusters _ c hc
  revert hc'
  cases proxy.type with
  | SidecarProxy =>
    intro hc'
    simp only [applyLocalityLBSetting_eq] at hc'
    rcases List.mem_append.mp hc' with h1 | h1
    · rcases List.mem_append.mp h1 with h2 | h2
      · exact buildOutboundClusters_tsm env proxy push h c h2
      · rcases List.mem_cons.mp h2 with rfl | h3
        · exact buildBlackHoleCluster_tsm env
        · simp only [List.mem_singleton] at h3
          subst h3
          exact buildDefaultPassthroughCluster_tsm env proxy
    · rcases List.mem_append.mp h1 with h2 | h2
      · exact buildInboundClusters_tsm env proxy push _ _ h c h2
      · exact generateInboundPassthroughClusters_tsm env proxy c h2
  | Router =>
    intro hc'
    simp only [applyLocalityLBSetting_eq] at hc'
    split at hc'
    · rcases List.mem_append.mp hc' with h1 | h1
      · rcases List.mem_append.mp h1 with h2 | h2
        · exact buildOutboundClusters_tsm env proxy push h c h2
        · simp only [List.mem_singleton] at h2
          subst h2
          exact buildBlackHoleCluster_tsm env
      · exact buildOutboundSniDnatClusters_tsm env proxy push h c h1
    · rcases List.mem_append.mp hc' with h1 | h1
      · exact buildOutboundClusters_tsm env proxy push h c h1
      · simp only [List.mem_singleton] at h1
        subst h1
        exact buildBlackHoleCluster_tsm env

theorem claim_C4_witness :
    envFixture.mesh.enableAutoMtls = false ∧
    buildBlackHoleCluster envFixture ∈
      (BuildClusters envFixture gatewayProxyFixture pushFixture).1 ∧
    (buildBlackHoleCluster envFixture).transportSocketMatches = [] :=
  ⟨rfl, by decide,
    claim_C4_noAutoMtlsNoTransportSocketMatches envFixture gatewayProxyFixture pushFixture rfl
      (buildBlackHoleCluster envFixture) (by decide)⟩

theorem C2Pre_buildDefaultCluster (env : Environment) (n : String) (d : DiscoveryType)
    (eps : List LocalityLbEndpoints) (dir : TrafficDirection) (proxy : Proxy)
    (port : Option Port) (ext : Bool) :
    C2Pre proxy (buildDefaultCluster env n d eps dir proxy port ext) := by
  refine ⟨?_, ?_, buildDefaultCluster_clusterProvided env n d eps dir proxy port ext⟩
  · intro hty
    rw [buildDefaultCluster_type] at hty
    rw [buildDefaultCluster_loadAssignment]
    rcases hty with h | h <;> simp [h]
  · intro hty
    rw [buildDefaultCluster_type] at hty
    rw [buildDefaultCluster_loadAssignment]
    subst hty
    simp

theorem C2Pre_applyTrafficPolicy (opts : BuildClusterOpts) (proxy : Proxy)
    (h : C2Pre proxy opts.cluster) :
    C2Pre proxy (applyTrafficPolicy opts proxy) := by
  obtain ⟨hla, hEdsLa, hdlb⟩ := h
  refine ⟨?_, ?_, applyTrafficPolicy_clusterProvided opts proxy hdlb⟩
  · intro hty
    rcases applyTrafficPolicy_type_or opts proxy with h | h
    · rw [applyTrafficPolicy_loadAssignment]
      exact hla (by rw [← h]; exact hty)
    · rcases hty with hty | hty <;> rw [h] at hty <;> simp at hty
  · intro hty
    rcases applyTrafficPolicy_type_or opts proxy with h | h
    · rw [applyTrafficPolicy_loadAssignment]
      exact hEdsLa (by rw [← h]; exact hty)
    · rw [h] at hty; simp at hty

theorem C2Pre_setUpstreamProtocol (fts : Features) (proxy : Proxy) (c : Cluster)
    (port : Port) (dir : TrafficDirection) (h : C2Pre proxy c) :
    C2Pre proxy (setUpstreamProtocol fts proxy c port dir) := by
  obtain ⟨hla, hEdsLa, hdlb⟩ := h
  exact ⟨by simpa using hla, by simpa using hEdsLa, by simpa using hdlb⟩

theorem C2Pre_altStatName (proxy : Proxy) (c : Cluster) (b : Prop) [Decidable b] (s : String)
    (h : C2Pre proxy c) :
    C2Pre proxy (if b then { c with altStatName := s } else c) := by
  obtain ⟨hla, hEdsLa, hdlb⟩ := h
  split <;> exact ⟨hla, hEdsLa, hdlb⟩

theorem C2Pre_tlsNone (proxy : Proxy) (c : Cluster) (h : C2Pre proxy c) :
    C2Pre proxy { c with tlsContext := none } :=
  h

theorem C2Pre_metadata (proxy : Proxy) (c : Cluster) (m : Option (String × String))
    (h : C2Pre proxy c) :
    C2Pre proxy { c with metadataConfigSource := m } :=
  h

theorem C2Inv_updateEds (fts : Features) (proxy : Proxy) (c : Cluster)
    (h : C2Pre proxy c) :
    C2Inv proxy (updateEds fts c) := by
  obtain ⟨hla, hEdsLa, hdlb⟩ := h
  refine ⟨?_, ?_, ?_⟩
  · intro hty
    rw [updateEds_discoveryType] at hty
    rw [updateEds_edsConfig, updateEds_loadAssignment, if_pos hty]
    exact ⟨rfl, hEdsLa hty⟩
  · intro hty
    rw [updateEds_discoveryType] at hty
    rw [updateEds_loadAssignment]
    exact Or.inl (hla hty)
  · intro hty
    rw [updateEds_discoveryType] at hty
    rw [updateEds_lbPolicy]
    exact hdlb hty

theorem C2Inv_metadata (proxy : Proxy) (c : Cluster) (m : Option (String × String))
    (h : C2Inv proxy c) :
    C2Inv proxy { c with metadataConfigSource := m } :=
  h



theorem C2Inv_buildBlackHoleCluster (env : Environment) (proxy : Proxy) :
    C2Inv proxy (buildBlackHoleCluster env) := by
  refine ⟨fun h => ?_, fun _ => Or.inr rfl, fun h => ?_⟩ <;>
    simp [buildBlackHoleCluster, emptyCluster] at h

theorem C2Inv_buildDefaultPassthroughCluster (env : Environment) (proxy : Proxy) :
    C2Inv proxy (buildDefaultPassthroughCluster env proxy) := by
  have hty : (buildDefaultPassthroughCluster env proxy).clusterDiscoveryType = .ORIGINAL_DST := by
    simp [buildDefaultPassthroughCluster]
  have hlbp : (buildDefaultPassthroughCluster env proxy).lbPolicy =
      lbPolicyClusterProvided proxy := by
    simp [buildDefaultPassthroughCluster]
  refine ⟨fun h => ?_, fun h => ?_, fun _ => hlbp⟩
  · rw [hty] at h; simp at h
  · rcases h with h | h <;> rw [hty] at h <;> simp at h

theorem C2Inv_rename_bind (proxy : Proxy) (c : Cluster) (n : String) (a : Option Address)
    (hty : c.clusterDiscoveryType = .ORIGINAL_DST) (h : C2Inv proxy c) :
    C2Inv proxy { c with name := n, upstreamBindConfigSourceAddress := a } := by
  obtain ⟨h1, _, h3⟩ := h
  refine ⟨h1, fun hs => ?_, h3⟩
  rcases hs with hs | hs <;>
    (change c.clusterDiscoveryType = _ at hs; rw [hty] at hs; cases hs)

theorem C2Inv_generateInboundPassthroughClusters (env : Environment) (proxy : Proxy) :
    ∀ c ∈ generateInboundPassthroughClusters env proxy, C2Inv proxy c := by
  intro c hc
  simp only [generateInboundPassthroughClusters] at hc
  have hty : (buildDefaultPassthroughCluster env proxy).clusterDiscoveryType =
      .ORIGINAL_DST := by
    simp [buildDefaultPassthroughCluster]
  have base := C2Inv_buildDefaultPassthroughCluster env proxy
  rcases List.mem_append.mp hc with h | h <;>
    [skip; skip] <;>
    · split at h
      · simp only [List.mem_singleton] at h
        subst h
        exact C2Inv_rename_bind proxy _ _ _ hty base
      · simp at h

set_option maxHeartbeats 4000000 in
theorem buildInboundClusterForPortOrUDS_static (p : InputParams) :
    (buildInboundClusterForPortOrUDS p).clusterDiscoveryType = .STATIC ∧
    (buildInboundClusterForPortOrUDS p).loadAssignment.isSome := by
  simp only [buildInboundClusterForPortOrUDS]
  repeat' split
  all_goals simp [buildDefaultCluster_type, buildDefaultCluster_loadAssignment]

theorem C2Inv_buildInboundClusterForPortOrUDS (proxy : Proxy) (p : InputParams) :
    C2Inv proxy (buildInboundClusterForPortOrUDS p) := by
  obtain ⟨hty, hla⟩ := buildInboundClusterForPortOrUDS_static p
  refine ⟨fun h => ?_, fun _ => Or.inl hla, fun h => ?_⟩ <;> rw [hty] at h <;> simp at h

theorem managementClusterFor_static (env : Environment) (proxy : Proxy) (lh : String)
    (port : Port) :
    (managementClusterFor env proxy lh port).clusterDiscoveryType = .STATIC ∧
    (managementClusterFor env proxy lh port).loadAssignment.isSome := by
  simp [managementClusterFor, buildDefaultCluster_type, buildDefaultCluster_loadAssignment]

theorem C2Inv_managementClusterFor (env : Environment) (proxy : Proxy) (lh : String)
    (port : Port) :
    C2Inv proxy (managementClusterFor env proxy lh port) := by
  obtain ⟨hty, hla⟩ := managementClusterFor_static env proxy lh port
  refine ⟨fun h => ?_, fun _ => Or.inl hla, fun h => ?_⟩ <;> rw [hty] at h <;> simp at h

theorem C2Inv_inboundInstanceLoop (env : Environment) (proxy : Proxy) (push : PushContext)
    (lh : String) :
    ∀ (seen : List Port) (insts : List ServiceInstance),
      ∀ c ∈ inboundInstanceLoop env proxy push lh seen insts, C2Inv proxy c := by
  intro seen insts
  induction insts generalizing seen with
  | nil => intro c hc; simp [inboundInstanceLoop] at hc
  | cons i rest ih =>
    intro c hc
    simp only [inboundInstanceLoop] at hc
    split at hc
    · exact ih _ c hc
    · rcases List.mem_cons.mp hc with rfl | hc
      · exact C2Inv_buildInboundClusterForPortOrUDS proxy _
      · exact ih _ c hc

theorem C2Inv_ingressClusterFor (env : Environment) (proxy : Proxy) (push : PushContext)
    (insts : List ServiceInstance) (lh sid cn cns : String) (il : IstioIngressListener)
    (c : Cluster)
    (hc : ingressClusterFor env proxy push insts lh sid cn cns il = some c) :
    C2Inv proxy c := by
  unfold ingressClusterFor at hc
  repeat' split at hc
  all_goals try simp at hc
  all_goals repeat' split at hc
  all_goals try simp at hc
  all_goals
    cases hc
    exact C2Inv_buildInboundClusterForPortOrUDS proxy _

theorem C2Inv_ingressLoop (env : Environment) (proxy : Proxy) (push : PushContext)
    (insts : List ServiceInstance) (lh sid cn cns : String) :
    ∀ ls : List IstioIngressListener,
      ∀ c ∈ ingressLoop env proxy push insts lh sid cn cns ls, C2Inv proxy c := by
  intro ls c hc
  simp only [ingressLoop, List.mem_filterMap] at hc
  rcases hc with ⟨il, _, heq⟩
  exact C2Inv_ingressClusterFor env proxy push insts lh sid cn cns il c heq

theorem C2Inv_buildInboundClusters (env : Environment) (proxy : Proxy) (push : PushContext)
    (insts : List ServiceInstance) (mgmt : List Port) :
    ∀ c ∈ buildInboundClusters env proxy push insts mgmt, C2Inv proxy c := by
  intro c hc
  simp only [buildInboundClusters] at hc
  split at hc
  · split at hc
    · simp at hc
    · rcases List.mem_append.mp hc with hcc | hcc
      · exact C2Inv_inboundInstanceLoop env proxy push _ [] insts c hcc
      · rcases List.mem_map.mp hcc with ⟨port, _, rfl⟩
        exact C2Inv_managementClusterFor env proxy _ port
  · split at hc
    · simp at hc
    · exact C2Inv_ingressLoop env proxy push insts _ _ _ _ _ c hc

theorem C2Inv_buildSubsetCluster (env : Environment) (proxy : Proxy) (service : Service)
    (dr : DestinationRule) (meta : Option (String × String)) (sa : List String)
    (dt : DiscoveryType) (port : Port) (subset : Subset) (lbE : List LocalityLbEndpoints) :
    C2Inv proxy (buildSubsetCluster env proxy service dr meta sa dt port subset lbE) := by
  simp only [buildSubsetCluster]
  exact C2Inv_metadata _ _ _
    (C2Inv_updateEds _ _ _
      (C2Pre_applyTrafficPolicy _ _
        (C2Pre_applyTrafficPolicy _ _
          (C2Pre_setUpstreamProtocol _ _ _ _ _
            (C2Pre_altStatName _ _ _ _
              (C2Pre_buildDefaultCluster _ _ _ _ _ _ _ _))))))

theorem C2Inv_subsetLoop (env : Environment) (proxy : Proxy) (view : List String)
    (service : Service) (dr : DestinationRule) (meta : Option (String × String))
    (sa : List String) (dt : DiscoveryType) (port : Port) :
    ∀ (st : List LocalityLbEndpoints) (subsets : List Subset),
      ∀ c ∈ subsetLoop env proxy view service dr meta sa dt port st subsets,
        C2Inv proxy c := by
  intro st subsets
  induction subsets generalizing st with
  | nil => intro c hc; simp [subsetLoop] at hc
  | cons s rest ih =>
    intro c hc
    simp only [subsetLoop] at hc
    rcases List.mem_cons.mp hc with rfl | hc
    · exact C2Inv_buildSubsetCluster _ _ _ _ _ _ _ _ _ _
    · exact ih _ c hc

theorem C2Inv_outboundClustersForPort (env : Environment) (proxy : Proxy) (push : PushContext)
    (view : List String) (service : Service) (dr : Option DestinationRuleConfig) (port : Port) :
    ∀ c ∈ outboundClustersForPort env proxy push view service dr port, C2Inv proxy c := by
  intro c hc
  simp only [outboundClustersForPort] at hc
  rcases List.mem_cons.mp hc with rfl | hc
  · exact C2Inv_updateEds _ _ _
      (C2Pre_metadata _ _ _
        (C2Pre_applyTrafficPolicy _ _
          (C2Pre_setUpstreamProtocol _ _ _ _ _
            (C2Pre_altStatName _ _ _ _
              (C2Pre_buildDefaultCluster _ _ _ _ _ _ _ _)))))
  · exact C2Inv_subsetLoop env proxy view service _ _ _ _ port _ _ c hc

theorem C2Inv_buildOutboundClusters (env : Environment) (proxy : Proxy) (push : PushContext) :
    ∀ c ∈ buildOutboundClusters env proxy push, C2Inv proxy c := by
  suffices hs : ∀ services : List Service,
      ∀ c ∈ outboundServiceLoop env proxy push proxy.networkView services, C2Inv proxy c by
    intro c hc
    exact hs push.services c hc
  intro services
  induction services with
  | nil => intro c hc; simp [outboundServiceLoop] at hc
  | cons service rest ih =>
    intro c hc
    simp only [outboundServiceLoop] at hc
    rcases List.mem_append.mp hc with hcc | hcc
    · have : ∀ ports : List Port,
          ∀ c ∈ outboundPortLoop env proxy push proxy.networkView service
            (push.destinationRuleByHost service.hostname) ports, C2Inv proxy c := by
        intro ports
        induction ports with
        | nil => intro c hc; simp [outboundPortLoop] at hc
        | cons port prest pih =>
          intro c hc
          simp only [outboundPortLoop] at hc
          split at hc
          · exact pih c hc
          · rcases List.mem_append.mp hc with hccc | hccc
            · exact C2Inv_outboundClustersForPort env proxy push _ service _ port c hccc
            · exact pih c hccc
      exact this service.ports c hcc
    · exact ih c hcc

theorem C2Inv_sniDnatSubsetLoop (env : Environment) (proxy : Proxy) (view : List String)
    (service : Service) (dr : DestinationRule) (meta : Option (String × String))
    (dt : DiscoveryType) (port : Port) :
    ∀ (st : List LocalityLbEndpoints) (subsets : List Subset),
      ∀ c ∈ sniDnatSubsetLoop env proxy view service dr meta dt port st subsets,
        C2Inv proxy c := by
  intro st subsets
  induction subsets generalizing st with
  | nil => intro c hc; simp [sniDnatSubsetLoop] at hc
  | cons s rest ih =>
    intro c hc
    simp only [sniDnatSubsetLoop] at hc
    rcases List.mem_cons.mp hc with rfl | hc
    · exact C2Inv_metadata _ _ _
        (C2Inv_updateEds _ _ _
          (C2Pre_applyTrafficPolicy _ _
            (C2Pre_applyTrafficPolicy _ _
              (C2Pre_tlsNone _ _
                (C2Pre_buildDefaultCluster _ _ _ _ _ _ _ _)))))
    · exact ih _ c hc

theorem C2Inv_sniDnatClustersForPort (env : Environment) (proxy : Proxy) (push : PushContext)
    (view : List String) (service : Service) (dr : Option DestinationRuleConfig) (port : Port) :
    ∀ c ∈ sniDnatClustersForPort env proxy push view service dr port, C2Inv proxy c := by
  intro c hc
  simp only [sniDnatClustersForPort] at hc
  split at hc
  · simp only [List.mem_singleton] at hc
    subst hc
    exact C2Inv_updateEds _ _ _
      (C2Pre_tlsNone _ _ (C2Pre_buildDefaultCluster _ _ _ _ _ _ _ _))
  · rcases List.mem_cons.mp hc with rfl | hc
    · exact C2Inv_updateEds _ _ _
        (C2Pre_metadata _ _ _
          (C2Pre_applyTrafficPolicy _ _
            (C2Pre_tlsNone _ _ (C2Pre_buildDefaultCluster _ _ _ _ _ _ _ _))))
    · exact C2Inv_sniDnatSubsetLoop env proxy view service _ _ _ port _ _ c hc

theorem C2Inv_buildOutboundSniDnatClusters (env : Environment) (proxy : Proxy)
    (push : PushContext) :
    ∀ c ∈ buildOutboundSniDnatClusters env proxy push, C2Inv proxy c := by
  suffices hs : ∀ services : List Service,
      ∀ c ∈ sniDnatServiceLoop env proxy push proxy.networkView services, C2Inv proxy c by
    intro c hc
    exact hs push.services c hc
  intro services
  induction services with
  | nil => intro c hc; simp [sniDnatServiceLoop] at hc
  | cons service rest ih =>
    intro c hc
    simp only [sniDnatServiceLoop] at hc
    split at hc
    · exact ih c hc
    · rcases List.mem_append.mp hc with hcc | hcc
      · have : ∀ ports : List Port,
            ∀ c ∈ sniDnatPortLoop env proxy push proxy.networkView service
              (push.destinationRuleByHost service.hostname) ports, C2Inv proxy c := by
          intro ports
          induction ports with
          | nil => intro c hc; simp [sniDnatPortLoop] at hc
          | cons port prest pih =>
            intro c hc
            simp only [sniDnatPortLoop] at hc
            split at hc
            · exact pih c hc
            · rcases List.mem_append.mp hc with hccc | hccc
              · exact C2Inv_sniDnatClustersForPort env proxy push _ service _ port c hccc
              · exact pih c hccc
        exact this service.ports c hcc
      · exact ih c hcc

/-- C2, amended: every built cluster's endpoint source matches its
discovery type — EDS clusters get an EDS config attached and carry no
inline assignment, STATIC and STRICT_DNS clusters carry an inline
assignment except for the endpoint-less blackhole sink, and ORIGINAL_DST
clusters use CLUSTER_PROVIDED (ORIGINAL_DST_LB below Istio 1.3). -/
theorem claim_C2_amended (env : Environment) (proxy : Proxy) (push : PushContext) :
    ∀ c ∈ (BuildClusters env proxy push).1, C2Inv proxy c := by
  intro c hc
  simp only [BuildClusters] at hc
  have hc' := mem_normalizeClusters _ c hc
  revert hc'
  cases proxy.type with
  | SidecarProxy =>
    intro hc'
    simp only [applyLocalityLBSetting_eq] at hc'
    rcases List.mem_append.mp hc' with h1 | h1
    · rcases List.mem_append.mp h1 with h2 | h2
      · exact C2Inv_buildOutboundClusters env proxy push c h2
      · rcases List.mem_cons.mp h2 with rfl | h3
        · exact C2Inv_buildBlackHoleCluster env proxy
        · simp only [List.mem_singleton] at h3
          subst h3
          exact C2Inv_buildDefaultPassthroughCluster env proxy
    · rcases List.mem_append.mp h1 with h2 | h2
      · exact C2Inv_buildInboundClusters env proxy push _ _ c h2
      · exact C2Inv_generateInboundPassthroughClusters env proxy c h2
  | Router =>
    intro hc'
    simp only [applyLocalityLBSetting_eq] at hc'
    split at hc'
    · rcases List.mem_append.mp hc' with h1 | h1
      · rcases List.mem_append.mp h1 with h2 | h2
        · exact C2Inv_buildOutboundClusters env proxy push c h2
        · simp only [List.mem_singleton] at h2
          subst h2
          exact C2Inv_buildBlackHoleCluster env proxy
      · exact C2Inv_buildOutboundSniDnatClusters env proxy push c h1
    · rcases List.mem_append.mp hc' with h1 | h1
      · exact C2Inv_buildOutboundClusters env proxy push c h1
      · simp only [List.mem_singleton] at h1
        subst h1
        exact C2Inv_buildBlackHoleCluster env proxy

/-- C2 counterexample: the blackhole sink is a STATIC cluster with no
inline load assignment, so the unqualified claim that non-EDS clusters
always carry inline endpoints fails on any build that emits it. -/
theorem claim_C2_counterexample :
    ¬ (∀ c ∈ (BuildClusters envFixture gatewayProxyFixture pushFixture).1,
        (c.clusterDiscoveryType = .EDS →
          c.edsClusterConfig.isSome ∧ c.loadAssignment = none) ∧
        ((c.clusterDiscoveryType = .STATIC ∨ c.clusterDiscoveryType = .STRICT_DNS) →
          c.loadAssignment.isSome) ∧
        (c.clusterDiscoveryType = .ORIGINAL_DST →
          c.lbPolicy = lbPolicyClusterProvided gatewayProxyFixture)) := by
  decide

theorem claim_C2_amended_witness :
    buildBlackHoleCluster envFixture ∈
      (BuildClusters envFixture gatewayProxyFixture pushFixture).1 ∧
    C2Inv gatewayProxyFixture (buildBlackHoleCluster envFixture) :=
  ⟨by decide,
    claim_C2_amended envFixture gatewayProxyFixture pushFixture
      (buildBlackHoleCluster envFixture) (by decide)⟩

theorem dropUdpService_hostname (s : Service) :
    (dropUdpService s).hostname = s.hostname := rfl

theorem dropUdpService_resolution (s : Service) :
    (dropUdpService s).resolution = s.resolution := rfl

theorem dropUdpService_meshExternal (s : Service) :
    (dropUdpService s).meshExternal = s.meshExternal := rfl

theorem dropUdpService_attributes (s : Service) :
    (dropUdpService s).attributes = s.attributes := rfl

theorem dropUdpService_ports (s : Service) :
    (dropUdpService s).ports =
      s.ports.filter (fun p => decide (p.protocol ≠ Protocol.UDP)) := rfl

theorem dropUdpPush_destinationRuleByHost (push : PushContext) :
    (dropUdpPush push).destinationRuleByHost = push.destinationRuleByHost := rfl

theorem dropUdpPush_serviceAccounts (push : PushContext) :
    (dropUdpPush push).serviceAccounts = push.serviceAccounts := rfl

theorem dropUdpPush_services (push : PushContext) :
    (dropUdpPush push).services = push.services.map dropUdpService := rfl

theorem buildLocalityLbEndpoints_dropUdp (env : Environment) (view : List String)
    (s : Service) (port : Nat) (lbls : List (List (String × String))) :
    buildLocalityLbEndpoints env view (dropUdpService s) port lbls =
      buildLocalityLbEndpoints env view s port lbls := rfl

theorem buildSubsetCluster_dropUdp (env : Environment) (proxy : Proxy) (s : Service)
    (dr : DestinationRule) (meta : Option (String × String)) (sa : List String)
    (dt : DiscoveryType) (port : Port) (subset : Subset) (lbE : List LocalityLbEndpoints) :
    buildSubsetCluster env proxy (dropUdpService s) dr meta sa dt port subset lbE =
      buildSubsetCluster env proxy s dr meta sa dt port subset lbE := rfl

theorem subsetLoop_dropUdp (env : Environment) (proxy : Proxy) (view : List String)
    (s : Service) (dr : DestinationRule) (meta : Option (String × String))
    (sa : List String) (dt : DiscoveryType) (port : Port) :
    ∀ (st : List LocalityLbEndpoints) (subsets : List Subset),
      subsetLoop env proxy view (dropUdpService s) dr meta sa dt port st subsets =
        subsetLoop env proxy view s dr meta sa dt port st subsets := by
  intro st subsets
  induction subsets generalizing st with
  | nil => rfl
  | cons sub rest ih =>
    simp only [subsetLoop, buildLocalityLbEndpoints_dropUdp, buildSubsetCluster_dropUdp, ih]

theorem outboundClustersForPort_dropUdp (env : Environment) (proxy : Proxy)
    (push : PushContext) (view : List String) (s : Service)
    (dr : Option DestinationRuleConfig) (port : Port) :
    outboundClustersForPort env proxy (dropUdpPush push) view (dropUdpService s) dr port =
      outboundClustersForPort env proxy push view s dr port := by
  simp only [outboundClustersForPort, buildLocalityLbEndpoints_dropUdp, subsetLoop_dropUdp,
    dropUdpService_hostname, dropUdpService_resolution, dropUdpService_meshExternal,
    dropUdpService_attributes, dropUdpPush_serviceAccounts]

theorem outboundPortLoop_dropUdp (env : Environment) (proxy : Proxy) (push : PushContext)
    (view : List String) (s : Service) (dr : Option DestinationRuleConfig) :
    ∀ ports : List Port,
      outboundPortLoop env proxy (dropUdpPush push) view (dropUdpService s) dr
          (ports.filter (fun p => decide (p.protocol ≠ Protocol.UDP))) =
        outboundPortLoop env proxy push view s dr ports := by
  intro ports
  induction ports with
  | nil => rfl
  | cons p rest ih =>
    by_cases hp : p.protocol = Protocol.UDP
    · have hf : (p :: rest).filter (fun q => decide (q.protocol ≠ Protocol.UDP)) =
          rest.filter (fun q => decide (q.protocol ≠ Protocol.UDP)) := by
        simp [List.filter_cons, hp]
      rw [hf, ih]
      conv_rhs => rw [outboundPortLoop]
      rw [if_pos hp]
    · have hf : (p :: rest).filter (fun q => decide (q.protocol ≠ Protocol.UDP)) =
          p :: rest.filter (fun q => decide (q.protocol ≠ Protocol.UDP)) := by
        simp [List.filter_cons, hp]
      rw [hf]
      conv_lhs => rw [outboundPortLoop]
      conv_rhs => rw [outboundPortLoop]
      rw [if_neg hp, if_neg hp, outboundClustersForPort_dropUdp, ih]

theorem outboundServiceLoop_dropUdp (env : Environment) (proxy : Proxy) (push : PushContext)
    (view : List String) :
    ∀ services : List Service,
      outboundServiceLoop env proxy (dropUdpPush push) view (services.map dropUdpService) =
        outboundServiceLoop env proxy push view services := by
  intro services
  induction services with
  | nil => rfl
  | cons s rest ih =>
    simp only [List.map_cons, outboundServiceLoop, ih]
    congr 1
    have h3 : (dropUdpService s).ports =
        s.ports.filter (fun p => decide (p.protocol ≠ Protocol.UDP)) := rfl
    rw [dropUdpPush_destinationRuleByHost, dropUdpService_hostname, h3]
    exact outboundPortLoop_dropUdp env proxy push view s _ s.ports

theorem sniDnatSubsetLoop_dropUdp (env : Environment) (proxy : Proxy) (view : List String)
    (s : Service) (dr : DestinationRule) (meta : Option (String × String))
    (dt : DiscoveryType) (port : Port) :
    ∀ (st : List LocalityLbEndpoints) (subsets : List Subset),
      sniDnatSubsetLoop env proxy view (dropUdpService s) dr meta dt port st subsets =
        sniDnatSubsetLoop env proxy view s dr meta dt port st subsets := by
  intro st subsets
  induction subsets generalizing st with
  | nil => rfl
  | cons sub rest ih =>
    simp only [sniDnatSubsetLoop, buildLocalityLbEndpoints_dropUdp, dropUdpService_hostname,
      dropUdpService_meshExternal, ih]

theorem sniDnatClustersForPort_dropUdp (env : Environment) (proxy : Proxy)
    (push : PushContext) (view : List String) (s : Service)
    (dr : Option DestinationRuleConfig) (port : Port) :
    sniDnatClustersForPort env proxy (dropUdpPush push) view (dropUdpService s) dr port =
      sniDnatClustersForPort env proxy push view s dr port := by
  cases dr with
  | none =>
    simp only [sniDnatClustersForPort, buildLocalityLbEndpoints_dropUdp,
      dropUdpService_hostname, dropUdpService_resolution, dropUdpService_meshExternal]
  | some cfg =>
    simp only [sniDnatClustersForPort, buildLocalityLbEndpoints_dropUdp,
      dropUdpService_hostname, dropUdpService_resolution, dropUdpService_meshExternal,
      sniDnatSubsetLoop_dropUdp]

theorem sniDnatPortLoop_dropUdp (env : Environment) (proxy : Proxy) (push : PushContext)
    (view : List String) (s : Service) (dr : Option DestinationRuleConfig) :
    ∀ ports : List Port,
      sniDnatPortLoop env proxy (dropUdpPush push) view (dropUdpService s) dr
          (ports.filter (fun p => decide (p.protocol ≠ Protocol.UDP))) =
        sniDnatPortLoop env proxy push view s dr ports := by
  intro ports
  induction ports with
  | nil => rfl
  | cons p rest ih =>
    by_cases hp : p.protocol = Protocol.UDP
    · have hf : (p :: rest).filter (fun q => decide (q.protocol ≠ Protocol.UDP)) =
          rest.filter (fun q => decide (q.protocol ≠ Protocol.UDP)) := by
        simp [List.filter_cons, hp]
      rw [hf, ih]
      conv_rhs => rw [sniDnatPortLoop]
      rw [if_pos hp]
    · have hf : (p :: rest).filter (fun q => decide (q.protocol ≠ Protocol.UDP)) =
          p :: rest.filter (fun q => decide (q.protocol ≠ Protocol.UDP)) := by
        simp [List.filter_cons, hp]
      rw [hf]
      conv_lhs => rw [sniDnatPortLoop]
      conv_rhs => rw [sniDnatPortLoop]
      rw [if_neg hp, if_neg hp, sniDnatClustersForPort_dropUdp, ih]

theorem sniDnatServiceLoop_dropUdp (env : Environment) (proxy : Proxy) (push : PushContext)
    (view : List String) :
    ∀ services : List Service,
      sniDnatServiceLoop env proxy (dropUdpPush push) view (services.map dropUdpService) =
        sniDnatServiceLoop env proxy push view services := by
  intro services
  induction services with
  | nil => rfl
  | cons s rest ih =>
    simp only [List.map_cons, sniDnatServiceLoop, dropUdpService_meshExternal, ih]
    by_cases hm : s.meshExternal = true
    · rw [if_pos hm, if_pos hm]
    · rw [if_neg hm, if_neg hm]
      congr 1
      have h3 : (dropUdpService s).ports =
          s.ports.filter (fun p => decide (p.protocol ≠ Protocol.UDP)) := rfl
      rw [dropUdpPush_destinationRuleByHost, dropUdpService_hostname, h3]
      exact sniDnatPortLoop_dropUdp env proxy push view s _ s.ports

/-- C3, amended: the outbound and SNI-DNAT generators are invariant under
removing every UDP port from the visible services — UDP service ports
contribute no outbound or SNI-DNAT cluster. (The inbound generator has no
such filter; see the counterexample.) -/
theorem claim_C3_amended (env : Environment) (proxy : Proxy) (push : PushContext) :
    buildOutboundClusters env proxy (dropUdpPush push) =
        buildOutboundClusters env proxy push ∧
    buildOutboundSniDnatClusters env proxy (dropUdpPush push) =
        buildOutboundSniDnatClusters env proxy push := by
  constructor
  · show outboundServiceLoop env proxy (dropUdpPush push) proxy.networkView
        (push.services.map dropUdpService) = _
    exact outboundServiceLoop_dropUdp env proxy push proxy.networkView push.services
  · show sniDnatServiceLoop env proxy (dropUdpPush push) proxy.networkView
        (push.services.map dropUdpService) = _
    exact sniDnatServiceLoop_dropUdp env proxy push proxy.networkView push.services

/-- C3 counterexample: a sidecar whose only workload endpoint listens on a
UDP service port still receives an inbound cluster named after that port —
the inbound generator never checks the protocol, so UDP ports do
contribute clusters. -/
theorem claim_C3_counterexample :
    ¬ (∀ c ∈ (BuildClusters envFixture udpProxyFixture emptyPushFixture).1,
        c.name ≠
          buildSubsetKey .inbound udpPortFixture.name serviceFixture.hostname
            udpPortFixture.port) := by
  decide

theorem buildSubsetKey_outbound_data (sub host : String) (p : Nat) :
    ∃ l : List Char, (buildSubsetKey .outbound sub host p).data = "outbound".data ++ l := by
  refine ⟨"|".data ++ ((toString p).data ++ ("|".data ++ (sub.data ++ ("|".data ++ host.data)))), ?_⟩
  simp [buildSubsetKey, trafficDirectionString, String.data_append, List.append_assoc]

theorem buildDNSSrvSubsetKey_outbound_data (sub host : String) (p : Nat) :
    ∃ l : List Char, (buildDNSSrvSubsetKey .outbound sub host p).data = "outbound".data ++ l := by
  refine ⟨"_.".data ++ ((toString p).data ++ ("_.".data ++ (sub.data ++ ("_.".data ++ host.data)))), ?_⟩
  simp [buildDNSSrvSubsetKey, trafficDirectionString, String.data_append, List.append_assoc]

theorem buildSubsetKey_inbound_data (sub host : String) (p : Nat) :
    ∃ l : List Char, (buildSubsetKey .inbound sub host p).data = "inbound|".data ++ l := by
  refine ⟨(toString p).data ++ ("|".data ++ (sub.data ++ ("|".data ++ host.data))), ?_⟩
  have : "inbound|".data = "inbound".data ++ "|".data := rfl
  rw [this]
  simp [buildSubsetKey, trafficDirectionString, String.data_append, List.append_assoc]

theorem outboundNamed_props (c : Cluster) (h : outboundNamed c) :
    ¬ (c.name.data.take 8 = "inbound|".data) ∧
    c.name ≠ inboundPassthroughClusterIpv4 ∧
    c.name ≠ inboundPassthroughClusterIpv6 ∧
    c.name ≠ passthroughClusterName ∧
    c.name ≠ blackHoleClusterName := by
  obtain ⟨l, hl⟩ := h
  have htake : c.name.data.take 8 = "outbound".data := by
    rw [hl, show (8 : Nat) = "outbound".data.length from rfl, List.take_left]
  refine ⟨?_, ?_, ?_, ?_, ?_⟩
  · rw [htake]; decide
  all_goals
    intro heq
    rw [heq] at htake
    exact absurd htake (by decide)

theorem inboundNamed_props (c : Cluster) (h : inboundNamed c) :
    c.name ≠ passthroughClusterName ∧
    c.name ≠ blackHoleClusterName ∧
    c.name ≠ inboundPassthroughClusterIpv4 ∧
    c.name ≠ inboundPassthroughClusterIpv6 := by
  obtain ⟨l, hl⟩ := h
  have htake : c.name.data.take 8 = "inbound|".data := by
    rw [hl, show (8 : Nat) = "inbound|".data.length from rfl, List.take_left]
  refine ⟨?_, ?_, ?_, ?_⟩
  all_goals
    intro heq
    rw [heq] at htake
    exact absurd htake (by decide)


theorem buildSubsetCluster_name (env : Environment) (proxy : Proxy) (service : Service)
    (dr : DestinationRule) (meta : Option (String × String)) (sa : List String)
    (dt : DiscoveryType) (port : Port) (subset : Subset) (lbE : List LocalityLbEndpoints) :
    (buildSubsetCluster env proxy service dr meta sa dt port subset lbE).name =
      buildSubsetKey .outbound subset.name service.hostname port.port := by
  simp only [buildSubsetCluster]
  repeat' split
  all_goals simp [applyTrafficPolicy_name, buildDefaultCluster_name]

theorem buildInboundClusterForPortOrUDS_name (p : InputParams) :
    ∃ sub host pn,
      (buildInboundClusterForPortOrUDS p).name = buildSubsetKey .inbound sub host pn := by
  simp only [buildInboundClusterForPortOrUDS]
  repeat' split
  all_goals
    refine ⟨p.serviceInstance.endpoint.servicePort.name, p.serviceInstance.service.hostname,
      p.serviceInstance.endpoint.servicePort.port, ?_⟩
  all_goals simp [buildDefaultCluster_name]

theorem managementClusterFor_name (env : Environment) (proxy : Proxy) (lh : String)
    (port : Port) :
    (managementClusterFor env proxy lh port).name =
      buildSubsetKey .inbound port.name managementClusterHostname port.port := by
  simp [managementClusterFor, buildDefaultCluster_name]

theorem buildBlackHoleCluster_name (env : Environment) :
    (buildBlackHoleCluster env).name = blackHoleClusterName := rfl

theorem buildDefaultPassthroughCluster_name (env : Environment) (proxy : Proxy) :
    (buildDefaultPassthroughCluster env proxy).name = passthroughClusterName := by
  simp [buildDefaultPassthroughCluster]




theorem outboundNamed_buildSubsetCluster (env : Environment) (proxy : Proxy) (service : Service)
    (dr : DestinationRule) (meta : Option (String × String)) (sa : List String)
    (dt : DiscoveryType) (port : Port) (subset : Subset) (lbE : List LocalityLbEndpoints) :
    outboundNamed (buildSubsetCluster env proxy service dr meta sa dt port subset lbE) := by
  unfold outboundNamed
  rw [buildSubsetCluster_name]
  exact buildSubsetKey_outbound_data _ _ _

theorem outboundNamed_subsetLoop (env : Environment) (proxy : Proxy) (view : List String)
    (service : Service) (dr : DestinationRule) (meta : Option (String × String))
    (sa : List String) (dt : DiscoveryType) (port : Port) :
    ∀ (st : List LocalityLbEndpoints) (subsets : List Subset),
      ∀ c ∈ subsetLoop env proxy view service dr meta sa dt port st subsets,
        outboundNamed c := by
  intro st subsets
  induction subsets generalizing st with
  | nil => intro c hc; simp [subsetLoop] at hc
  | cons s rest ih =>
    intro c hc
    simp only [subsetLoop] at hc
    rcases List.mem_cons.mp hc with rfl | hc
    · exact outboundNamed_buildSubsetCluster _ _ _ _ _ _ _ _ _ _
    · exact ih _ c hc

theorem outboundNamed_outboundClustersForPort (env : Environment) (proxy : Proxy)
    (push : PushContext) (view : List String) (service : Service)
    (dr : Option DestinationRuleConfig) (port : Port) :
    ∀ c ∈ outboundClustersForPort env proxy push view service dr port, outboundNamed c := by
  intro c hc
  simp only [outboundClustersForPort] at hc
  rcases List.mem_cons.mp hc with rfl | hc
  · unfold outboundNamed
    have hname : ∀ x : Cluster, x.name = buildSubsetKey .outbound "" service.hostname port.port →
        ∃ l, x.name.data = "outbound".data ++ l := by
      intro x hx
      rw [hx]
      exact buildSubsetKey_outbound_data _ _ _
    apply hname
    repeat' split
    all_goals simp [applyTrafficPolicy_name, buildDefaultCluster_name]
  · exact outboundNamed_subsetLoop env proxy view service _ _ _ _ port _ _ c hc

theorem outboundNamed_buildOutboundClusters (env : Environment) (proxy : Proxy)
    (push : PushContext) :
    ∀ c ∈ buildOutboundClusters env proxy push, outboundNamed c := by
  suffices hs : ∀ services : List Service,
      ∀ c ∈ outboundServiceLoop env proxy push proxy.networkView services, outboundNamed c by
    intro c hc
    exact hs push.services c hc
  intro services
  induction services with
  | nil => intro c hc; simp [outboundServiceLoop] at hc
  | cons service rest ih =>
    intro c hc
    simp only [outboundServiceLoop] at hc
    rcases List.mem_append.mp hc with hcc | hcc
    · have : ∀ ports : List Port,
          ∀ c ∈ outboundPortLoop env proxy push proxy.networkView service
            (push.destinationRuleByHost service.hostname) ports, outboundNamed c := by
        intro ports
        induction ports with
        | nil => intro c hc; simp [outboundPortLoop] at hc
        | cons port prest pih =>
          intro c hc
          simp only [outboundPortLoop] at hc
          split at hc
          · exact pih c hc
          · rcases List.mem_append.mp hc with hccc | hccc
            · exact outboundNamed_outboundClustersForPort env proxy push _ service _ port c hccc
            · exact pih c hccc
      exact this service.ports c hcc
    · exact ih c hcc

theorem outboundNamed_sniDnatSubsetLoop (env : Environment) (proxy : Proxy) (view : List String)
    (service : Service) (dr : DestinationRule) (meta : Option (String × String))
    (dt : DiscoveryType) (port : Port) :
    ∀ (st : List LocalityLbEndpoints) (subsets : List Subset),
      ∀ c ∈ sniDnatSubsetLoop env proxy view service dr meta dt port st subsets,
        outboundNamed c := by
  intro st subsets
  induction subsets generalizing st with
  | nil => intro c hc; simp [sniDnatSubsetLoop] at hc
  | cons s rest ih =>
    intro c hc
    simp only [sniDnatSubsetLoop] at hc
    rcases List.mem_cons.mp hc with rfl | hc
    · unfold outboundNamed
      have hname : ∀ x : Cluster,
          x.name = buildDNSSrvSubsetKey .outbound s.name service.hostname port.port →
          ∃ l, x.name.data = "outbound".data ++ l := by
        intro x hx
        rw [hx]
        exact buildDNSSrvSubsetKey_outbound_data _ _ _
      apply hname
      simp [applyTrafficPolicy_name, buildDefaultCluster_name]
    · exact ih _ c hc

theorem outboundNamed_sniDnatClustersForPort (env : Environment) (proxy : Proxy)
    (push : PushContext) (view : List String) (service : Service)
    (dr : Option DestinationRuleConfig) (port : Port) :
    ∀ c ∈ sniDnatClustersForPort env proxy push view service dr port, outboundNamed c := by
  intro c hc
  have hname : ∀ x : Cluster,
      x.name = buildDNSSrvSubsetKey .outbound "" service.hostname port.port →
      outboundNamed x := by
    intro x hx
    unfold outboundNamed
    rw [hx]
    exact buildDNSSrvSubsetKey_outbound_data _ _ _
  simp only [sniDnatClustersForPort] at hc
  split at hc
  · simp only [List.mem_singleton] at hc
    subst hc
    apply hname
    simp [buildDefaultCluster_name]
  · rcases List.mem_cons.mp hc with rfl | hc
    · apply hname
      simp [applyTrafficPolicy_name, buildDefaultCluster_name]
    · exact outboundNamed_sniDnatSubsetLoop env proxy view service _ _ _ port _ _ c hc

theorem outboundNamed_buildOutboundSniDnatClusters (env : Environment) (proxy : Proxy)
    (push : PushContext) :
    ∀ c ∈ buildOutboundSniDnatClusters env proxy push, outboundNamed c := by
  suffices hs : ∀ services : List Service,
      ∀ c ∈ sniDnatServiceLoop env proxy push proxy.networkView services, outboundNamed c by
    intro c hc
    exact hs push.services c hc
  intro services
  induction services with
  | nil => intro c hc; simp [sniDnatServiceLoop] at hc
  | cons service rest ih =>
    intro c hc
    simp only [sniDnatServiceLoop] at hc
    split at hc
    · exact ih c hc
    · rcases List.mem_append.mp hc with hcc | hcc
      · have : ∀ ports : List Port,
            ∀ c ∈ sniDnatPortLoop env proxy push proxy.networkView service
              (push.destinationRuleByHost service.hostname) ports, outboundNamed c := by
          intro ports
          induction ports with
          | nil => intro c hc; simp [sniDnatPortLoop] at hc
          | cons port prest pih =>
            intro c hc
            simp only [sniDnatPortLoop] at hc
            split at hc
            · exact pih c hc
            · rcases List.mem_append.mp hc with hccc | hccc
              · exact outboundNamed_sniDnatClustersForPort env proxy push _ service _ port c hccc
              · exact pih c hccc
        exact this service.ports c hcc
      · exact ih c hcc

theorem inboundNamed_buildInboundClusterForPortOrUDS (p : InputParams) :
    inboundNamed (buildInboundClusterForPortOrUDS p) := by
  obtain ⟨sub, host, pn, hname⟩ := buildInboundClusterForPortOrUDS_name p
  unfold inboundNamed
  rw [hname]
  exact buildSubsetKey_inbound_data _ _ _

theorem inboundNamed_managementClusterFor (env : Environment) (proxy : Proxy) (lh : String)
    (port : Port) :
    inboundNamed (managementClusterFor env proxy lh port) := by
  unfold inboundNamed
  rw [managementClusterFor_name]
  exact buildSubsetKey_inbound_data _ _ _

theorem inboundNamed_inboundInstanceLoop (env : Environment) (proxy : Proxy)
    (push : PushContext) (lh : String) :
    ∀ (seen : List Port) (insts : List ServiceInstance),
      ∀ c ∈ inboundInstanceLoop env proxy push lh seen insts, inboundNamed c := by
  intro seen insts
  induction insts generalizing seen with
  | nil => intro c hc; simp [inboundInstanceLoop] at hc
  | cons i rest ih =>
    intro c hc
    simp only [inboundInstanceLoop] at hc
    split at hc
    · exact ih _ c hc
    · rcases List.mem_cons.mp hc with rfl | hc
      · exact inboundNamed_buildInboundClusterForPortOrUDS _
      · exact ih _ c hc

theorem inboundNamed_ingressClusterFor (env : Environment) (proxy : Proxy) (push : PushContext)
    (insts : List ServiceInstance) (lh sid cn cns : String) (il : IstioIngressListener)
    (c : Cluster)
    (hc : ingressClusterFor env proxy push insts lh sid cn cns il = some c) :
    inboundNamed c := by
  unfold ingressClusterFor at hc
  repeat' split at hc
  all_goals try simp at hc
  all_goals repeat' split at hc
  all_goals try simp at hc
  all_goals
    cases hc
    exact inboundNamed_buildInboundClusterForPortOrUDS _

theorem inboundNamed_ingressLoop (env : Environment) (proxy : Proxy) (push : PushContext)
    (insts : List ServiceInstance) (lh sid cn cns : String) :
    ∀ ls : List IstioIngressListener,
      ∀ c ∈ ingressLoop env proxy push insts lh sid cn cns ls, inboundNamed c := by
  intro ls c hc
  simp only [ingressLoop, List.mem_filterMap] at hc
  rcases hc with ⟨il, _, heq⟩
  exact inboundNamed_ingressClusterFor env proxy push insts lh sid cn cns il c heq

theorem inboundNamed_buildInboundClusters (env : Environment) (proxy : Proxy)
    (push : PushContext) (insts : List ServiceInstance) (mgmt : List Port) :
    ∀ c ∈ buildInboundClusters env proxy push insts mgmt, inboundNamed c := by
  intro c hc
  simp only [buildInboundClusters] at hc
  split at hc
  · split at hc
    · simp at hc
    · rcases List.mem_append.mp hc with hcc | hcc
      · exact inboundNamed_inboundInstanceLoop env proxy push _ [] insts c hcc
      · rcases List.mem_map.mp hcc with ⟨port, _, rfl⟩
        exact inboundNamed_managementClusterFor env proxy _ port
  · split at hc
    · simp at hc
    · exact inboundNamed_ingressLoop env proxy push insts _ _ _ _ _ c hc

theorem generateInboundPassthroughClusters_names (env : Environment) (proxy : Proxy) :
    ∀ c ∈ generateInboundPassthroughClusters env proxy,
      c.name = inboundPassthroughClusterIpv4 ∨ c.name = inboundPassthroughClusterIpv6 := by
  intro c hc
  simp only [generateInboundPassthroughClusters] at hc
  rcases List.mem_append.mp hc with h | h
  · split at h
    · simp only [List.mem_singleton] at h
      subst h
      exact Or.inl rfl
    · simp at h
  · split at h
    · simp only [List.mem_singleton] at h
      subst h
      exact Or.inr rfl
    · simp at h



theorem count_normalizeClusters_eq_one (cs : List Cluster) (n : String)
    (hmem : n ∈ cs.map (·.name)) :
    (((normalizeClusters cs).1).map (·.name)).count n = 1 := by
  have h := normalizeLoop_eq_spec cs [] [] (fun a => Iff.rfl)
  have h1 : (normalizeClusters cs).1 = specKeepFirst [] cs := by
    simpa [normalizeClusters] using congrArg Prod.fst h
  rw [h1]
  have hnodup := specKeepFirst_names_nodup cs []
  have hle := List.nodup_iff_count_le_one.mp hnodup n
  have hm : n ∈ (specKeepFirst [] cs).map (·.name) :=
    (specKeepFirst_name_mem cs [] n).mpr ⟨hmem, by simp⟩
  have hpos : ((specKeepFirst [] cs).map (·.name)).count n ≠ 0 := by
    intro h0
    exact (List.count_eq_zero.mp h0) hm
  omega

/-- C8: for a gateway (router) proxy the build output contains no
inbound-named cluster (neither an "inbound|" subset key nor an inbound
passthrough sink) and no sidecar PassthroughCluster; for a sidecar proxy
the output contains exactly one BlackHoleCluster and exactly one
PassthroughCluster. -/
theorem claim_C8_sinksByProxyType (env : Environment) (proxy : Proxy) (push : PushContext) :
    (proxy.type = .Router →
      ∀ c ∈ (BuildClusters env proxy push).1,
        ¬ (c.name.data.take 8 = "inbound|".data ∨
           c.name = inboundPassthroughClusterIpv4 ∨
           c.name = inboundPassthroughClusterIpv6) ∧
        c.name ≠ passthroughClusterName) ∧
    (proxy.type = .SidecarProxy →
      (((BuildClusters env proxy push).1.map (·.name)).count blackHoleClusterName = 1 ∧
       ((BuildClusters env proxy push).1.map (·.name)).count passthroughClusterName = 1)) := by
  constructor
  · intro hrt c hc
    simp only [BuildClusters] at hc
    have hc' := mem_normalizeClusters _ c hc
    rw [hrt] at hc'
    simp only [applyLocalityLBSetting_eq] at hc'
    have houtb : outboundNamed c →
        ¬ (c.name.data.take 8 = "inbound|".data ∨
           c.name = inboundPassthroughClusterIpv4 ∨
           c.name = inboundPassthroughClusterIpv6) ∧
        c.name ≠ passthroughClusterName := by
      intro h
      obtain ⟨hni, hi4, hi6, hpt, _⟩ := outboundNamed_props c h
      exact ⟨fun hor => hor.elim hni (fun hor2 => hor2.elim hi4 hi6), hpt⟩
    have hbh : c.name = blackHoleClusterName →
        ¬ (c.name.data.take 8 = "inbound|".data ∨
           c.name = inboundPassthroughClusterIpv4 ∨
           c.name = inboundPassthroughClusterIpv6) ∧
        c.name ≠ passthroughClusterName := by
      intro h
      rw [h]
      refine ⟨fun hor => ?_, by decide⟩
      rcases hor with h2 | h2 | h2 <;> exact absurd h2 (by decide)
    split at hc'
    · rcases List.mem_append.mp hc' with h1 | h1
      · rcases List.mem_append.mp h1 with h2 | h2
        · exact houtb (outboundNamed_buildOutboundClusters env proxy push c h2)
        · simp only [List.mem_singleton] at h2
          subst h2
          exact hbh (buildBlackHoleCluster_name env)
      · exact houtb (outboundNamed_buildOutboundSniDnatClusters env proxy push c h1)
    · rcases List.mem_append.mp hc' with h1 | h1
      · exact houtb (outboundNamed_buildOutboundClusters env proxy push c h1)
      · simp only [List.mem_singleton] at h1
        subst h1
        exact hbh (buildBlackHoleCluster_name env)
  · intro hsc
    simp only [BuildClusters]
    rw [hsc]
    constructor
    · refine count_normalizeClusters_eq_one _ _ ?_
      simp only [applyLocalityLBSetting_eq]
      refine List.mem_map.mpr ⟨buildBlackHoleCluster env, ?_, buildBlackHoleCluster_name env⟩
      simp [List.mem_append]
    · refine count_normalizeClusters_eq_one _ _ ?_
      simp only [applyLocalityLBSetting_eq]
      refine List.mem_map.mpr
        ⟨buildDefaultPassthroughCluster env proxy, ?_, buildDefaultPassthroughCluster_name env proxy⟩
      simp [List.mem_append]

theorem claim_C8_witness :
    (gatewayProxyFixture.type = .Router ∧
      buildBlackHoleCluster envFixture ∈
        (BuildClusters envFixture gatewayProxyFixture pushFixture).1 ∧
      (¬ ((buildBlackHoleCluster envFixture).name.data.take 8 = "inbound|".data ∨
          (buildBlackHoleCluster envFixture).name = inboundPassthroughClusterIpv4 ∨
          (buildBlackHoleCluster envFixture).name = inboundPassthroughClusterIpv6) ∧
        (buildBlackHoleCluster envFixture).name ≠ passthroughClusterName)) ∧
    (sidecarProxyFixture.type = .SidecarProxy ∧
      (((BuildClusters envFixture sidecarProxyFixture pushFixture).1.map (·.name)).count
          blackHoleClusterName = 1 ∧
       ((BuildClusters envFixture sidecarProxyFixture pushFixture).1.map (·.name)).count
          passthroughClusterName = 1)) :=
  ⟨⟨rfl, by decide,
      (claim_C8_sinksByProxyType envFixture gatewayProxyFixture pushFixture).1 rfl
        (buildBlackHoleCluster envFixture) (by decide)⟩,
    ⟨rfl, (claim_C8_sinksByProxyType envFixture sidecarProxyFixture pushFixture).2 rfl⟩⟩

theorem claim_C7_witness :
    (mutualTlsNoCertFixture.mode = .MUTUAL ∨ mutualTlsNoCertFixture.mode = .ISTIO_MUTUAL) ∧
    (mutualTlsNoCertFixture.clientCertificate = "" ∨ mutualTlsNoCertFixture.privateKey = "") ∧
    applyUpstreamTLSSettings envFixture emptyCluster (some mutualTlsNoCertFixture)
        .userSupplied sidecarProxyFixture = emptyCluster :=
  ⟨Or.inl rfl, Or.inl rfl,
    claim_C7_mutualWithoutMaterial envFixture emptyCluster mutualTlsNoCertFixture
      .userSupplied sidecarProxyFixture (Or.inl rfl) (Or.inl rfl)⟩

theorem claim_C10_witness :
    DiscoveryType.STRICT_DNS ≠ DiscoveryType.EDS ∧
    unlabeledSubsetFixture.labels = [] ∧
    lastLabeled [labeledSubsetFixture] = some labeledSubsetFixture ∧
    (subsetLoop envFixture sidecarProxyFixture [""] dnsServiceFixture defaultDestinationRule
        none [] .STRICT_DNS ⟨"tcp", 80, .TCP⟩ []
        ([labeledSubsetFixture] ++ unlabeledSubsetFixture :: []))[1]? =
      some (buildSubsetCluster envFixture sidecarProxyFixture dnsServiceFixture
        defaultDestinationRule none [] .STRICT_DNS ⟨"tcp", 80, .TCP⟩ unlabeledSubsetFixture
        (buildLocalityLbEndpoints envFixture [""] dnsServiceFixture 80
          [labeledSubsetFixture.labels])) :=
  ⟨by decide, rfl, by decide,
    claim_C10_subsetEndpointAliasing envFixture sidecarProxyFixture [""] dnsServiceFixture
      defaultDestinationRule none [] .STRICT_DNS ⟨"tcp", 80, .TCP⟩ []
      [labeledSubsetFixture] [] unlabeledSubsetFixture labeledSubsetFixture
      (by decide) rfl (by decide)⟩

end IstioCDS
